import Mathlib

/-!
# MAST flutter driver: a shallow embedding

Embedding of `examples/structural/beam_piston_theory_flutter/beam_piston_theory_flutter.cpp`
(class `MAST::BeamPistonTheoryFlutterAnalysis`) together with a model of the
time-domain flutter solver it drives, of
`examples/structural/plate_oscillating_load/plate_oscillating_load.cpp` (classes
`MAST::OscillatingDistributedLoad` and `MAST::PlateOscillatingLoad`) and of two
inline members of `MAST::StructuralElement3D`.

Conventions.
* `Real` (a C++ `double`) is embedded as `ℚ`; `1.e3`, `1200.` and `1.e-3` are the
  rationals `1000`, `1200` and `1/1000`. Where the code calls `acos`, `sin`, `cos`
  or `sqrt`, the scalars live in a field `R` that comes with these functions;
  the theorems about them take `R = ℝ` and the functions of Mathlib.
* A loop whose end is not evident from its form takes a `fuel` argument and
  returns `none` when the fuel runs out; the theorems show how much fuel
  suffices.
* A `libmesh_assert` that does not hold ends the call with `Failure.assertion`
  (assertion-enabled build); dereferencing a null pointer ends it with
  `Failure.null_dereference`, reading past the end of a vector with
  `Failure.index_out_of_range`.
* Every call into a collaborator (linear-algebra system, discipline, flutter
  solver, file writer) is recorded, with its arguments, in the `log` of the
  analysis object, in program order.
* What the collaborators compute is supplied by an `Env` (a `PlateEnv` for the
  plate example), which is universally quantified in the theorems.
-/

namespace MAST

/-- A dense real vector (`libMesh::NumericVector<Real>`). -/
abbrev RealVectorX := List ℚ

/-- A `MAST::Parameter`: a named scalar. `ptr` is the address returned by
`p.ptr()`; it is the identity of the object. -/
structure Parameter where
  ptr : Nat
  name : String
  value : ℚ
deriving DecidableEq, Repr

/-- A complex scalar with rational parts. -/
structure ComplexQ where
  re : ℚ
  im : ℚ
deriving DecidableEq, Repr

/-- The fields of `MAST::TimeDomainFlutterRootBase` that the driver reads. -/
structure TimeDomainFlutterRootBase where
  V : ℚ
  V_sens : ℚ
  eig_vec_right : List ComplexQ
deriving DecidableEq, Repr

/-- Arguments of `TimeDomainFlutterSolver::initialize`. -/
structure FlutterInit where
  velocity_param : Nat
  V_lower : ℚ
  V_upper : ℚ
  n_divisions : Nat
  basis : List (Option RealVectorX)
deriving DecidableEq, Repr

/-- Calls into collaborators, in the order the driver makes them.
`zero_clone i` is the call `_sys->solution->zero_clone()` that allocates the
vector of `_basis[i]`. -/
inductive Event where
  | flutter_clear
  | eigenproblem_solve (velocity : ℚ)
  | zero_clone (i : Nat)
  | print_eigenvalue (re : ℚ)
  | write_equation_systems (file : String) (solution : RealVectorX)
  | attach_assembly
  | flutter_initialize (init : FlutterInit)
  | scan_for_roots
  | print_sorted_roots
  | print_crossover_points
  | find_critical_root (tolerance : ℚ) (max_iterations : Nat)
  | clear_assembly_object
  | add_parameter (ptr : Nat)
  | remove_parameter (ptr : Nat)
  | calculate_sensitivity (root : TimeDomainFlutterRootBase) (params : List Nat) (i : Nat)
  | parameter_not_found (nm : String) (valid_names : List String)
deriving DecidableEq, Repr

/-- Ways a call can end without returning. -/
inductive Failure where
  | assertion (condition : String)
  | null_dereference
  | index_out_of_range
  | library_error
deriving DecidableEq, Repr

/-- What the collaborators compute during one call of the driver. -/
structure Env where
  /-- Value of `_sys->get_n_converged_eigenvalues()` after `eigenproblem_solve`. -/
  n_converged_eigenvalues : Nat
  /-- Result of `_sys->get_eigenpair(i, re, im, vec)`: `(re, im, vec)`. -/
  get_eigenpair : Nat → ℚ × ℚ × RealVectorX
  /-- Content of `*_sys->solution` after `get_eigenpair(i, ...)`, given the
  content before. -/
  solution_after_eigenpair : Nat → RealVectorX → RealVectorX
  /-- Result of `find_critical_root(tol, n)` on a solver initialised with `init`. -/
  find_critical_root : FlutterInit → ℚ → Nat → Bool × Option TimeDomainFlutterRootBase
  /-- Value the flutter solver leaves in the velocity parameter it was given. -/
  velocity_after_scan : ℚ
  /-- Root as left by `calculate_sensitivity(root, params, i)`, run while the
  discipline tracks the parameters `tracked`. -/
  calculate_sensitivity :
    Finset Nat → TimeDomainFlutterRootBase → List Nat → Nat → TimeDomainFlutterRootBase
  /-- Value the flutter solver leaves in the velocity parameter after
  `calculate_sensitivity`, given the value before. -/
  velocity_after_sensitivity : ℚ → ℚ

/-- Source: one pass of the loop of `get_parameter` (lines 255-261 of the beam
example, lines 369-375 of the plate example): `deref` reads the parameter a
pointer of `_params_for_sensitivity` points to, and the pair holds the local
variables `rval` and `found`. Reading through a pointer that points to no
parameter ends the call. -/
def get_parameter_step (deref : Nat → Option Parameter) (nm : String)
    (acc : Option Nat × Bool) (it : Nat) : Except Failure (Option Nat × Bool) :=
  match deref it with
  | none => Except.error Failure.null_dereference
  | some q =>
    -- if (nm == (*it)->name()) { rval = *it; found = true; }
    if nm = q.name then Except.ok (some it, true) else Except.ok acc

/-- Source: the names printed by the loop over `_params_for_sensitivity` when
the parameter was not found (lines 270-271 of the beam example, lines 384-385
of the plate example). -/
def valid_names (deref : Nat → Option Parameter) (params : List Nat) : List String :=
  params.filterMap (fun it => (deref it).map (fun q => q.name))

/-- State of a `MAST::BeamPistonTheoryFlutterAnalysis` object. -/
structure BeamPistonTheoryFlutterAnalysis where
  _thy : Parameter
  _thz : Parameter
  _rho : Parameter
  _E : Parameter
  _nu : Parameter
  _zero : Parameter
  _velocity : Parameter
  _mach : Parameter
  _rho_air : Parameter
  _gamma_air : Parameter
  /-- `_params_for_sensitivity`, as the addresses of the pointed-to members. -/
  _params_for_sensitivity : List Nat
  /-- `_sys->get_n_requested_eigenvalues()`. -/
  n_requested_eigenvalues : Nat
  /-- `*_sys->solution`. -/
  solution : RealVectorX
  /-- `_basis`: a vector of pointers, `none` for `NULL`. -/
  _basis : List (Option RealVectorX)
  /-- `_flutter_root`: `none` for `NULL`, otherwise the pointed-to root. -/
  _flutter_root : Option TimeDomainFlutterRootBase
  /-- Keys of `_discipline->_parameter_map` (`std::map<Real*, const FunctionBase*>`). -/
  _parameter_map : Finset Nat
  /-- Calls into collaborators made so far. -/
  log : List Event

/-- Result of a driver call: the state it leaves and either the returned
value or the failure that ended it. -/
structure Outcome (α : Type) where
  state : BeamPistonTheoryFlutterAnalysis
  result : Except Failure α

namespace BeamPistonTheoryFlutterAnalysis

/-- Append one collaborator call to the log. -/
def record (e : Event) (s : BeamPistonTheoryFlutterAnalysis) :
    BeamPistonTheoryFlutterAnalysis :=
  { s with log := s.log ++ [e] }

/-- Modelled from the spec: `PhysicsDisciplineBase::add_parameter` (declared in
`base/physics_discipline_base.h`, body not in the sources at hand). The
parameter joins the set "currently tracked for differentiation", keyed by
`p.ptr()` as in the declared `std::map<Real*, const FunctionBase*>`; a key that is
already present stays once. -/
def add_parameter (p : Nat) (s : BeamPistonTheoryFlutterAnalysis) :
    BeamPistonTheoryFlutterAnalysis :=
  record (Event.add_parameter p) { s with _parameter_map := insert p s._parameter_map }

/-- Modelled from the spec: `remove_parameter` of the discipline (body not in
the sources at hand): the parameter leaves the set "currently tracked for
differentiation". -/
def remove_parameter (p : Nat) (s : BeamPistonTheoryFlutterAnalysis) :
    BeamPistonTheoryFlutterAnalysis :=
  record (Event.remove_parameter p) { s with _parameter_map := s._parameter_map.erase p }

/-- Source: `BeamPistonTheoryFlutterAnalysis::sensitivity_solve(MAST::Parameter& p)`,
lines 416-443. -/
def sensitivity_solve (env : Env) (p : Parameter) (s0 : BeamPistonTheoryFlutterAnalysis) :
    Outcome ℚ :=
  -- libmesh_assert(_flutter_root);
  match s0._flutter_root with
  | none => ⟨s0, Except.error (Failure.assertion "_flutter_root")⟩
  | some root =>
    -- _discipline->add_parameter(*_velocity); _discipline->add_parameter(p);
    let s1 := add_parameter s0._velocity.ptr s0
    let s2 := add_parameter p.ptr s1
    -- params.resize(1); params[0] = p.ptr();
    let params : List Nat := [p.ptr]
    -- _flutter_solver->attach_assembly(fsi_assembly);
    let s3 := record Event.attach_assembly s2
    -- _flutter_solver->calculate_sensitivity(*_flutter_root, params, 0);
    let s4 := record (Event.calculate_sensitivity root params 0) s3
    let root1 := env.calculate_sensitivity s4._parameter_map root params 0
    let s5 := { s4 with
      _flutter_root := some root1
      _velocity := { s4._velocity with value := env.velocity_after_sensitivity s4._velocity.value } }
    -- _flutter_solver->clear_assembly_object();
    let s6 := record Event.clear_assembly_object s5
    -- _discipline->remove_parameter(p); _discipline->remove_parameter(*_velocity);
    let s7 := remove_parameter p.ptr s6
    let s8 := remove_parameter s7._velocity.ptr s7
    -- return _flutter_root->V_sens;
    ⟨s8, Except.ok root1.V_sens⟩

/-- Source: the constructor, lines 51-182. The ten parameter objects are
allocated at pairwise distinct addresses (`0` to `9` here); `n_dofs` is the size
of the solution vector after `_eq_sys->init()`. -/
def construct (n_dofs : Nat) : BeamPistonTheoryFlutterAnalysis where
  -- _flutter_root(NULL)
  _flutter_root := none
  -- _sys->set_n_requested_eigenvalues(3);
  n_requested_eigenvalues := 3
  _thy := ⟨0, "thy", 6 / 100⟩
  _thz := ⟨1, "thz", 1⟩
  _rho := ⟨2, "rho", 2800⟩
  _E := ⟨3, "E", 72000000000⟩
  _nu := ⟨4, "nu", 33 / 100⟩
  _zero := ⟨5, "zero", 0⟩
  _velocity := ⟨6, "V", 0⟩
  _mach := ⟨7, "mach", 3⟩
  _rho_air := ⟨8, "rho", 105 / 100⟩
  _gamma_air := ⟨9, "gamma", 14 / 10⟩
  -- _params_for_sensitivity.push_back(_E); ... (_nu); ... (_thy); ... (_thz);
  _params_for_sensitivity := [3, 4, 0, 1]
  solution := List.replicate n_dofs 0
  _basis := []
  _parameter_map := ∅
  log := []

/-- Text written by `std::setw(3) << std::setfill((char) 48) << std::right << i`. -/
def setw3 (i : Nat) : String :=
  let d := toString i
  String.mk (List.replicate (3 - d.length) (Char.ofNat 48)) ++ d

/-- Value of `_sys->solution->zero_clone()`: a zero vector of the same size. -/
def zero_clone (v : RealVectorX) : RealVectorX :=
  List.replicate v.length 0

/-- Value of `x` after `x.add(a, v)`, that is `x += a * v`. -/
def vec_add (a : ℚ) (v x : RealVectorX) : RealVectorX :=
  List.zipWith (fun xi vi => xi + a * vi) x v

/-- Source: body of the loop `for (unsigned int i=0; i<nconv; i++)` of `solve`,
lines 313-350. -/
def solve_mode (env : Env) (if_write_output : Bool) (s0 : BeamPistonTheoryFlutterAnalysis)
    (i : Nat) : BeamPistonTheoryFlutterAnalysis :=
  -- if (_basis[i] == NULL) _basis[i] = _sys->solution->zero_clone().release();
  let s1 :=
    match s0._basis.getD i none with
    | none => record (Event.zero_clone i)
        { s0 with _basis := s0._basis.set i (some (zero_clone s0.solution)) }
    | some _ => s0
  -- file_name << "out_" << std::setw(3) << std::setfill('0') << std::right << i << ".exo";
  let file_name := "out_" ++ setw3 i ++ ".exo"
  -- _sys->get_eigenpair(i, re, im, *_basis[i]);
  let pair := env.get_eigenpair i
  let s2 := { s1 with
    _basis := s1._basis.set i (some pair.2.2)
    solution := env.solution_after_eigenpair i s1.solution }
  -- libMesh::out << ... << re << std::endl;
  let s3 := record (Event.print_eigenvalue pair.1) s2
  -- if (if_write_output) ... write_equation_systems(file_name.str(), *_eq_sys);
  if if_write_output then record (Event.write_equation_systems file_name s3.solution) s3
  else s3

/-- Source: the accumulation loops of `solve`, lines 393-395 and 401-403:
`solution->zero()` followed by
`solution->add(part(sol.second->eig_vec_right(i)), *_basis[i])` for every
`i < _basis.size()`. Reading through a null `sol.second` or a null `_basis[i]`,
or past the end of the eigenvector, ends the call. -/
def flutter_mode (part : ComplexQ → ℚ) (root : Option TimeDomainFlutterRootBase)
    (basis : List (Option RealVectorX)) (solution : RealVectorX) :
    Except Failure RealVectorX :=
  (List.range basis.length).foldlM
    (fun x i =>
      match root, basis.getD i none with
      | some r, some b =>
        match r.eig_vec_right.get? i with
        | some xi => Except.ok (vec_add (part xi) b x)
        | none => Except.error Failure.index_out_of_range
      | _, _ => Except.error Failure.null_dereference)
    (zero_clone solution)

/-- The flutter mode in the words of the specification: component `j` of
`sum_i part(xi_i) * X_i` over `i` in `0..N-1`, for a vector of `n` components,
where `xi` is the right eigenvector of the root and `X_i` the basis vector `i`. -/
def modal_combination (part : ComplexQ → ℚ) (xi : List ComplexQ) (X : Nat → RealVectorX)
    (N n : Nat) : RealVectorX :=
  (List.range n).map (fun j =>
    ((List.range N).map (fun i => part (xi.getD i ⟨0, 0⟩) * (X i).getD j 0)).sum)

/-- Source: `return _flutter_root->V;`, line 409. -/
def return_V (s : BeamPistonTheoryFlutterAnalysis) : Outcome ℚ :=
  match s._flutter_root with
  | none => ⟨s, Except.error Failure.null_dereference⟩
  | some root => ⟨s, Except.ok root.V⟩

/-- Source: `solve`, lines 283-297: the stored root and the flutter solver are
cleared, the velocity is set to zero and the modal eigenproblem is solved. -/
def solve_eigenproblem (s0 : BeamPistonTheoryFlutterAnalysis) :
    BeamPistonTheoryFlutterAnalysis :=
  -- _flutter_root = NULL; _flutter_solver->clear();
  let s1 := record Event.flutter_clear { s0 with _flutter_root := none }
  -- (*_velocity) = 0.;
  let s2 := { s1 with _velocity := { s1._velocity with value := 0 } }
  -- _sys->eigenproblem_solve();
  record (Event.eigenproblem_solve s2._velocity.value) s2

/-- Source: `solve`, lines 304-310, the branch taken when the assertion on the
size of a non-empty `_basis` holds: an empty basis is resized to `nconv` null
pointers, a non-empty one is left alone. -/
def solve_resize (nconv : Nat) (s3 : BeamPistonTheoryFlutterAnalysis) :
    BeamPistonTheoryFlutterAnalysis :=
  if 0 < s3._basis.length then s3
  else { s3 with _basis := List.replicate nconv none }

/-- Source: first part of `solve`, lines 283-350: the flutter data is cleared,
the velocity is set to zero, the modal eigenproblem is solved and the basis
vectors are filled. -/
def solve_modal (env : Env) (if_write_output : Bool) (s0 : BeamPistonTheoryFlutterAnalysis) :
    Outcome Unit :=
  let s3 := solve_eigenproblem s0
  -- nconv = std::min(_sys->get_n_converged_eigenvalues(), _sys->get_n_requested_eigenvalues());
  let nconv := min env.n_converged_eigenvalues s3.n_requested_eigenvalues
  -- if (_basis.size() > 0) libmesh_assert(_basis.size() == nconv);
  if 0 < s3._basis.length ∧ s3._basis.length ≠ nconv then
    ⟨s3, Except.error (Failure.assertion "_basis.size() == nconv")⟩
  else
    -- else { _basis.resize(nconv); for (...) _basis[i] = NULL; }
    let s4 := solve_resize nconv s3
    -- for (unsigned int i=0; i<nconv; i++) { ... }
    ⟨(List.range nconv).foldl (solve_mode env if_write_output) s4, Except.ok ()⟩

/-- Source: the arguments of `_flutter_solver->initialize(*_velocity, 1.e3,
1200., 10, _basis)`, lines 357-361. -/
def flutter_init (s : BeamPistonTheoryFlutterAnalysis) : FlutterInit :=
  ⟨s._velocity.ptr, 1000, 1200, 10, s._basis⟩

/-- Source: the arguments of `find_critical_root(1.e-3, 10)`, line 366. -/
def critical_root_tolerance : ℚ := 1 / 1000

/-- Source: the arguments of `find_critical_root(1.e-3, 10)`, line 366. -/
def critical_root_max_iterations : Nat := 10

/-- Source: second part of `solve`, lines 352-369: the flutter solver is
initialised, the velocity range is scanned and the critical root is searched. -/
def solve_scan (env : Env) (s5 : BeamPistonTheoryFlutterAnalysis) :
    BeamPistonTheoryFlutterAnalysis :=
  -- _flutter_solver->attach_assembly(fsi_assembly);
  let s6 := record Event.attach_assembly s5
  -- _flutter_solver->initialize(*_velocity, 1.e3, 1200., 10, _basis);
  let s7 := record (Event.flutter_initialize (flutter_init s6)) s6
  -- scan_for_roots(); print_sorted_roots(); print_crossover_points();
  let s8 := record Event.print_crossover_points
    (record Event.print_sorted_roots (record Event.scan_for_roots s7))
  -- sol = _flutter_solver->find_critical_root(1.e-3, 10);
  let s9 := record
    (Event.find_critical_root critical_root_tolerance critical_root_max_iterations) s8
  let s10 := { s9 with _velocity := { s9._velocity with value := env.velocity_after_scan } }
  -- print_sorted_roots(); ... clear_assembly_object();
  record Event.clear_assembly_object (record Event.print_sorted_roots s10)

/-- Source: `BeamPistonTheoryFlutterAnalysis::solve(bool if_write_output)`,
lines 280-410. -/
def solve (env : Env) (if_write_output : Bool) (s0 : BeamPistonTheoryFlutterAnalysis) :
    Outcome ℚ :=
  match solve_modal env if_write_output s0 with
  | ⟨s3, Except.error f⟩ => ⟨s3, Except.error f⟩
  | ⟨s5, Except.ok _⟩ =>
    let sol := env.find_critical_root (flutter_init s5)
      critical_root_tolerance critical_root_max_iterations
    let s11 := solve_scan env s5
    -- libmesh_assert(sol.first);
    if sol.1 = false then
      ⟨s11, Except.error (Failure.assertion "sol.first")⟩
    else
      -- _flutter_root = sol.second;
      let s12 := { s11 with _flutter_root := sol.2 }
      if if_write_output then
        -- first the real part
        match flutter_mode ComplexQ.re sol.2 s12._basis s12.solution with
        | Except.error f => ⟨s12, Except.error f⟩
        | Except.ok y_re =>
          let s13 := record (Event.write_equation_systems "flutter_mode_real.exo" y_re)
            { s12 with solution := y_re }
          -- next, the imaginary part
          match flutter_mode ComplexQ.im sol.2 s13._basis s13.solution with
          | Except.error f => ⟨s13, Except.error f⟩
          | Except.ok y_im =>
            let s14 := record (Event.write_equation_systems "flutter_mode_imag.exo" y_im)
              { s13 with solution := y_im }
            return_V s14
      else
        return_V s12

/-- Events a call appended to the log: the log after, without the log before. -/
def new_events (before after : BeamPistonTheoryFlutterAnalysis) : List Event :=
  after.log.drop before.log.length

/-- The ten parameter objects the analysis owns, in the order of their creation
in the constructor. -/
def parameters (s : BeamPistonTheoryFlutterAnalysis) : List Parameter :=
  [s._thy, s._thz, s._rho, s._E, s._nu, s._zero, s._velocity, s._mach, s._rho_air,
   s._gamma_air]

/-- Addresses and names of the ten parameter objects, with the registered
pointers: what no member function changes after construction. -/
def parameter_identities (s : BeamPistonTheoryFlutterAnalysis) :
    List Nat × List (Nat × String) :=
  (s._params_for_sensitivity, (parameters s).map (fun q => (q.ptr, q.name)))

/-- The parameter object a pointer points to, if it is one of the analysis. -/
def deref (s : BeamPistonTheoryFlutterAnalysis) (ptr : Nat) : Option Parameter :=
  (parameters s).find? (fun q => decide (q.ptr = ptr))

/-- Source: `BeamPistonTheoryFlutterAnalysis::get_parameter(const std::string &nm)`,
lines 242-276. The value is the returned pointer, `none` for `NULL`. -/
def get_parameter (nm : String) (s : BeamPistonTheoryFlutterAnalysis) :
    Outcome (Option Nat) :=
  -- rval = NULL; found = false; for ( ; it != end; it++) { ... }
  match s._params_for_sensitivity.foldlM (get_parameter_step (deref s) nm) (none, false) with
  | Except.error f => ⟨s, Except.error f⟩
  | Except.ok (rval, found) =>
    -- if (!found) { std::cout << "Parameter not found by name: " << nm ... }
    if found = false then
      ⟨record (Event.parameter_not_found nm (valid_names (deref s) s._params_for_sensitivity))
        s, Except.ok rval⟩
    else
      -- return rval;
      ⟨s, Except.ok rval⟩

/-- States the object can be in: after construction and after any sequence of
`solve`, `sensitivity_solve` and `get_parameter` calls (whether they returned or
failed), with
the values of the parameters handed out by `get_parameter` changed at will in
between. -/
inductive Reachable : BeamPistonTheoryFlutterAnalysis → Prop where
  | construct (n_dofs : Nat) : Reachable (construct n_dofs)
  | solve (env : Env) (if_write_output : Bool) {s : BeamPistonTheoryFlutterAnalysis} :
      Reachable s → Reachable (solve env if_write_output s).state
  | sensitivity_solve (env : Env) (p : Parameter) {s : BeamPistonTheoryFlutterAnalysis} :
      Reachable s → Reachable (sensitivity_solve env p s).state
  | get_parameter (nm : String) {s : BeamPistonTheoryFlutterAnalysis} :
      Reachable s → Reachable (get_parameter nm s).state
  | set_E (v : ℚ) {s : BeamPistonTheoryFlutterAnalysis} :
      Reachable s → Reachable { s with _E := { s._E with value := v } }
  | set_nu (v : ℚ) {s : BeamPistonTheoryFlutterAnalysis} :
      Reachable s → Reachable { s with _nu := { s._nu with value := v } }
  | set_thy (v : ℚ) {s : BeamPistonTheoryFlutterAnalysis} :
      Reachable s → Reachable { s with _thy := { s._thy with value := v } }
  | set_thz (v : ℚ) {s : BeamPistonTheoryFlutterAnalysis} :
      Reachable s → Reachable { s with _thz := { s._thz with value := v } }

end BeamPistonTheoryFlutterAnalysis

/-!
## The solid element and the plate example

Embedding of the two inline members of `MAST::StructuralElement3D`
(`elasticity/solid_element_3d.h`) and of
`examples/structural/plate_oscillating_load/plate_oscillating_load.cpp`.
A time and every quantity computed from `acos`, `sin`, `cos` or `sqrt` lives in a
field `R`; the functions of `<cmath>` are supplied by a `RealMath R`. The values
of parameters are rationals, as in the beam example, and are cast into `R`.
-/

namespace StructuralElement3D

/-- Source: `StructuralElement3D::if_incompatible_modes()`,
`elasticity/solid_element_3d.h`, lines 103-109. -/
def if_incompatible_modes : Bool := true

/-- Source: `StructuralElement3D::incompatible_mode_size()`,
`elasticity/solid_element_3d.h`, lines 112-117. -/
def incompatible_mode_size : Nat := 30

end StructuralElement3D

/-- The functions of `<cmath>` the plate example calls. -/
structure RealMath (R : Type) where
  acos : R → R
  sin : R → R
  cos : R → R
  sqrt : R → R

/-- A `libMesh::Point`. -/
structure Point (R : Type) where
  x : R
  y : R
  z : R
deriving DecidableEq, Repr

/-- Modelled from the spec: `MAST::Parameter::depends_on` (body not in the sources
at hand). Section 3 of the specification has every parameter independent of
the others, with no aliasing: a parameter depends on the function `f` exactly
when `f` is the parameter object itself. -/
def Parameter.depends_on (p : Parameter) (f : Nat) : Bool :=
  decide (p.ptr = f)

/-- The members of `MAST::OscillatingDistributedLoad`: the references `_p` (the
distributed load) and `_f` (the circular frequency), with the values the
parameters hold when the load is evaluated. -/
structure OscillatingDistributedLoad where
  _p : Parameter
  _f : Parameter
deriving DecidableEq, Repr

namespace OscillatingDistributedLoad

/-- Source: `OscillatingDistributedLoad::operator()`, lines 80-85 of the plate
example: `v = _p() * sin(_f()*t)`. -/
def operator_call {R : Type} [Field R] (math : RealMath R) (load : OscillatingDistributedLoad)
    (_p : Point R) (t : R) : R :=
  (load._p.value : R) * math.sin ((load._f.value : R) * t)

/-- Source: `OscillatingDistributedLoad::derivative`, lines 92-107 of the plate
example; `f` is the address of the sensitivity parameter. -/
def derivative {R : Type} [Field R] (math : RealMath R) (load : OscillatingDistributedLoad)
    (f : Nat) (_p : Point R) (t : R) : R :=
  -- if (_p.depends_on(f)) dp = 1.;
  let dp : R := if load._p.depends_on f then 1 else 0
  -- if (_f.depends_on(f)) df = 1.;
  let df : R := if load._f.depends_on f then 1 else 0
  -- v = dp * sin(_f()*t) + _p() * _f() * df * cos(_f() * t);
  dp * math.sin ((load._f.value : R) * t) +
    (load._p.value : R) * (load._f.value : R) * df * math.cos ((load._f.value : R) * t)

end OscillatingDistributedLoad

/-- The enumerators of `libMesh::ElemType`: the five the plate example names,
and `other` for every other one. -/
inductive ElemType where
  | QUAD4
  | QUAD8
  | QUAD9
  | TRI3
  | TRI6
  | other (tag : Nat)
deriving DecidableEq, Repr

/-- A mesh element: its identity and its subdomain. -/
structure Elem where
  id : Nat
  subdomain_id : Nat
deriving DecidableEq, Repr

/-- A `MAST::StressStrainOutputBase` as `init` sets it up: the elements of its
domain and the points at which the stress is evaluated. -/
structure StressStrainOutputBase (R : Type) where
  elements_in_domain : List Nat
  points_for_evaluation : List (Point R)
deriving DecidableEq, Repr

/-- Calls of the plate example into its collaborators and its printed
messages, in the order they are made. -/
inductive PlateEvent (R : Type) where
  | parameter_not_found (nm : String) (valid_names : List String)
  | attach_discipline_and_system
  | clear_discipline_and_system
  | output_clear (i : Nat)
  | solve_highest_derivative_and_advance_time_step (dt : R)
  | print_message (text : String)
  | print_time_step (t_step : Nat) (tval : R)
  | write_timestep (file : String) (t_step : Nat)
  | solver_solve (dt : R)
  | advance_time_step
  | add_parameter (ptr : Nat)
  | remove_parameter (ptr : Nat)
  | sensitivity_solve (params : List Nat)
  | calculate_output_sensitivity (params : List Nat) (total : Bool)
  | write_equation_systems (file : String) (solution : List R)
  | plot_stress_strain_data (file : String) (p : Nat)
deriving DecidableEq, Repr

/-- What the collaborators of the plate example compute. -/
structure PlateEnv (R : Type) where
  /-- The functions of `<cmath>`. -/
  math : RealMath R
  /-- Elements of the mesh `build_square` makes with `16` by `16` divisions, or
  the failure with which the library ends the run. -/
  build_square : ElemType → Except Failure (List Elem)
  /-- Size of the solution vector after `_eq_sys->init()`. -/
  n_dofs : Nat
  /-- Content of `*_sys->solution` after `solver.solve()` in time step `t_step`,
  given the content before. -/
  transient_solve : Nat → List R → List R
  /-- Content of sensitivity solution `0` after `sensitivity_solve(params)`,
  given `*_sys->solution`. -/
  sensitivity_solve : List Nat → List R → List R

/-- State of a `MAST::PlateOscillatingLoad` object. A pointer member is `none`
until `init` has allocated its object. -/
structure PlateOscillatingLoad (R : Type) where
  _initialized : Bool
  _length : Option ℚ
  _width : Option ℚ
  /-- Elements of `*_mesh`. -/
  elements : List Elem
  _th : Option Parameter
  _E : Option Parameter
  _nu : Option Parameter
  _rho : Option Parameter
  _kappa : Option Parameter
  _zero : Option Parameter
  _press : Option Parameter
  _freq : Option Parameter
  /-- `_params_for_sensitivity`, as the addresses of the pointed-to members. -/
  _params_for_sensitivity : List Nat
  /-- Whether `_p_card->strain_type()` is `MAST::VON_KARMAN_STRAIN`. -/
  von_karman_strain : Bool
  _outputs : List (StressStrainOutputBase R)
  /-- `*_sys->solution`. -/
  solution : List R
  /-- Sensitivity solution `0` of `_sys`, `none` until it is added. -/
  sensitivity_solution : Option (List R)
  /-- Keys of `_discipline->_parameter_map`. -/
  _parameter_map : Finset Nat
  /-- Calls into collaborators and messages printed so far. -/
  log : List (PlateEvent R)

/-- Result of a call of the plate example: the state it leaves and either the
returned value or the failure that ended it. -/
structure PlateOutcome (R : Type) (α : Type) where
  state : PlateOscillatingLoad R
  result : Except Failure α

/-- Loop variables of the time loop of `PlateOscillatingLoad::solve`, with the
state of the object. -/
structure TimeMarch (R : Type) where
  t_step : Nat
  tval : R
  state : PlateOscillatingLoad R

namespace PlateOscillatingLoad

variable {R : Type}

/-- Append one event to the log. -/
def record (e : PlateEvent R) (s : PlateOscillatingLoad R) : PlateOscillatingLoad R :=
  { s with log := s.log ++ [e] }

/-- Source: `PlateOscillatingLoad::PlateOscillatingLoad()`, lines 122-125:
`_initialized(false)`; the vectors are empty and no object is allocated. -/
def construct : PlateOscillatingLoad R where
  _initialized := false
  _length := none
  _width := none
  elements := []
  _th := none
  _E := none
  _nu := none
  _rho := none
  _kappa := none
  _zero := none
  _press := none
  _freq := none
  _params_for_sensitivity := []
  von_karman_strain := false
  _outputs := []
  solution := []
  sensitivity_solution := none
  _parameter_map := ∅
  log := []

/-- Source: the points where stress is evaluated, `init`, lines 251-277; `none`
stands for the branch `libmesh_assert(false)`. -/
def stress_points [Field R] (math : RealMath R) : ElemType → Option (List (Point R))
  | ElemType.QUAD4 | ElemType.QUAD8 | ElemType.QUAD9 =>
    some [⟨-1 / math.sqrt 3, -1 / math.sqrt 3, 1⟩, ⟨-1 / math.sqrt 3, -1 / math.sqrt 3, -1⟩,
      ⟨1 / math.sqrt 3, -1 / math.sqrt 3, 1⟩, ⟨1 / math.sqrt 3, -1 / math.sqrt 3, -1⟩,
      ⟨1 / math.sqrt 3, 1 / math.sqrt 3, 1⟩, ⟨1 / math.sqrt 3, 1 / math.sqrt 3, -1⟩,
      ⟨-1 / math.sqrt 3, 1 / math.sqrt 3, 1⟩, ⟨-1 / math.sqrt 3, 1 / math.sqrt 3, -1⟩]
  | ElemType.TRI3 | ElemType.TRI6 =>
    some [⟨1 / 3, 1 / 3, 1⟩, ⟨1 / 3, 1 / 3, -1⟩, ⟨2 / 3, 1 / 3, 1⟩, ⟨2 / 3, 1 / 3, -1⟩,
      ⟨1 / 3, 2 / 3, 1⟩, ⟨1 / 3, 2 / 3, -1⟩]
  | ElemType.other _ => none

/-- Source: body of the loop over the mesh elements in `init`, lines 279-292:
one output object per element, evaluated on that element only. -/
def add_output (pts : List (Point R)) (s : PlateOscillatingLoad R) (e : Elem) :
    PlateOscillatingLoad R :=
  -- e_set.insert(*e_it); output->set_elements_in_domain(e_set);
  -- output->set_points_for_evaluation(pts); _outputs.push_back(output);
  { s with _outputs := s._outputs ++ [⟨[e.id], pts⟩] }

/-- Source: `PlateOscillatingLoad::init(libMesh::ElemType e_type, bool if_vk)`,
lines 129-295. The eight parameter objects are allocated at the addresses `0`
to `7`. -/
def init [Field R] (env : PlateEnv R) (e_type : ElemType) (if_vk : Bool)
    (s0 : PlateOscillatingLoad R) : PlateOutcome R Unit :=
  -- libmesh_assert(!_initialized);
  if s0._initialized then ⟨s0, Except.error (Failure.assertion "!_initialized")⟩
  else
    -- build_square(*_mesh, 16, 16, 0, _length, 0, _width, e_type);
    match env.build_square e_type with
    | Except.error f => ⟨{ s0 with _length := some (1 / 2), _width := some (1 / 4) }, Except.error f⟩
    | Except.ok elems =>
    let s1 : PlateOscillatingLoad R := { s0 with
      -- _length = 0.50, _width = 0.25;
      _length := some (1 / 2)
      _width := some (1 / 4)
      elements := elems
      -- _eq_sys->init();
      solution := List.replicate env.n_dofs 0
      sensitivity_solution := none
      _parameter_map := ∅
      _th := some ⟨0, "th", 6 / 1000⟩
      _E := some ⟨1, "E", 72000000000⟩
      _nu := some ⟨2, "nu", 33 / 100⟩
      _rho := some ⟨3, "rho", 2700⟩
      _kappa := some ⟨4, "kappa", 5 / 6⟩
      _zero := some ⟨5, "zero", 0⟩
      _press := some ⟨6, "p", 2000000⟩
      _freq := some ⟨7, "omega", 100⟩
      -- _params_for_sensitivity.push_back(_E); ... (_nu); ... (_th);
      _params_for_sensitivity := s0._params_for_sensitivity ++ [1, 2, 0]
      -- if (if_vk) _p_card->set_strain(MAST::VON_KARMAN_STRAIN);
      von_karman_strain := if_vk }
    match stress_points env.math e_type with
    | none =>
      -- libmesh_assert(false); // should not get here
      ⟨s1, Except.error (Failure.assertion "false")⟩
    | some pts =>
      -- for ( ; e_it != e_end; e_it++) { ... }
      let s2 := s1.elements.foldl (add_output pts) s1
      -- _initialized = true;
      ⟨{ s2 with _initialized := true }, Except.ok ()⟩

/-- The parameter objects the analysis has allocated. -/
def parameters (s : PlateOscillatingLoad R) : List Parameter :=
  [s._th, s._E, s._nu, s._rho, s._kappa, s._zero, s._press, s._freq].filterMap id

/-- The parameter object a pointer points to, if it is one of the analysis. -/
def deref (s : PlateOscillatingLoad R) (ptr : Nat) : Option Parameter :=
  (parameters s).find? (fun q => decide (q.ptr = ptr))

/-- Source: `PlateOscillatingLoad::get_parameter(const std::string &nm)`, lines
354-390. The value is the returned pointer, `none` for `nullptr`. -/
def get_parameter (nm : String) (s : PlateOscillatingLoad R) : PlateOutcome R (Option Nat) :=
  -- libmesh_assert(_initialized);
  if s._initialized = false then ⟨s, Except.error (Failure.assertion "_initialized")⟩
  else
    -- rval = nullptr; found = false; for ( ; it != end; it++) { ... }
    match s._params_for_sensitivity.foldlM (get_parameter_step (deref s) nm) (none, false) with
    | Except.error f => ⟨s, Except.error f⟩
    | Except.ok (rval, found) =>
      -- if (!found) { libMesh::out << "Parameter not found by name: " << nm ... }
      if found = false then
        ⟨record (PlateEvent.parameter_not_found nm
            (valid_names (deref s) s._params_for_sensitivity)) s, Except.ok rval⟩
      else
        -- return rval;
        ⟨s, Except.ok rval⟩

/-- Source: `PlateOscillatingLoad::clear_stresss()`, lines 546-558:
`(*it)->clear(false)` on every output. -/
def clear_stresss (s : PlateOscillatingLoad R) : PlateOutcome R Unit :=
  -- libmesh_assert(_initialized);
  if s._initialized = false then ⟨s, Except.error (Failure.assertion "_initialized")⟩
  else
    ⟨{ s with log := s.log ++ (List.range s._outputs.length).map PlateEvent.output_clear },
      Except.ok ()⟩

/-- Source: `t_period = 1./((*_freq)()/2./pi)` with `pi = acos(-1.)`, `solve`,
lines 427-428. -/
def time_period [Field R] (math : RealMath R) (freq : ℚ) : R :=
  1 / ((freq : R) / 2 / math.acos (-1))

/-- Source: `n_steps_per_cycle = 20`, `solve`, line 432. -/
def n_steps_per_cycle : Nat := 20

/-- Source: `n_cycles = 10`, `solve`, line 433. -/
def n_cycles : Nat := 10

/-- Source: `n_steps = n_steps_per_cycle*n_cycles`, `solve`, line 434. -/
def n_steps : Nat := n_steps_per_cycle * n_cycles

/-- Source: `solver.dt = t_period/n_steps_per_cycle`, `solve`, line 436. -/
def time_step_size [Field R] (math : RealMath R) (freq : ℚ) : R :=
  time_period math freq / (n_steps_per_cycle : R)

/-- Source: body of the loop `while (t_step < n_steps)` of `solve`, lines
451-472. -/
def time_step [Field R] (env : PlateEnv R) (if_write_output : Bool) (dt : R)
    (st : TimeMarch R) : TimeMarch R :=
  -- libMesh::out << "Time step: " << t_step << " :  t = " << tval ...
  let s1 := record (PlateEvent.print_time_step st.t_step st.tval) st.state
  -- if (if_write_output) exodus_writer.write_timestep("output.exo", *_eq_sys, t_step+1, ...);
  let s2 := if if_write_output then record (PlateEvent.write_timestep "output.exo" (st.t_step + 1)) s1
    else s1
  -- solver.solve();
  let s3 := record (PlateEvent.solver_solve dt)
    { s2 with solution := env.transient_solve st.t_step s2.solution }
  -- solver.advance_time_step();
  let s4 := record PlateEvent.advance_time_step s3
  -- tval += solver.dt; t_step++;
  ⟨st.t_step + 1, st.tval + dt, s4⟩

/-- The calls and messages of the pass of the time loop that starts with the
step counter `t_step` and the time `tval`. -/
def time_step_events (if_write_output : Bool) (dt : R) (t_step : Nat) (tval : R) :
    List (PlateEvent R) :=
  [PlateEvent.print_time_step t_step tval] ++
    (if if_write_output then [PlateEvent.write_timestep "output.exo" (t_step + 1)] else []) ++
    [PlateEvent.solver_solve dt, PlateEvent.advance_time_step]

/-- Source: the loop `while (t_step < n_steps)` of `solve`, lines 449-473. Each
unit of `fuel` pays for one test of the loop condition; `none` means that the
fuel ran out before the condition failed. -/
def time_loop [Field R] (env : PlateEnv R) (if_write_output : Bool) (steps : Nat) (dt : R) :
    Nat → TimeMarch R → Option (TimeMarch R)
  | 0, _ => none
  | fuel + 1, st =>
    if st.t_step < steps then
      time_loop env if_write_output steps dt fuel (time_step env if_write_output dt st)
    else some st

/-- Source: `PlateOscillatingLoad::solve(bool if_write_output)`, lines 395-478.
The value is the returned `*(_sys->solution)`; `none` means that `fuel` did not
suffice for the time loop. -/
def solve [Field R] (env : PlateEnv R) (if_write_output : Bool) (fuel : Nat)
    (s0 : PlateOscillatingLoad R) : Option (PlateOutcome R (List R)) :=
  -- libmesh_assert(_initialized);
  if s0._initialized = false then some ⟨s0, Except.error (Failure.assertion "_initialized")⟩
  else
    -- assembly.attach_discipline_and_system(*_discipline, solver, *_structural_sys);
    let s1 := record PlateEvent.attach_discipline_and_system s0
    -- nonlin_sys.solution->zero();
    let s2 := { s1 with solution := List.replicate s1.solution.length 0 }
    -- this->clear_stresss();
    match clear_stresss s2 with
    | ⟨s3, Except.error f⟩ => some ⟨s3, Except.error f⟩
    | ⟨s3, Except.ok _⟩ =>
      -- t_period = 1./((*_freq)()/2./pi);
      match s3._freq with
      | none => some ⟨s3, Except.error Failure.null_dereference⟩
      | some freq =>
        -- solver.dt = t_period/n_steps_per_cycle;
        let dt : R := time_step_size env.math freq.value
        -- solver.solve_highest_derivative_and_advance_time_step();
        let s4 := record (PlateEvent.solve_highest_derivative_and_advance_time_step dt) s3
        -- if (if_write_output) libMesh::out << "Writing output to : output.exo" << std::endl;
        let s5 := if if_write_output then
            record (PlateEvent.print_message "Writing output to : output.exo") s4
          else s4
        -- tval = 0.; t_step = 0; while (t_step < n_steps) { ... }
        match time_loop env if_write_output n_steps dt fuel ⟨0, 0, s5⟩ with
        | none => none
        | some st =>
          -- assembly.clear_discipline_and_system();
          let s6 := record PlateEvent.clear_discipline_and_system st.state
          -- return *(_sys->solution);
          some ⟨s6, Except.ok s6.solution⟩

/-- Modelled from the spec: `add_parameter` of the discipline (body not in the
sources at hand), as for the beam example: the parameter joins the set
"currently tracked for differentiation". -/
def add_parameter (p : Nat) (s : PlateOscillatingLoad R) : PlateOscillatingLoad R :=
  record (PlateEvent.add_parameter p) { s with _parameter_map := insert p s._parameter_map }

/-- Modelled from the spec: `remove_parameter` of the discipline (body not in
the sources at hand), as for the beam example: the parameter leaves the set
"currently tracked for differentiation". -/
def remove_parameter (p : Nat) (s : PlateOscillatingLoad R) : PlateOscillatingLoad R :=
  record (PlateEvent.remove_parameter p) { s with _parameter_map := s._parameter_map.erase p }

/-- Source: the branch `if (if_write_output)` of `sensitivity_solve`, lines
518-539. -/
def write_sensitivity (p : Parameter) (s0 : PlateOscillatingLoad R) :
    PlateOutcome R Unit :=
  -- oss1 << "output_" << p.name() << ".exo"; oss2 << "output_" << p.name() << ".exo";
  let oss1 := "output_" ++ p.name ++ ".exo"
  let oss2 := "output_" ++ p.name ++ ".exo"
  let s1 := record (PlateEvent.print_message ("Writing sensitivity output to : " ++ oss1 ++
    "  and stress/strain sensitivity to : " ++ oss2)) s0
  match s1.sensitivity_solution with
  | none => ⟨s1, Except.error Failure.null_dereference⟩
  | some sens =>
    -- _sys->solution->swap(_sys->get_sensitivity_solution(0));
    let s2 := { s1 with solution := sens, sensitivity_solution := some s1.solution }
    -- libMesh::ExodusII_IO(*_mesh).write_equation_systems(oss1.str(), *_eq_sys);
    let s3 := record (PlateEvent.write_equation_systems oss1 s2.solution) s2
    -- _discipline->plot_stress_strain_data<libMesh::ExodusII_IO>(oss2.str(), &p);
    let s4 := record (PlateEvent.plot_stress_strain_data oss2 p.ptr) s3
    -- _sys->solution->swap(_sys->get_sensitivity_solution(0));
    match s4.sensitivity_solution with
    | none => ⟨s4, Except.error Failure.null_dereference⟩
    | some sol => ⟨{ s4 with solution := sol, sensitivity_solution := some s4.solution },
        Except.ok ()⟩

/-- Source: `PlateOscillatingLoad::sensitivity_solve(MAST::Parameter& p, bool
if_write_output)`, lines 484-542. The value is the returned sensitivity
solution `0`. -/
def sensitivity_solve (env : PlateEnv R) [Zero R] (p : Parameter) (if_write_output : Bool)
    (s0 : PlateOscillatingLoad R) : PlateOutcome R (List R) :=
  -- libmesh_assert(_initialized);
  if s0._initialized = false then ⟨s0, Except.error (Failure.assertion "_initialized")⟩
  else
    -- _discipline->add_parameter(p);
    let s1 := add_parameter p.ptr s0
    -- assembly.attach_discipline_and_system(*_discipline, *_structural_sys);
    let s2 := record PlateEvent.attach_discipline_and_system s1
    -- params.resize(1); params[0] = p.ptr();
    let params : List Nat := [p.ptr]
    -- nonlin_sys.add_sensitivity_solution(0).zero();
    let s3 := { s2 with sensitivity_solution := some (List.replicate s2.solution.length 0) }
    -- this->clear_stresss();
    match clear_stresss s3 with
    | ⟨s4, Except.error f⟩ => ⟨s4, Except.error f⟩
    | ⟨s4, Except.ok _⟩ =>
      -- nonlin_sys.sensitivity_solve(params);
      let s5 := record (PlateEvent.sensitivity_solve params)
        { s4 with sensitivity_solution := some (env.sensitivity_solve params s4.solution) }
      -- assembly.calculate_output_sensitivity(params, true, *(_sys->solution));
      let s6 := record (PlateEvent.calculate_output_sensitivity params true) s5
      -- assembly.clear_discipline_and_system(); _discipline->remove_parameter(p);
      let s7 := remove_parameter p.ptr (record PlateEvent.clear_discipline_and_system s6)
      -- if (if_write_output) { ... }
      let written : PlateOutcome R Unit :=
        if if_write_output then write_sensitivity p s7 else ⟨s7, Except.ok ()⟩
      match written with
      | ⟨s8, Except.error f⟩ => ⟨s8, Except.error f⟩
      | ⟨s8, Except.ok _⟩ =>
        -- return _sys->get_sensitivity_solution(0);
        match s8.sensitivity_solution with
        | none => ⟨s8, Except.error Failure.null_dereference⟩
        | some sens => ⟨s8, Except.ok sens⟩

/-- Addresses and names of the eight parameter objects (`none` for one that is
not allocated), with the registered pointers: what no member function changes
after `init`. -/
def parameter_identities (s : PlateOscillatingLoad R) :
    List Nat × List (Option (Nat × String)) :=
  (s._params_for_sensitivity,
    [s._th, s._E, s._nu, s._rho, s._kappa, s._zero, s._press, s._freq].map
      (Option.map (fun q => (q.ptr, q.name))))

/-- Value of the parameter object `q` after a caller has assigned `v` through the
pointer `ptr`. -/
def assign (ptr : Nat) (v : ℚ) (q : Parameter) : Parameter :=
  if q.ptr = ptr then { q with value := v } else q

/-- The object after a caller has assigned `v` through the pointer `ptr`, which
`get_parameter` handed out. -/
def set_value (ptr : Nat) (v : ℚ) (s : PlateOscillatingLoad R) : PlateOscillatingLoad R :=
  { s with
    _th := s._th.map (assign ptr v)
    _E := s._E.map (assign ptr v)
    _nu := s._nu.map (assign ptr v)
    _rho := s._rho.map (assign ptr v)
    _kappa := s._kappa.map (assign ptr v)
    _zero := s._zero.map (assign ptr v)
    _press := s._press.map (assign ptr v)
    _freq := s._freq.map (assign ptr v) }

/-- States the object can be in when a call starts: after construction and
after any sequence of calls that returned (a call that fails ends the run),
with the values of the parameters changed at will in between. -/
inductive Reachable [Field R] : PlateOscillatingLoad R → Prop where
  | construct : Reachable construct
  | init (env : PlateEnv R) (e_type : ElemType) (if_vk : Bool) {s : PlateOscillatingLoad R} :
      Reachable s → (init env e_type if_vk s).result = Except.ok () →
      Reachable (init env e_type if_vk s).state
  | get_parameter (nm : String) {s : PlateOscillatingLoad R} {rval : Option Nat} :
      Reachable s → (get_parameter nm s).result = Except.ok rval →
      Reachable (get_parameter nm s).state
  | clear_stresss {s : PlateOscillatingLoad R} :
      Reachable s → (clear_stresss s).result = Except.ok () → Reachable (clear_stresss s).state
  | solve (env : PlateEnv R) (if_write_output : Bool) (fuel : Nat)
      {s : PlateOscillatingLoad R} {o : PlateOutcome R (List R)} {x : List R} :
      Reachable s → solve env if_write_output fuel s = some o → o.result = Except.ok x →
      Reachable o.state
  | sensitivity_solve (env : PlateEnv R) (p : Parameter) (if_write_output : Bool)
      {s : PlateOscillatingLoad R} {x : List R} :
      Reachable s → (sensitivity_solve env p if_write_output s).result = Except.ok x →
      Reachable (sensitivity_solve env p if_write_output s).state
  | set_value (ptr : Nat) (v : ℚ) {s : PlateOscillatingLoad R} :
      Reachable s → Reachable (set_value ptr v s)

end PlateOscillatingLoad

/-!
## The flutter engine, modelled from the specification

The sources at hand contain the driver only; `MAST::TimeDomainFlutterSolver` is
not among them. The definitions of this section follow sections 3, 4.2, 4.3,
4.4 and 7 of the specification.
-/

namespace TimeDomainFlutterSolver

/-- Modelled from the spec: the FlutterRoot record of section 3 (the solver's
root class is not in the sources at hand). The real part of `eigenvalue` is the
damping, the imaginary part the frequency. -/
structure FlutterRoot where
  velocity : ℚ
  eigenvalue : ComplexQ
  eig_vec_right : List ComplexQ
  eig_vec_left : Option (List ComplexQ)
  root_id : Nat
deriving DecidableEq, Repr

/-- Modelled from the spec: one entry of the RootHistory of section 3 (not in
the sources at hand): the roots of one velocity sample, or a sample marked
invalid because the eigenproblem solver did not converge there. -/
structure VelocitySample where
  velocity : ℚ
  valid : Bool
  roots : List FlutterRoot
deriving DecidableEq, Repr

/-- Modelled from the spec: the RootHistory of section 3 (not in the sources at
hand), indexed by velocity sample. -/
abbrev RootHistory := List VelocitySample

/-- Modelled from the spec: the CrossoverPoint record of section 3 (not in the
sources at hand). -/
structure CrossoverPoint where
  V_lo : ℚ
  V_hi : ℚ
  root_id : Nat
  damping_lo : ℚ
  damping_hi : ℚ
deriving DecidableEq, Repr

/-- Modelled from the spec: the CriticalRoot record of section 3 (not in the
sources at hand), with the flag of section 7 that tells a result that reached
the tolerance from one that ran into the iteration limit. -/
structure CriticalRoot where
  root : FlutterRoot
  tolerance : ℚ
  iterations : Nat
  converged : Bool
  V_sens : ℚ
deriving DecidableEq, Repr

/-- Modelled from the spec: the error taxonomy of section 7, as far as it is
raised by the scan (the solver is not in the sources at hand). -/
inductive FlutterError where
  | invalid_input
deriving DecidableEq, Repr

/-- Modelled from the spec: the external collaborators of sections 2 and 6
(Operator Builder, Complex Eigenproblem Solver and the continuity-preserving
root matching), none of which is in the sources at hand. -/
structure Physics where
  /-- Build and solve at a sampled velocity and assign root identifiers by
  continuity; `none` when the eigenproblem solver does not converge. -/
  roots_at : ℚ → Option (List FlutterRoot)
  /-- Build and solve at a velocity inside a bracket and pick the continuation
  of the tracked root `root_id` by closest eigenvalue match. -/
  continuation : Nat → ℚ → FlutterRoot

/-- Modelled from the spec: the sampled velocities of the Root Scanner of
section 4.2 (not in the sources at hand): the end points of the `n` divisions
of the range from `V_min` to `V_max`, in ascending order. -/
def sample_velocities (V_min V_max : ℚ) (n : Nat) : List ℚ :=
  (List.range (n + 1)).map (fun (i : Nat) => V_min + (i : ℚ) * ((V_max - V_min) / (n : ℚ)))

/-- Modelled from the spec: `scan_for_roots` of section 4.2 with the InvalidInput
checks of section 7 (the solver is not in the sources at hand). Each sampled
velocity yields its roots, or an invalid sample when the solver fails there. -/
def scan_for_roots (ph : Physics) (init : FlutterInit) : Except FlutterError RootHistory :=
  if init.basis = [] ∨ init.V_lower < 0 ∨ init.n_divisions = 0 then
    Except.error FlutterError.invalid_input
  else
    Except.ok ((sample_velocities init.V_lower init.V_upper init.n_divisions).map (fun v =>
      match ph.roots_at v with
      | some rs => ⟨v, true, rs⟩
      | none => ⟨v, false, []⟩))

/-- Modelled from the spec: the sign test of section 4.3 (not in the sources at
hand): the two damping values have strictly different sign. -/
def sign_changes (d_lo d_hi : ℚ) : Bool :=
  decide ((d_lo < 0 ∧ 0 < d_hi) ∨ (0 < d_lo ∧ d_hi < 0))

/-- Modelled from the spec: the test of one root of a sample against the next
sample, section 4.3 (not in the sources at hand): a CrossoverPoint bracketing
the two velocities when the root identifier is present in the next sample too
and the damping changes sign. -/
def crossover_of_root (V_prev : ℚ) (next : VelocitySample) (r : FlutterRoot) :
    Option CrossoverPoint :=
  match next.roots.find? (fun r2 => decide (r2.root_id = r.root_id)) with
  | some r2 =>
    if sign_changes r.eigenvalue.re r2.eigenvalue.re then
      some ⟨V_prev, next.velocity, r.root_id, r.eigenvalue.re, r2.eigenvalue.re⟩
    else none
  | none => none

/-- Modelled from the spec: the crossovers between two consecutive valid
samples, section 4.3 (not in the sources at hand): one CrossoverPoint for each
root identifier present in both samples whose damping changes sign. -/
def crossovers_between (prev next : VelocitySample) : List CrossoverPoint :=
  prev.roots.filterMap (crossover_of_root prev.velocity next)

/-- Modelled from the spec: the walk over consecutive samples of section 4.3
(not in the sources at hand). -/
def walk : List VelocitySample → List CrossoverPoint
  | a :: b :: rest => crossovers_between a b ++ walk (b :: rest)
  | _ => []

/-- Modelled from the spec: the Crossover Detector of section 4.3 (not in the
sources at hand): invalid samples are excluded, consecutive valid samples are
compared, and the crossovers are reported sorted by ascending `V_lo`. -/
def detect_crossovers (h : RootHistory) : List CrossoverPoint :=
  (walk (h.filter (fun smp => smp.valid))).insertionSort (fun c d => c.V_lo ≤ d.V_lo)

/-- Modelled from the spec: the selection of section 4.4 (not in the sources at
hand): the crossover with the lowest `V_lo`, the first of them in list order. -/
def lowest_crossover : List CrossoverPoint → Option CrossoverPoint
  | [] => none
  | c :: cs =>
    match lowest_crossover cs with
    | none => some c
    | some d => if c.V_lo ≤ d.V_lo then some c else some d

/-- Final bracket of a bracketed search, the number of iterations done, and
whether the bracket width reached the tolerance. -/
structure Bracket where
  V_lo : ℚ
  V_hi : ℚ
  iterations : Nat
  converged : Bool
deriving DecidableEq, Repr

/-- Modelled from the spec: the bisection of section 4.4 (not in the sources at
hand). The search stops when the bracket width has reached `tol` or when the
iteration budget `fuel` is used up; otherwise the damping is evaluated at the
midpoint and the bracket is narrowed according to its sign: the half is kept
across which the sign differs from the sign `d_lo` at the lower end. The
tolerance counts as reached by a width equal to it: section 7 has the limit case
as the one "without reaching `tolerance`", and section 8 has a bracket of width
`eps * 2 ^ k` converged after `k` halvings, when its width is `eps`; a width
"below `tolerance`" (section 4.4) stops the search all the more. -/
def bisect (damping : ℚ → ℚ) (tol d_lo : ℚ) : Nat → ℚ → ℚ → Nat → Bracket
  | 0, lo, hi, k =>
    if hi - lo ≤ tol then ⟨lo, hi, k, true⟩ else ⟨lo, hi, k, false⟩
  | fuel + 1, lo, hi, k =>
    if hi - lo ≤ tol then ⟨lo, hi, k, true⟩
    else
      let mid := (lo + hi) / 2
      if sign_changes d_lo (damping mid) then bisect damping tol d_lo fuel lo mid (k + 1)
      else bisect damping tol d_lo fuel mid hi (k + 1)

/-- Modelled from the spec: the refinement of one crossover, section 4.4 (not
in the sources at hand), on the damping of the tracked root. -/
def refine (ph : Physics) (c : CrossoverPoint) (tol : ℚ) (max_iterations : Nat) : Bracket :=
  bisect (fun v => (ph.continuation c.root_id v).eigenvalue.re) tol c.damping_lo
    max_iterations c.V_lo c.V_hi 0

/-- Modelled from the spec: `find_critical_root(tolerance, max_iterations)` of
section 4.4 (not in the sources at hand). Without any crossover the result is
`found = false`; otherwise the lowest crossover is refined and the best
estimate, the root at the middle of the final bracket, is returned. -/
def find_critical_root (ph : Physics) (crossovers : List CrossoverPoint) (tol : ℚ)
    (max_iterations : Nat) : Bool × Option CriticalRoot :=
  match lowest_crossover crossovers with
  | none => (false, none)
  | some c =>
    let b := refine ph c tol max_iterations
    let V := (b.V_lo + b.V_hi) / 2
    (true, some ⟨{ ph.continuation c.root_id V with velocity := V, root_id := c.root_id },
      tol, b.iterations, b.converged, 0⟩)

/-- Modelled from the spec: the pipeline scan, crossover detection and critical
root search of sections 4.2 to 4.4 (not in the sources at hand), on a solver
initialised with `init`. -/
def critical_root (ph : Physics) (init : FlutterInit) (tol : ℚ) (max_iterations : Nat) :
    Except FlutterError (Bool × Option CriticalRoot) :=
  match scan_for_roots ph init with
  | Except.error e => Except.error e
  | Except.ok history => Except.ok (find_critical_root ph (detect_crossovers history) tol
      max_iterations)

/-- Damping of the root `root_id` at a velocity sample, if the sample has
such a root. -/
def damping_at (smp : VelocitySample) (root_id : Nat) : Option ℚ :=
  (smp.roots.find? (fun r => decide (r.root_id = root_id))).map (fun r => r.eigenvalue.re)

/-- The reported crossovers of the root `root_id` that bracket the interval from
`V_lo` to `V_hi`. -/
def crossovers_of (cs : List CrossoverPoint) (root_id : Nat) (V_lo V_hi : ℚ) :
    List CrossoverPoint :=
  cs.filter (fun c => decide (c.root_id = root_id ∧ c.V_lo = V_lo ∧ c.V_hi = V_hi))

end TimeDomainFlutterSolver

deriving instance DecidableEq for Except

/-!
## Test doubles

Concrete collaborators on which the definitions above can be evaluated.
-/

/-- A root as a flutter solver could return it: velocity `1110`, no
sensitivity computed yet, a three-component right eigenvector. -/
def sample_root : TimeDomainFlutterRootBase :=
  ⟨1110, 0, [⟨1, 0⟩, ⟨0, 1⟩, ⟨1 / 2, 0⟩]⟩

/-- Collaborators of a run in which three eigenpairs converge and the flutter
solver finds `sample_root`; the sensitivity computed for it is `5`. -/
def sample_env : Env where
  n_converged_eigenvalues := 3
  get_eigenpair := fun i => ((i : ℚ) + 1, 0, [(i : ℚ), 1])
  solution_after_eigenpair := fun i _ => [(i : ℚ), 1]
  find_critical_root := fun _ _ _ => (true, some sample_root)
  velocity_after_scan := 1110
  calculate_sensitivity := fun _ r _ _ => { r with V_sens := 5 }
  velocity_after_sensitivity := fun v => v

/-- Collaborators of a run in which the damping never changes sign in the
swept range: `find_critical_root` answers `found = false`. -/
def no_crossover_env : Env :=
  { sample_env with find_critical_root := fun _ _ _ => (false, none), velocity_after_scan := 1200 }

/-- The parameter object `E` of the analysis, as `get_parameter` hands it out. -/
def sample_parameter : Parameter := ⟨3, "E", 72000000000⟩

/-- The analysis after construction and one `solve` that found `sample_root`. -/
def sample_solved : BeamPistonTheoryFlutterAnalysis :=
  (BeamPistonTheoryFlutterAnalysis.solve sample_env false
    (BeamPistonTheoryFlutterAnalysis.construct 2)).state

/-- The root of mode `root_id` at velocity `v` in the end-to-end scenario: modes
`0` and `1` stay damped, the damping of mode `2` is `(v - 1110) / 100`. -/
def scenario_root (root_id : Nat) (v : ℚ) : TimeDomainFlutterSolver.FlutterRoot :=
  if root_id = 2 then ⟨v, ⟨(v - 1110) / 100, 30⟩, [⟨0, 0⟩, ⟨0, 0⟩, ⟨1, 0⟩], none, 2⟩
  else if root_id = 1 then ⟨v, ⟨-2, 20⟩, [⟨0, 0⟩, ⟨1, 0⟩, ⟨0, 0⟩], none, 1⟩
  else ⟨v, ⟨-1, 10⟩, [⟨1, 0⟩, ⟨0, 0⟩, ⟨0, 0⟩], none, root_id⟩

/-- The end-to-end scenario of the specification: a three-mode reduced system
in which the damping of mode `2` changes sign between the sixth and the
seventh of the samples `1000, 1020, ..., 1200`. -/
def scenario_physics : TimeDomainFlutterSolver.Physics where
  roots_at := fun v => some [scenario_root 0 v, scenario_root 1 v, scenario_root 2 v]
  continuation := scenario_root

/-- What the driver passes to `initialize` in the end-to-end scenario. -/
def scenario_init : FlutterInit :=
  BeamPistonTheoryFlutterAnalysis.flutter_init
    (BeamPistonTheoryFlutterAnalysis.solve_modal sample_env false
      (BeamPistonTheoryFlutterAnalysis.construct 2)).state

/-- The three roots of the end-to-end scenario at velocity `1100`. -/
def sample_lo : TimeDomainFlutterSolver.VelocitySample :=
  ⟨1100, true, [scenario_root 0 1100, scenario_root 1 1100, scenario_root 2 1100]⟩

/-- The three roots of the end-to-end scenario at velocity `1120`. -/
def sample_hi : TimeDomainFlutterSolver.VelocitySample :=
  ⟨1120, true, [scenario_root 0 1120, scenario_root 1 1120, scenario_root 2 1120]⟩

/-- A history of three samples: two valid ones around a sample at which the
eigenproblem solver failed. The damping of mode `2` is `-1 / 10` at `1100` and
`1 / 10` at `1120`; modes `0` and `1` stay damped. -/
def sample_history : TimeDomainFlutterSolver.RootHistory :=
  [sample_lo, ⟨1110, false, []⟩, sample_hi]

/-- Collaborators of the plate example for the examples: a mesh of two elements,
three degrees of freedom, solvers that leave the vectors as they are. -/
def sample_plate_env {R : Type} (math : RealMath R) : PlateEnv R where
  math := math
  build_square := fun _ => Except.ok [⟨0, 0⟩, ⟨1, 0⟩]
  n_dofs := 3
  transient_solve := fun _ x => x
  sensitivity_solve := fun _ x => x

/-- Rational stand-ins for the functions of `<cmath>`, for evaluating the parts
of the plate example whose outcome depends on none of them. -/
def rational_math : RealMath ℚ := ⟨fun _ => 3, fun x => x, fun _ => 1, fun x => x⟩

/-- The plate example after construction and `init(QUAD4, false)` on the
sample collaborators. -/
def sample_plate : PlateOscillatingLoad ℚ :=
  (PlateOscillatingLoad.init (sample_plate_env rational_math) ElemType.QUAD4 false
    PlateOscillatingLoad.construct).state

/-- The parameter object `E` of the plate example, as `get_parameter` hands it
out after `init`. -/
def sample_plate_parameter : Parameter := ⟨1, "E", 72000000000⟩

/-!
## Theorems about the driver
-/

namespace BeamPistonTheoryFlutterAnalysis

@[simp] theorem record_log (e : Event) (s : BeamPistonTheoryFlutterAnalysis) :
    (record e s).log = s.log ++ [e] := rfl

@[simp] theorem record_parameter_map (e : Event) (s : BeamPistonTheoryFlutterAnalysis) :
    (record e s)._parameter_map = s._parameter_map := rfl

@[simp] theorem record_flutter_root (e : Event) (s : BeamPistonTheoryFlutterAnalysis) :
    (record e s)._flutter_root = s._flutter_root := rfl

@[simp] theorem record_velocity (e : Event) (s : BeamPistonTheoryFlutterAnalysis) :
    (record e s)._velocity = s._velocity := rfl

@[simp] theorem record_basis (e : Event) (s : BeamPistonTheoryFlutterAnalysis) :
    (record e s)._basis = s._basis := rfl

@[simp] theorem record_n_requested (e : Event) (s : BeamPistonTheoryFlutterAnalysis) :
    (record e s).n_requested_eigenvalues = s.n_requested_eigenvalues := rfl

@[simp] theorem record_solution (e : Event) (s : BeamPistonTheoryFlutterAnalysis) :
    (record e s).solution = s.solution := rfl

/-- The body of the mode loop touches the basis vectors and the log only. -/
theorem solve_mode_frame (env : Env) (w : Bool) (s : BeamPistonTheoryFlutterAnalysis)
    (i : Nat) :
    (solve_mode env w s i)._parameter_map = s._parameter_map ∧
    (solve_mode env w s i)._flutter_root = s._flutter_root ∧
    (solve_mode env w s i)._velocity = s._velocity ∧
    (solve_mode env w s i).n_requested_eigenvalues = s.n_requested_eigenvalues ∧
    (solve_mode env w s i)._basis.length = s._basis.length ∧
    (solve_mode env w s i)._E.ptr = s._E.ptr := by
  unfold solve_mode
  cases w <;> cases h : s._basis.getD i none <;> simp [record]

/-- The mode loop touches the basis vectors and the log only. -/
theorem solve_mode_loop_frame (env : Env) (w : Bool) (l : List Nat)
    (s : BeamPistonTheoryFlutterAnalysis) :
    (l.foldl (solve_mode env w) s)._parameter_map = s._parameter_map ∧
    (l.foldl (solve_mode env w) s)._flutter_root = s._flutter_root ∧
    (l.foldl (solve_mode env w) s)._velocity = s._velocity ∧
    (l.foldl (solve_mode env w) s).n_requested_eigenvalues = s.n_requested_eigenvalues ∧
    (l.foldl (solve_mode env w) s)._basis.length = s._basis.length ∧
    (l.foldl (solve_mode env w) s)._E.ptr = s._E.ptr := by
  induction l generalizing s with
  | nil => simp
  | cons i l ih =>
    obtain ⟨h1, h2, h3, h4, h6, h7⟩ := solve_mode_frame env w s i
    obtain ⟨g1, g2, g3, g4, g6, g7⟩ := ih (solve_mode env w s i)
    simp only [List.foldl_cons]
    exact ⟨g1.trans h1, g2.trans h2, g3.trans h3, g4.trans h4, g6.trans h6, g7.trans h7⟩

/-- The body of the mode loop appends eigenvalue prints, file writes and
allocations only. -/
theorem solve_mode_log (env : Env) (w : Bool) (s : BeamPistonTheoryFlutterAnalysis) (i : Nat) :
    ∃ l, (solve_mode env w s i).log = s.log ++ l ∧
      ∀ e ∈ l, (∃ re, e = Event.print_eigenvalue re) ∨
        (∃ f x, e = Event.write_equation_systems f x) ∨ (∃ i, e = Event.zero_clone i) := by
  unfold solve_mode
  cases w <;> cases h : s._basis.getD i none <;> simp [record]

/-- The mode loop appends eigenvalue prints, file writes and allocations only. -/
theorem solve_mode_loop_log (env : Env) (w : Bool) (l : List Nat)
    (s : BeamPistonTheoryFlutterAnalysis) :
    ∃ es, (l.foldl (solve_mode env w) s).log = s.log ++ es ∧
      ∀ e ∈ es, (∃ re, e = Event.print_eigenvalue re) ∨
        (∃ f x, e = Event.write_equation_systems f x) ∨ (∃ i, e = Event.zero_clone i) := by
  induction l generalizing s with
  | nil => exact ⟨[], by simp⟩
  | cons i l ih =>
    obtain ⟨e1, h1, p1⟩ := solve_mode_log env w s i
    obtain ⟨e2, h2, p2⟩ := ih (solve_mode env w s i)
    refine ⟨e1 ++ e2, ?_, ?_⟩
    · simp only [List.foldl_cons, h2, h1, List.append_assoc]
    · intro e he
      rcases List.mem_append.mp he with h | h
      · exact p1 e h
      · exact p2 e h

/-- What the first lines of `solve` leave behind. -/
theorem solve_eigenproblem_frame (s : BeamPistonTheoryFlutterAnalysis) :
    (solve_eigenproblem s)._flutter_root = none ∧
    (solve_eigenproblem s)._velocity = { s._velocity with value := 0 } ∧
    (solve_eigenproblem s)._parameter_map = s._parameter_map ∧
    (solve_eigenproblem s).n_requested_eigenvalues = s.n_requested_eigenvalues ∧
    (solve_eigenproblem s).solution = s.solution ∧
    (solve_eigenproblem s)._basis = s._basis ∧
    (solve_eigenproblem s).log =
      s.log ++ [Event.flutter_clear, Event.eigenproblem_solve 0] := by
  simp [solve_eigenproblem, record]

/-- Resizing the basis touches the basis only. -/
theorem solve_resize_frame (n : Nat) (s : BeamPistonTheoryFlutterAnalysis) :
    (solve_resize n s)._flutter_root = s._flutter_root ∧
    (solve_resize n s)._velocity = s._velocity ∧
    (solve_resize n s)._parameter_map = s._parameter_map ∧
    (solve_resize n s).n_requested_eigenvalues = s.n_requested_eigenvalues ∧
    (solve_resize n s).solution = s.solution ∧
    (solve_resize n s).log = s.log := by
  unfold solve_resize
  split <;> simp

/-- What the first part of `solve` leaves behind: no stored root, a zero
velocity, the same tracked parameters and the same eigenvalue request. -/
theorem solve_modal_frame (env : Env) (w : Bool) (s : BeamPistonTheoryFlutterAnalysis) :
    (solve_modal env w s).state._flutter_root = none ∧
    (solve_modal env w s).state._velocity = { s._velocity with value := 0 } ∧
    (solve_modal env w s).state._parameter_map = s._parameter_map ∧
    (solve_modal env w s).state.n_requested_eigenvalues = s.n_requested_eigenvalues := by
  obtain ⟨e1, e2, e3, e4, -, -, -⟩ := solve_eigenproblem_frame s
  unfold solve_modal
  simp only []
  split
  · exact ⟨e1, e2, e3, e4⟩
  · obtain ⟨r1, r2, r3, r4, -, -⟩ := solve_resize_frame
      (min env.n_converged_eigenvalues (solve_eigenproblem s).n_requested_eigenvalues)
      (solve_eigenproblem s)
    obtain ⟨g1, g2, g3, g4, -, -⟩ := solve_mode_loop_frame env w
      (List.range (min env.n_converged_eigenvalues (solve_eigenproblem s).n_requested_eigenvalues))
      (solve_resize
        (min env.n_converged_eigenvalues (solve_eigenproblem s).n_requested_eigenvalues)
        (solve_eigenproblem s))
    exact ⟨(g2.trans r1).trans e1, (g3.trans r2).trans e2, (g1.trans r3).trans e3,
      (g4.trans r4).trans e4⟩

/-- When the first part of `solve` passes its assertion, the basis it leaves has
`min(n_converged, n_requested)` entries. -/
theorem solve_modal_basis_length (env : Env) (w : Bool) (s : BeamPistonTheoryFlutterAnalysis)
    (h : (solve_modal env w s).result = Except.ok ()) :
    (solve_modal env w s).state._basis.length =
      min env.n_converged_eigenvalues s.n_requested_eigenvalues := by
  obtain ⟨-, -, -, e4, -, e6, -⟩ := solve_eigenproblem_frame s
  unfold solve_modal at h ⊢
  simp only [] at h ⊢
  split
  · rename_i hc
    rw [if_pos hc] at h
    cases h
  · rename_i hc
    rw [(solve_mode_loop_frame env w _ _).2.2.2.2.1]
    unfold solve_resize
    split
    · rename_i hpos
      have := not_not.mp (not_and.mp hc hpos)
      rw [e4] at this
      exact this
    · simp [e4]

/-- The log after the first part of `solve`: the solver is cleared, the
eigenproblem is solved at zero velocity, then only allocations of basis vectors,
prints and file writes. -/
theorem solve_modal_log (env : Env) (w : Bool) (s : BeamPistonTheoryFlutterAnalysis) :
    ∃ es, (solve_modal env w s).state.log =
        s.log ++ Event.flutter_clear :: Event.eigenproblem_solve 0 :: es ∧
      ∀ e ∈ es, (∃ re, e = Event.print_eigenvalue re) ∨
        (∃ f x, e = Event.write_equation_systems f x) ∨ (∃ i, e = Event.zero_clone i) := by
  obtain ⟨-, -, -, -, -, -, e7⟩ := solve_eigenproblem_frame s
  unfold solve_modal
  simp only []
  split
  · exact ⟨[], by simp [e7], by simp⟩
  · obtain ⟨es, h1, h2⟩ := solve_mode_loop_log env w
      (List.range (min env.n_converged_eigenvalues (solve_eigenproblem s).n_requested_eigenvalues))
      (solve_resize
        (min env.n_converged_eigenvalues (solve_eigenproblem s).n_requested_eigenvalues)
        (solve_eigenproblem s))
    refine ⟨es, ?_, h2⟩
    rw [h1, (solve_resize_frame _ _).2.2.2.2.2, e7]
    simp

/-- What the scan part of `solve` does: it calls the flutter solver in the order
of the source and leaves everything but the velocity value and the log alone. -/
theorem solve_scan_frame (env : Env) (s : BeamPistonTheoryFlutterAnalysis) :
    (solve_scan env s)._flutter_root = s._flutter_root ∧
    (solve_scan env s)._velocity = { s._velocity with value := env.velocity_after_scan } ∧
    (solve_scan env s)._parameter_map = s._parameter_map ∧
    (solve_scan env s).n_requested_eigenvalues = s.n_requested_eigenvalues ∧
    (solve_scan env s).solution = s.solution ∧
    (solve_scan env s)._basis = s._basis ∧
    (solve_scan env s).log = s.log ++
      [Event.attach_assembly, Event.flutter_initialize (flutter_init s), Event.scan_for_roots,
       Event.print_sorted_roots, Event.print_crossover_points,
       Event.find_critical_root critical_root_tolerance critical_root_max_iterations,
       Event.print_sorted_roots, Event.clear_assembly_object] := by
  simp [solve_scan, record, flutter_init]

/-- The last statement of `solve` leaves the state alone. -/
theorem return_V_state (s : BeamPistonTheoryFlutterAnalysis) : (return_V s).state = s := by
  unfold return_V
  split <;> rfl

/-- The last statement of `solve` returns the velocity of the stored root. -/
theorem return_V_result (s : BeamPistonTheoryFlutterAnalysis) (v : ℚ) :
    (return_V s).result = Except.ok v ↔ ∃ root, s._flutter_root = some root ∧ root.V = v := by
  unfold return_V
  split <;> rename_i h <;> simp [h]

/-- Effect of `solve` on the fields it does not own: the tracked parameters, the
eigenvalue request and the identity of the velocity parameter stay. -/
theorem solve_frame (env : Env) (w : Bool) (s : BeamPistonTheoryFlutterAnalysis) :
    (solve env w s).state._parameter_map = s._parameter_map ∧
    (solve env w s).state.n_requested_eigenvalues = s.n_requested_eigenvalues ∧
    (solve env w s).state._velocity.ptr = s._velocity.ptr := by
  obtain ⟨-, m2, m3, m4⟩ := solve_modal_frame env w s
  rcases hm : solve_modal env w s with ⟨sm, (f | u)⟩
  · rw [hm] at m2 m3 m4
    simp only [solve, hm]
    simp only [] at m2 m3 m4
    simp [m2, m3, m4]
  · rw [hm] at m2 m3 m4
    simp only [] at m2 m3 m4
    obtain ⟨-, c2, c3, c4, -, -, -⟩ := solve_scan_frame env sm
    simp only [solve, hm]
    split
    · simp [c2, c3, c4, m2, m3, m4]
    · split
      · split
        · simp [c2, c3, c4, m2, m3, m4]
        · split
          · simp [c2, c3, c4, m2, m3, m4]
          · simp [return_V_state, c2, c3, c4, m2, m3, m4]
      · simp [return_V_state, c2, c3, c4, m2, m3, m4]

/-- A `sensitivity_solve` that finds no stored root leaves the state alone. -/
theorem sensitivity_solve_null_root_state (env : Env) (p : Parameter)
    (s : BeamPistonTheoryFlutterAnalysis) (h : s._flutter_root = none) :
    (sensitivity_solve env p s).state = s := by
  simp [sensitivity_solve, h]

/-- A `sensitivity_solve` that finds no stored root fails at its assertion. -/
theorem sensitivity_solve_null_root_result (env : Env) (p : Parameter)
    (s : BeamPistonTheoryFlutterAnalysis) (h : s._flutter_root = none) :
    (sensitivity_solve env p s).result = Except.error (Failure.assertion "_flutter_root") := by
  simp [sensitivity_solve, h]

/-- Effect of a `sensitivity_solve` that finds a stored root. -/
theorem sensitivity_solve_of_root (env : Env) (p : Parameter)
    (s : BeamPistonTheoryFlutterAnalysis) (root : TimeDomainFlutterRootBase)
    (h : s._flutter_root = some root) :
    (sensitivity_solve env p s).result = Except.ok (env.calculate_sensitivity
      (insert p.ptr (insert s._velocity.ptr s._parameter_map)) root [p.ptr] 0).V_sens ∧
    (sensitivity_solve env p s).state =
      { s with
        _flutter_root := some (env.calculate_sensitivity
          (insert p.ptr (insert s._velocity.ptr s._parameter_map)) root [p.ptr] 0)
        _velocity := { s._velocity with
          value := env.velocity_after_sensitivity s._velocity.value }
        _parameter_map :=
          ((insert p.ptr (insert s._velocity.ptr s._parameter_map)).erase p.ptr).erase
            s._velocity.ptr
        log := s.log ++
          [Event.add_parameter s._velocity.ptr, Event.add_parameter p.ptr,
           Event.attach_assembly, Event.calculate_sensitivity root [p.ptr] 0,
           Event.clear_assembly_object, Event.remove_parameter p.ptr,
           Event.remove_parameter s._velocity.ptr] } := by
  simp [sensitivity_solve, h, add_parameter, remove_parameter, record]

/-- Adding two keys to a set that holds neither and removing them again gives
the set back. -/
theorem erase_erase_insert_insert (m : Finset Nat) (v p : Nat) (hv : v ∉ m) (hp : p ∉ m) :
    ((insert p (insert v m)).erase p).erase v = m := by
  ext x
  simp only [Finset.mem_erase, Finset.mem_insert]
  constructor
  · rintro ⟨h1, h2, h3⟩
    rcases h3 with h3 | h3 | h3
    · exact absurd h3 h2
    · exact absurd h3 h1
    · exact h3
  · intro hx
    refine ⟨?_, ?_, Or.inr (Or.inr hx)⟩
    · rintro rfl
      exact hv hx
    · rintro rfl
      exact hp hx

/-- A `get_parameter` call changes nothing but the log, to which it appends at
most the message that the parameter was not found. -/
theorem get_parameter_state (nm : String) (s : BeamPistonTheoryFlutterAnalysis) :
    (get_parameter nm s).state = s ∨
    (get_parameter nm s).state =
      record (Event.parameter_not_found nm (valid_names (deref s) s._params_for_sensitivity))
        s := by
  unfold get_parameter
  split
  · exact Or.inl rfl
  · split
    · exact Or.inr rfl
    · exact Or.inl rfl

/-- Between two driver calls the discipline tracks no parameter, three
eigenvalues are requested and the velocity parameter is the object created by
the constructor. -/
theorem reachable_invariant (s : BeamPistonTheoryFlutterAnalysis) (h : Reachable s) :
    s._parameter_map = ∅ ∧ s.n_requested_eigenvalues = 3 ∧ s._velocity.ptr = 6 := by
  induction h with
  | construct n => exact ⟨rfl, rfl, rfl⟩
  | solve env w _ ih =>
    obtain ⟨f1, f2, f3⟩ := solve_frame env w _
    exact ⟨f1.trans ih.1, f2.trans ih.2.1, f3.trans ih.2.2⟩
  | @sensitivity_solve env p s _ ih =>
    cases hr : s._flutter_root with
    | none =>
      rw [(sensitivity_solve_null_root_state env p s hr)]
      exact ih
    | some root =>
      rw [(sensitivity_solve_of_root env p s root hr).2]
      refine ⟨?_, ih.2.1, ih.2.2⟩
      simp only [ih.1]
      ext x
      simp only [Finset.mem_erase, Finset.mem_insert, Finset.not_mem_empty]
      tauto
  | @get_parameter nm s _ ih =>
    rcases get_parameter_state nm s with h | h <;> rw [h] <;> exact ih
  | set_E v _ ih => exact ih
  | set_nu v _ ih => exact ih
  | set_thy v _ ih => exact ih
  | set_thz v _ ih => exact ih

/-- C1: `sensitivity_solve(p)` fails at its assertion whenever `_flutter_root` is
null, and it fails before anything else happens: the state it leaves is the
state it found, so no parameter was added to the discipline and no
collaborator was called. -/
theorem sensitivity_solve_without_root_fails (env : Env) (p : Parameter)
    (s : BeamPistonTheoryFlutterAnalysis) (h : s._flutter_root = none) :
    (sensitivity_solve env p s).result = Except.error (Failure.assertion "_flutter_root") ∧
    (sensitivity_solve env p s).state = s ∧
    (sensitivity_solve env p s).state._parameter_map = s._parameter_map ∧
    new_events s (sensitivity_solve env p s).state = [] := by
  simp [sensitivity_solve, h, new_events]

/-- Witness of C1 on a freshly constructed analysis, which stores no root. -/
theorem sensitivity_solve_without_root_fails_witness :
    (construct 2)._flutter_root = none ∧
    (sensitivity_solve sample_env sample_parameter (construct 2)).result =
      Except.error (Failure.assertion "_flutter_root") ∧
    (sensitivity_solve sample_env sample_parameter (construct 2)).state = construct 2 ∧
    (sensitivity_solve sample_env sample_parameter (construct 2)).state._parameter_map =
      (construct 2)._parameter_map ∧
    new_events (construct 2)
      (sensitivity_solve sample_env sample_parameter (construct 2)).state = [] :=
  ⟨rfl, sensitivity_solve_without_root_fails sample_env sample_parameter (construct 2) rfl⟩

/-- The last statement of `solve` can only fail on a null root. -/
theorem return_V_error (s : BeamPistonTheoryFlutterAnalysis) (f : Failure)
    (h : (return_V s).result = Except.error f) :
    f = Failure.null_dereference ∨ f = Failure.index_out_of_range := by
  unfold return_V at h
  split at h
  · injection h with h
    exact Or.inl h.symm
  · cases h

/-- A fold in `Except` whose steps fail only in ways `P` fails only in ways `P`. -/
theorem foldlM_error_of_step {α β ε : Type} (P : ε → Prop) (step : β → α → Except ε β)
    (hstep : ∀ b a e, step b a = Except.error e → P e) (l : List α) (b : β) (e : ε)
    (h : l.foldlM step b = Except.error e) : P e := by
  induction l generalizing b with
  | nil => cases h
  | cons a l ih =>
    rw [List.foldlM_cons] at h
    cases hs : step b a with
    | error e1 =>
      rw [hs] at h
      injection h with h
      subst h
      exact hstep b a e1 hs
    | ok b1 =>
      rw [hs] at h
      exact ih b1 h

/-- The accumulation loop fails on invalid reads only. -/
theorem flutter_mode_error (part : ComplexQ → ℚ) (root : Option TimeDomainFlutterRootBase)
    (basis : List (Option RealVectorX)) (solution : RealVectorX) (f : Failure)
    (h : flutter_mode part root basis solution = Except.error f) :
    f = Failure.null_dereference ∨ f = Failure.index_out_of_range := by
  unfold flutter_mode at h
  refine foldlM_error_of_step
    (fun e => e = Failure.null_dereference ∨ e = Failure.index_out_of_range) _ ?_ _ _ f h
  intro x i e he
  split at he
  · split at he
    · cases he
    · injection he with he
      exact Or.inr he.symm
  · injection he with he
    exact Or.inl he.symm

/-- When the first part of `solve` fails, `solve` fails with it. -/
theorem solve_of_modal_error (env : Env) (w : Bool) (s sm : BeamPistonTheoryFlutterAnalysis)
    (f : Failure) (hm : solve_modal env w s = ⟨sm, Except.error f⟩) :
    solve env w s = ⟨sm, Except.error f⟩ := by
  simp only [solve, hm]

/-- When the first part of `solve` succeeds and no critical root is found,
`solve` ends at its assertion, right after the scan part. -/
theorem solve_of_not_found (env : Env) (w : Bool) (s sm : BeamPistonTheoryFlutterAnalysis)
    (u : Unit) (hm : solve_modal env w s = ⟨sm, Except.ok u⟩)
    (hf : (env.find_critical_root (flutter_init sm) critical_root_tolerance
      critical_root_max_iterations).1 = false) :
    solve env w s = ⟨solve_scan env sm, Except.error (Failure.assertion "sol.first")⟩ := by
  simp only [solve, hm, hf, if_true]

/-- When the first part of `solve` succeeds and a critical root is found, the
root is stored; what follows are file writes only, and the call returns the
velocity of the root or ends on an invalid read. -/
theorem solve_of_found (env : Env) (w : Bool) (s sm : BeamPistonTheoryFlutterAnalysis)
    (u : Unit) (hm : solve_modal env w s = ⟨sm, Except.ok u⟩)
    (hf : (env.find_critical_root (flutter_init sm) critical_root_tolerance
      critical_root_max_iterations).1 = true) :
    (solve env w s).state._flutter_root =
      (env.find_critical_root (flutter_init sm) critical_root_tolerance
        critical_root_max_iterations).2 ∧
    (∃ ws, (solve env w s).state.log = (solve_scan env sm).log ++ ws ∧
      ∀ e ∈ ws, ∃ f x, e = Event.write_equation_systems f x) ∧
    (∀ v, (solve env w s).result = Except.ok v →
      ∃ root, (env.find_critical_root (flutter_init sm) critical_root_tolerance
        critical_root_max_iterations).2 = some root ∧ root.V = v) ∧
    (∀ f, (solve env w s).result = Except.error f →
      f = Failure.null_dereference ∨ f = Failure.index_out_of_range) := by
  simp only [solve, hm, hf]
  simp only [Bool.true_eq_false, if_false]
  cases w
  · simp only [Bool.false_eq_true, if_false]
    refine ⟨?_, ⟨[], ?_, ?_⟩, ?_, ?_⟩
    · rw [return_V_state]
    · rw [return_V_state]
      simp
    · simp
    · intro v hv
      exact (return_V_result _ v).mp hv
    · intro f hfail
      exact return_V_error _ f hfail
  · simp only [if_true]
    split
    · rename_i f1 h1
      refine ⟨rfl, ⟨[], by simp, by simp⟩, ?_, ?_⟩
      · intro v hv
        cases hv
      · intro f hfail
        injection hfail with hfail
        subst hfail
        exact flutter_mode_error _ _ _ _ _ h1
    · rename_i y_re h1
      split
      · rename_i f2 h2
        refine ⟨rfl, ⟨[Event.write_equation_systems "flutter_mode_real.exo" y_re], ?_, ?_⟩,
          ?_, ?_⟩
        · simp
        · simp
        · intro v hv
          cases hv
        · intro f hfail
          injection hfail with hfail
          subst hfail
          exact flutter_mode_error _ _ _ _ _ h2
      · rename_i y_im h2
        refine ⟨?_, ⟨[Event.write_equation_systems "flutter_mode_real.exo" y_re,
          Event.write_equation_systems "flutter_mode_imag.exo" y_im], ?_, ?_⟩, ?_, ?_⟩
        · rw [return_V_state]
          rfl
        · rw [return_V_state]
          simp
        · simp
        · intro v hv
          exact (return_V_result _ v).mp hv
        · intro f hfail
          exact return_V_error _ f hfail

/-- The body of the mode loop stores the eigenvector `i` in the basis entry `i`. -/
theorem solve_mode_basis (env : Env) (w : Bool) (s : BeamPistonTheoryFlutterAnalysis)
    (i : Nat) :
    (solve_mode env w s i)._basis = s._basis.set i (some (env.get_eigenpair i).2.2) := by
  unfold solve_mode
  cases w <;> cases h : s._basis.getD i none <;> simp [record, List.set_set]

/-- After the mode loop, the basis entries the loop went over hold the
eigenvectors, the others are as before. -/
theorem solve_mode_loop_basis (env : Env) (w : Bool) (l : List Nat)
    (s : BeamPistonTheoryFlutterAnalysis) (j : Nat) (hj : j < s._basis.length) :
    (l.foldl (solve_mode env w) s)._basis[j]? =
      if j ∈ l then some (some (env.get_eigenpair j).2.2) else s._basis[j]? := by
  induction l generalizing s with
  | nil => simp
  | cons i l ih =>
    have hlen : j < (solve_mode env w s i)._basis.length := by
      rw [(solve_mode_frame env w s i).2.2.2.2.1]
      exact hj
    rw [List.foldl_cons, ih _ hlen, solve_mode_basis]
    by_cases hjl : j ∈ l
    · simp [hjl]
    · by_cases hij : i = j
      · subst hij
        simp [hjl, hj]
      · have hji : ¬ j = i := fun h => hij h.symm
        simp [hjl, hij, hji, List.getElem?_set_ne hij]

/-- When the first part of `solve` passes its assertion, the basis it leaves is
the list of the first `min(n_converged, n_requested)` eigenvectors, none of
them null. -/
theorem solve_modal_basis (env : Env) (w : Bool) (s : BeamPistonTheoryFlutterAnalysis)
    (h : (solve_modal env w s).result = Except.ok ()) :
    (solve_modal env w s).state._basis =
      (List.range (min env.n_converged_eigenvalues s.n_requested_eigenvalues)).map
        (fun j => some (env.get_eigenpair j).2.2) := by
  have hlen := solve_modal_basis_length env w s h
  apply List.ext_getElem?
  intro j
  by_cases hj : j < min env.n_converged_eigenvalues s.n_requested_eigenvalues
  · rw [List.getElem?_map, List.getElem?_range hj]
    simp only [Option.map_some']
    obtain ⟨-, -, -, e4, -, e6, -⟩ := solve_eigenproblem_frame s
    unfold solve_modal at h ⊢
    simp only [] at h ⊢
    split
    · rename_i hc
      rw [if_pos hc] at h
      cases h
    · rename_i hc
      have hres : j < (solve_resize
          (min env.n_converged_eigenvalues (solve_eigenproblem s).n_requested_eigenvalues)
          (solve_eigenproblem s))._basis.length := by
        unfold solve_resize
        split
        · rename_i hpos
          have := not_not.mp (not_and.mp hc hpos)
          rw [this, e4]
          exact hj
        · simp only [List.length_replicate, e4]
          exact hj
      rw [solve_mode_loop_basis env w _ _ j hres, e4, if_pos (List.mem_range.mpr hj)]
  · rw [List.getElem?_eq_none (by rw [hlen]; omega), List.getElem?_eq_none (by simp; omega)]

/-- An outcome is the pair of its state and its result. -/
theorem outcome_eta {α : Type} (o : Outcome α) : o = ⟨o.state, o.result⟩ := rfl

/-- The calls `solve` makes, in order: the flutter solver is cleared and the
modal eigenproblem is solved at zero velocity; allocations of basis vectors,
eigenvalue prints and mode files follow; if the basis assertion holds, the scan part follows with the arguments
of the source, and after it nothing but file writes. -/
theorem solve_new_events (env : Env) (w : Bool) (s : BeamPistonTheoryFlutterAnalysis) :
    ∃ es ws,
      (∀ e ∈ es, (∃ re, e = Event.print_eigenvalue re) ∨
        (∃ f x, e = Event.write_equation_systems f x) ∨ (∃ i, e = Event.zero_clone i)) ∧
      (∀ e ∈ ws, ∃ f x, e = Event.write_equation_systems f x) ∧
      ((∀ f, (solve_modal env w s).result = Except.error f →
        new_events s (solve env w s).state =
          Event.flutter_clear :: Event.eigenproblem_solve 0 :: es)) ∧
      ((solve_modal env w s).result = Except.ok () →
        new_events s (solve env w s).state =
          Event.flutter_clear :: Event.eigenproblem_solve 0 :: es ++
          [Event.attach_assembly,
           Event.flutter_initialize (flutter_init (solve_modal env w s).state),
           Event.scan_for_roots, Event.print_sorted_roots, Event.print_crossover_points,
           Event.find_critical_root critical_root_tolerance critical_root_max_iterations,
           Event.print_sorted_roots, Event.clear_assembly_object] ++ ws) := by
  obtain ⟨es, hlog, hes⟩ := solve_modal_log env w s
  rcases hm : solve_modal env w s with ⟨sm, (f | u)⟩
  · rw [hm] at hlog
    refine ⟨es, [], hes, by simp, ?_, ?_⟩
    · intro f2 _
      rw [solve_of_modal_error env w s sm f hm]
      simp only [new_events]
      simp only [] at hlog
      rw [hlog]
      simp
    · intro h
      cases h
  · rw [hm] at hlog
    simp only [] at hlog
    obtain ⟨-, -, -, -, -, -, c7⟩ := solve_scan_frame env sm
    cases hf : (env.find_critical_root (flutter_init sm) critical_root_tolerance
        critical_root_max_iterations).1 with
    | false =>
      refine ⟨es, [], hes, by simp, ?_, ?_⟩
      · intro f2 h
        cases h
      · intro _
        rw [solve_of_not_found env w s sm u hm hf]
        simp only [new_events]
        rw [c7, hlog]
        simp
    | true =>
      obtain ⟨-, ⟨ws, hws, pws⟩, -, -⟩ := solve_of_found env w s sm u hm hf
      refine ⟨es, ws, hes, pws, ?_, ?_⟩
      · intro f2 h
        cases h
      · intro _
        simp only [new_events]
        rw [hws, c7, hlog]
        simp

/-- The stored root after `solve`, whichever way the call ends. -/
theorem solve_flutter_root (env : Env) (w : Bool) (s : BeamPistonTheoryFlutterAnalysis) :
    (∀ v, (solve env w s).result = Except.ok v →
      (solve_modal env w s).result = Except.ok () ∧
      ∃ root, env.find_critical_root (flutter_init (solve_modal env w s).state)
          critical_root_tolerance critical_root_max_iterations = (true, some root) ∧
        root.V = v ∧ (solve env w s).state._flutter_root = some root) ∧
    (∀ f, (solve env w s).result = Except.error f →
      (solve env w s).state._flutter_root = none ∨
      (solve env w s).state._flutter_root =
        (env.find_critical_root (flutter_init (solve_modal env w s).state)
          critical_root_tolerance critical_root_max_iterations).2) ∧
    (∀ c, (solve env w s).result = Except.error (Failure.assertion c) →
      (solve env w s).state._flutter_root = none) := by
  obtain ⟨m1, -⟩ := solve_modal_frame env w s
  rcases hm : solve_modal env w s with ⟨sm, (f | u)⟩
  · rw [hm] at m1
    simp only [] at m1
    rw [solve_of_modal_error env w s sm f hm]
    refine ⟨?_, ?_, ?_⟩
    · intro v hv
      cases hv
    · intro _ _
      exact Or.inl m1
    · intro _ _
      exact m1
  · rw [hm] at m1
    simp only [] at m1
    obtain ⟨c1, -⟩ := solve_scan_frame env sm
    cases hf : (env.find_critical_root (flutter_init sm) critical_root_tolerance
        critical_root_max_iterations).1 with
    | false =>
      rw [solve_of_not_found env w s sm u hm hf]
      refine ⟨?_, ?_, ?_⟩
      · intro v hv
        cases hv
      · intro _ _
        exact Or.inl (c1.trans m1)
      · intro _ _
        exact c1.trans m1
    | true =>
      obtain ⟨h1, -, h3, h4⟩ := solve_of_found env w s sm u hm hf
      refine ⟨?_, ?_, ?_⟩
      · intro v hv
        obtain ⟨root, hr, hV⟩ := h3 v hv
        refine ⟨rfl, root, ?_, hV, ?_⟩
        · exact Prod.ext hf hr
        · rw [h1]
          exact hr
      · intro _ _
        exact Or.inr h1
      · intro c hc
        rcases h4 _ hc with h | h <;> cases h

/-- The analysis `sample_solved` stores `sample_root`. -/
theorem sample_solved_root : sample_solved._flutter_root = some sample_root := by
  rfl

/-- The analysis `sample_solved` is a state the driver can be in. -/
theorem sample_solved_reachable : Reachable sample_solved :=
  Reachable.solve sample_env false (Reachable.construct 2)

/-- C2: in every state the driver can be in, and for every parameter `p` other
than the velocity parameter that the discipline does not track yet, a
`sensitivity_solve(p)` that returns leaves the set of tracked parameters as it
found it. The calls it made are, in order: add the velocity, add `p`, attach the
assembly, `calculate_sensitivity` (run while both are tracked), clear the
assembly, remove `p`, remove the velocity. -/
theorem sensitivity_solve_restores_tracked_parameters (env : Env) (p : Parameter)
    (s : BeamPistonTheoryFlutterAnalysis) (hr : Reachable s)
    (hpv : p.ptr ≠ s._velocity.ptr) (hpt : p.ptr ∉ s._parameter_map)
    (v : ℚ) (hret : (sensitivity_solve env p s).result = Except.ok v) :
    (sensitivity_solve env p s).state._parameter_map = s._parameter_map ∧
    ∃ root, s._flutter_root = some root ∧
      new_events s (sensitivity_solve env p s).state =
        [Event.add_parameter s._velocity.ptr, Event.add_parameter p.ptr,
         Event.attach_assembly, Event.calculate_sensitivity root [p.ptr] 0,
         Event.clear_assembly_object, Event.remove_parameter p.ptr,
         Event.remove_parameter s._velocity.ptr] ∧
      v = (env.calculate_sensitivity (insert p.ptr (insert s._velocity.ptr s._parameter_map))
        root [p.ptr] 0).V_sens ∧
      s._velocity.ptr ∈ insert p.ptr (insert s._velocity.ptr s._parameter_map) ∧
      p.ptr ∈ insert p.ptr (insert s._velocity.ptr s._parameter_map) ∧
      (insert p.ptr (insert s._velocity.ptr s._parameter_map)).card =
        s._parameter_map.card + 2 := by
  have hv : s._velocity.ptr ∉ s._parameter_map := by
    rw [(reachable_invariant s hr).1]
    exact Finset.not_mem_empty _
  cases hroot : s._flutter_root with
  | none =>
    rw [sensitivity_solve_null_root_result env p s hroot] at hret
    cases hret
  | some root =>
    obtain ⟨h1, h2⟩ := sensitivity_solve_of_root env p s root hroot
    rw [h1] at hret
    refine ⟨?_, root, rfl, ?_, ?_, ?_, ?_, ?_⟩
    · rw [h2]
      exact erase_erase_insert_insert _ _ _ hv hpt
    · rw [h2]
      simp [new_events]
    · injection hret with hret
      exact hret.symm
    · simp
    · simp
    · rw [Finset.card_insert_of_not_mem, Finset.card_insert_of_not_mem hv]
      simp only [Finset.mem_insert, not_or]
      exact ⟨hpv, hpt⟩

/-- Witness of C2: `sensitivity_solve(E)` after a successful `solve`. -/
theorem sensitivity_solve_restores_tracked_parameters_witness :
    Reachable sample_solved ∧
    sample_parameter.ptr ≠ sample_solved._velocity.ptr ∧
    sample_parameter.ptr ∉ sample_solved._parameter_map ∧
    (sensitivity_solve sample_env sample_parameter sample_solved).result = Except.ok 5 ∧
    (sensitivity_solve sample_env sample_parameter sample_solved).state._parameter_map =
      sample_solved._parameter_map :=
  ⟨sample_solved_reachable, by decide, by decide, rfl,
    (sensitivity_solve_restores_tracked_parameters sample_env sample_parameter sample_solved
      sample_solved_reachable (by decide) (by decide) 5 rfl).1⟩

/-- C3, as stated, fails: on a freshly constructed analysis whose flutter solver
answers `found = false`, `solve` does not return; it ends at the assertion
`libmesh_assert(sol.first)`. -/
theorem solve_no_crossover_counterexample :
    (no_crossover_env.find_critical_root
      (flutter_init (solve_modal no_crossover_env false (construct 2)).state)
      critical_root_tolerance critical_root_max_iterations).1 = false ∧
    (solve no_crossover_env false (construct 2)).result =
      Except.error (Failure.assertion "sol.first") ∧
    ¬ ∃ v, (solve no_crossover_env false (construct 2)).result = Except.ok v := by
  refine ⟨rfl, rfl, ?_⟩
  rintro ⟨v, hv⟩
  cases hv

/-- C3, amended: `solve` returns a velocity only when `find_critical_root`
answered `found = true`; when the modal part went through and the answer is
`found = false`, `solve` ends at the assertion `libmesh_assert(sol.first)`,
after the scan part, with no root stored. -/
theorem solve_no_crossover_is_fatal (env : Env) (w : Bool)
    (s : BeamPistonTheoryFlutterAnalysis) :
    (∀ v, (solve env w s).result = Except.ok v →
      (env.find_critical_root (flutter_init (solve_modal env w s).state)
        critical_root_tolerance critical_root_max_iterations).1 = true) ∧
    ((solve_modal env w s).result = Except.ok () →
      (env.find_critical_root (flutter_init (solve_modal env w s).state)
        critical_root_tolerance critical_root_max_iterations).1 = false →
      solve env w s = ⟨solve_scan env (solve_modal env w s).state,
        Except.error (Failure.assertion "sol.first")⟩ ∧
      (solve env w s).state._flutter_root = none) := by
  refine ⟨?_, ?_⟩
  · intro v hv
    obtain ⟨-, root, hr, -, -⟩ := (solve_flutter_root env w s).1 v hv
    rw [hr]
  · intro hm hf
    have h := solve_of_not_found env w s (solve_modal env w s).state () (by
      conv_lhs => rw [outcome_eta (solve_modal env w s)]
      rw [hm]) hf
    refine ⟨h, ?_⟩
    exact (solve_flutter_root env w s).2.2 "sol.first" (by rw [h])

/-- Witness of the amended C3 on a freshly constructed analysis and a flutter
solver that finds no crossover. -/
theorem solve_no_crossover_is_fatal_witness :
    (solve_modal no_crossover_env false (construct 2)).result = Except.ok () ∧
    (no_crossover_env.find_critical_root
      (flutter_init (solve_modal no_crossover_env false (construct 2)).state)
      critical_root_tolerance critical_root_max_iterations).1 = false ∧
    (solve no_crossover_env false (construct 2)).state._flutter_root = none :=
  ⟨rfl, rfl,
    ((solve_no_crossover_is_fatal no_crossover_env false (construct 2)).2 rfl rfl).2⟩

/-- C4: every `solve` starts by dropping the stored root and clearing the flutter
solver, so its outcome does not depend on the root stored before; when it
returns, the stored root is the root this call's `find_critical_root` returned;
when it ends in a failure, the stored root is null or this call's root, and
null whenever the failure is an assertion. -/
theorem solve_discards_stored_root (env : Env) (w : Bool)
    (s : BeamPistonTheoryFlutterAnalysis) :
    (∀ r, solve env w { s with _flutter_root := r } = solve env w s) ∧
    (∃ es, new_events s (solve env w s).state = Event.flutter_clear :: es) ∧
    (∀ v, (solve env w s).result = Except.ok v →
      ∃ root, env.find_critical_root (flutter_init (solve_modal env w s).state)
          critical_root_tolerance critical_root_max_iterations = (true, some root) ∧
        (solve env w s).state._flutter_root = some root) ∧
    (∀ f, (solve env w s).result = Except.error f →
      (solve env w s).state._flutter_root = none ∨
      (solve env w s).state._flutter_root =
        (env.find_critical_root (flutter_init (solve_modal env w s).state)
          critical_root_tolerance critical_root_max_iterations).2) ∧
    (∀ c, (solve env w s).result = Except.error (Failure.assertion c) →
      (solve env w s).state._flutter_root = none) := by
  obtain ⟨h1, h2, h3⟩ := solve_flutter_root env w s
  refine ⟨fun r => rfl, ?_, ?_, h2, h3⟩
  · obtain ⟨es, ws, -, -, he, ho⟩ := solve_new_events env w s
    cases hm : (solve_modal env w s).result with
    | error f => exact ⟨_, he f hm⟩
    | ok u => exact ⟨_, ho hm⟩
  · intro v hv
    obtain ⟨-, root, hr, -, hst⟩ := h1 v hv
    exact ⟨root, hr, hst⟩

/-- C5: the value `solve` returns is the velocity `V` of the root its
`find_critical_root` returned, which is then the stored root; a
`sensitivity_solve(p)` that follows returns the `V_sens` of that root as
`calculate_sensitivity` leaves it when called with the parameter vector `[p]`
and index `0`. The stored root afterwards is that result, untouched, and apart
from it the call changes nothing but the log and what the flutter solver writes
into the velocity value: every other parameter keeps its value. -/
theorem solve_then_sensitivity_solve (env env2 : Env) (w : Bool) (p : Parameter)
    (s : BeamPistonTheoryFlutterAnalysis) (v : ℚ)
    (hret : (solve env w s).result = Except.ok v) :
    ∃ root, env.find_critical_root (flutter_init (solve_modal env w s).state)
        critical_root_tolerance critical_root_max_iterations = (true, some root) ∧
      v = root.V ∧
      (solve env w s).state._flutter_root = some root ∧
      (sensitivity_solve env2 p (solve env w s).state).result =
        Except.ok (env2.calculate_sensitivity
          (insert p.ptr (insert (solve env w s).state._velocity.ptr
            (solve env w s).state._parameter_map)) root [p.ptr] 0).V_sens ∧
      (sensitivity_solve env2 p (solve env w s).state).state =
        { (solve env w s).state with
          _flutter_root := some (env2.calculate_sensitivity
            (insert p.ptr (insert (solve env w s).state._velocity.ptr
              (solve env w s).state._parameter_map)) root [p.ptr] 0)
          _velocity := { (solve env w s).state._velocity with
            value := env2.velocity_after_sensitivity (solve env w s).state._velocity.value }
          _parameter_map :=
            ((insert p.ptr (insert (solve env w s).state._velocity.ptr
              (solve env w s).state._parameter_map)).erase p.ptr).erase
                (solve env w s).state._velocity.ptr
          log := (solve env w s).state.log ++
            [Event.add_parameter (solve env w s).state._velocity.ptr,
             Event.add_parameter p.ptr, Event.attach_assembly,
             Event.calculate_sensitivity root [p.ptr] 0, Event.clear_assembly_object,
             Event.remove_parameter p.ptr,
             Event.remove_parameter (solve env w s).state._velocity.ptr] } := by
  obtain ⟨-, root, hr, hV, hst⟩ := (solve_flutter_root env w s).1 v hret
  obtain ⟨g1, g2⟩ := sensitivity_solve_of_root env2 p (solve env w s).state root hst
  exact ⟨root, hr, hV.symm, hst, g1, g2⟩

/-- Witness of C5: `solve` on a fresh analysis returns the velocity `1110` of
`sample_root`, and the `sensitivity_solve(E)` that follows returns `5`. -/
theorem solve_then_sensitivity_solve_witness :
    (solve sample_env false (construct 2)).result = Except.ok 1110 ∧
    (sensitivity_solve sample_env sample_parameter
      (solve sample_env false (construct 2)).state).result = Except.ok 5 := by
  obtain ⟨root, h1, -, -, h4, -⟩ := solve_then_sensitivity_solve sample_env sample_env false
    sample_parameter (construct 2) 1110 rfl
  have hroot : root = sample_root := by
    have h := congrArg Prod.snd h1
    exact (Option.some.inj h).symm
  subst hroot
  exact ⟨rfl, h4⟩

/-- C6: in every state the driver can be in, a `solve` initialises the flutter
solver only with its velocity parameter, the velocity range from `1000` to
`1200`, `10` divisions and a basis of `N = min(n_converged, 3)` vectors, the first
`N` eigenvectors, so `N ≤ 3`, and `N = 3` exactly when at least three eigenpairs
converged; it does so whenever the basis assertion holds, which it does on an
analysis whose basis is still empty. -/
theorem solve_initialises_flutter_scan (env : Env) (w : Bool)
    (s : BeamPistonTheoryFlutterAnalysis) (hr : Reachable s) :
    (∀ init, Event.flutter_initialize init ∈ new_events s (solve env w s).state →
      init.velocity_param = s._velocity.ptr ∧
      init.V_lower = 1000 ∧ init.V_upper = 1200 ∧ init.n_divisions = 10 ∧
      init.basis.length = min env.n_converged_eigenvalues 3 ∧
      init.basis.length ≤ 3 ∧
      (init.basis.length = 3 ↔ 3 ≤ env.n_converged_eigenvalues) ∧
      init.basis = (List.range (min env.n_converged_eigenvalues 3)).map
        (fun j => some (env.get_eigenpair j).2.2)) ∧
    ((solve_modal env w s).result = Except.ok () →
      Event.flutter_initialize (flutter_init (solve_modal env w s).state) ∈
        new_events s (solve env w s).state) ∧
    (s._basis = [] → (solve_modal env w s).result = Except.ok ()) := by
  obtain ⟨-, hreq, -⟩ := reachable_invariant s hr
  obtain ⟨es, ws, pes, pws, he, ho⟩ := solve_new_events env w s
  refine ⟨?_, ?_, ?_⟩
  · intro init hmem
    cases hm : (solve_modal env w s).result with
    | error f =>
      rw [he f hm] at hmem
      simp only [List.mem_cons, reduceCtorEq, false_or] at hmem
      rcases pes _ hmem with ⟨re, h⟩ | ⟨f, x, h⟩ | ⟨j, h⟩ <;> cases h
    | ok u =>
      rw [ho hm] at hmem
      simp only [List.mem_cons, List.mem_append, reduceCtorEq, false_or, or_false,
        List.mem_singleton, List.not_mem_nil, Event.flutter_initialize.injEq] at hmem
      rcases hmem with (hmem | hmem) | hmem
      · rcases pes _ hmem with ⟨re, h⟩ | ⟨f, x, h⟩ | ⟨j, h⟩ <;> cases h
      · subst hmem
        have hlen := solve_modal_basis_length env w s hm
        rw [hreq] at hlen
        obtain ⟨-, mv, -⟩ := solve_modal_frame env w s
        have hbas := solve_modal_basis env w s hm
        rw [hreq] at hbas
        refine ⟨?_, rfl, rfl, rfl, hlen, ?_, ?_, hbas⟩
        · simp [flutter_init, mv]
        · simp only [flutter_init, hlen]
          exact Nat.min_le_right _ _
        · simp only [flutter_init, hlen]
          omega
      · rcases pws _ hmem with ⟨f, x, h⟩
        cases h
  · intro hm
    rw [ho hm]
    simp
  · intro hb
    unfold solve_modal
    simp only []
    rw [if_neg]
    rw [(solve_eigenproblem_frame s).2.2.2.2.2.1, hb]
    simp

/-- Witness of C6 on a freshly constructed analysis with three converged
eigenpairs: the flutter solver is initialised with a basis of three vectors. -/
theorem solve_initialises_flutter_scan_witness :
    Reachable (construct 2) ∧
    Event.flutter_initialize
        (flutter_init (solve_modal sample_env false (construct 2)).state) ∈
      new_events (construct 2) (solve sample_env false (construct 2)).state ∧
    (flutter_init (solve_modal sample_env false (construct 2)).state).basis.length = 3 :=
  ⟨Reachable.construct 2,
    (solve_initialises_flutter_scan sample_env false (construct 2)
      (Reachable.construct 2)).2.1 rfl,
    rfl⟩

end BeamPistonTheoryFlutterAnalysis

/-!
## Theorems about the flutter engine of the specification
-/

namespace TimeDomainFlutterSolver

/-- The final bracket of a bisection lies inside the bracket it started from. -/
theorem bisect_bracket (g : ℚ → ℚ) (tol d : ℚ) (fuel : Nat) :
    ∀ (lo hi : ℚ) (k : Nat), lo ≤ hi →
      lo ≤ (bisect g tol d fuel lo hi k).V_lo ∧
      (bisect g tol d fuel lo hi k).V_lo ≤ (bisect g tol d fuel lo hi k).V_hi ∧
      (bisect g tol d fuel lo hi k).V_hi ≤ hi := by
  induction fuel with
  | zero =>
    intro lo hi k h
    unfold bisect
    split <;> exact ⟨le_refl _, h, le_refl _⟩
  | succ fuel ih =>
    intro lo hi k h
    unfold bisect
    split
    · exact ⟨le_refl _, h, le_refl _⟩
    · simp only []
      split
      · obtain ⟨h1, h2, h3⟩ := ih lo ((lo + hi) / 2) (k + 1) (by linarith)
        exact ⟨h1, h2, by linarith⟩
      · obtain ⟨h1, h2, h3⟩ := ih ((lo + hi) / 2) hi (k + 1) (by linarith)
        exact ⟨by linarith, h2, h3⟩

/-- A bisection that cannot reach the tolerance within its budget uses the
whole budget, halves the bracket that many times and reports that it did not
converge. -/
theorem bisect_budget_exhausted (g : ℚ → ℚ) (tol d : ℚ) (htol : 0 ≤ tol) (fuel : Nat) :
    ∀ (lo hi : ℚ) (k : Nat), tol * 2 ^ fuel < hi - lo →
      (bisect g tol d fuel lo hi k).converged = false ∧
      (bisect g tol d fuel lo hi k).iterations = k + fuel ∧
      (bisect g tol d fuel lo hi k).V_hi - (bisect g tol d fuel lo hi k).V_lo =
        (hi - lo) / 2 ^ fuel := by
  induction fuel with
  | zero =>
    intro lo hi k h
    have hn : ¬ hi - lo ≤ tol := by
      simp only [pow_zero, mul_one] at h
      exact not_le.mpr h
    unfold bisect
    rw [if_neg hn]
    simp
  | succ fuel ih =>
    intro lo hi k h
    have hpow : (1 : ℚ) ≤ 2 ^ (fuel + 1) := one_le_pow₀ (by norm_num)
    have hn : ¬ hi - lo ≤ tol := by
      have : tol ≤ tol * 2 ^ (fuel + 1) := le_mul_of_one_le_right htol hpow
      exact not_le.mpr (lt_of_le_of_lt this h)
    have hhalf : tol * 2 ^ fuel < (hi - lo) / 2 := by
      rw [pow_succ] at h
      linarith
    unfold bisect
    rw [if_neg hn]
    simp only []
    split
    · obtain ⟨h1, h2, h3⟩ := ih lo ((lo + hi) / 2) (k + 1) (by linarith)
      refine ⟨h1, by omega, ?_⟩
      rw [h3, pow_succ]
      field_simp
      ring
    · obtain ⟨h1, h2, h3⟩ := ih ((lo + hi) / 2) hi (k + 1) (by linarith)
      refine ⟨h1, by omega, ?_⟩
      rw [h3, pow_succ]
      field_simp
      ring

/-- A crossover between two samples brackets the interval between their
velocities and carries the identifier and damping of a root of the first. -/
theorem crossovers_between_mem (a b : VelocitySample) (c : CrossoverPoint)
    (h : c ∈ crossovers_between a b) :
    c.V_lo = a.velocity ∧ c.V_hi = b.velocity ∧
    ∃ r ∈ a.roots, c.root_id = r.root_id := by
  unfold crossovers_between at h
  obtain ⟨r, hr, hf⟩ := List.mem_filterMap.mp h
  unfold crossover_of_root at hf
  split at hf
  · split at hf
    · injection hf with hf
      subst hf
      exact ⟨rfl, rfl, r, hr, rfl⟩
    · cases hf
  · cases hf

/-- Along a list of samples whose velocities grow by at least `delta` from one
to the next, every crossover bracket is at least `delta` wide. -/
theorem walk_bracket_width (delta : ℚ) (l : List VelocitySample)
    (h : l.Pairwise (fun x y => x.velocity + delta ≤ y.velocity)) :
    ∀ c ∈ walk l, c.V_lo + delta ≤ c.V_hi := by
  induction l with
  | nil => simp [walk]
  | cons a l ih =>
    cases l with
    | nil => simp [walk]
    | cons b rest =>
      intro c hc
      rw [walk, List.mem_append] at hc
      rcases hc with hc | hc
      · obtain ⟨h1, h2, -⟩ := crossovers_between_mem a b c hc
        rw [h1, h2]
        exact (List.pairwise_cons.mp h).1 b (List.mem_cons_self _ _)
      · exact ih (List.pairwise_cons.mp h).2 c hc

/-- The sampled velocities of a scan grow by at least one division width. -/
theorem sample_velocities_spacing (V_min V_max : ℚ) (n : Nat) (hV : V_min ≤ V_max) :
    (sample_velocities V_min V_max n).Pairwise
      (fun x y => x + (V_max - V_min) / (n : ℚ) ≤ y) := by
  unfold sample_velocities
  rw [List.pairwise_map]
  refine (List.pairwise_lt_range (n + 1)).imp ?_
  intro i j hij
  have hd : 0 ≤ (V_max - V_min) / (n : ℚ) :=
    div_nonneg (by linarith) (Nat.cast_nonneg n)
  have hc : (i : ℚ) + 1 ≤ (j : ℚ) := by exact_mod_cast hij
  nlinarith

/-- Every crossover detected in a scanned history brackets at least one
division of the velocity range. -/
theorem detect_crossovers_bracket_width (ph : Physics) (init : FlutterInit)
    (history : RootHistory) (hV : init.V_lower ≤ init.V_upper)
    (h : scan_for_roots ph init = Except.ok history) :
    ∀ c ∈ detect_crossovers history,
      c.V_lo + (init.V_upper - init.V_lower) / (init.n_divisions : ℚ) ≤ c.V_hi := by
  unfold scan_for_roots at h
  split at h
  · cases h
  · injection h with h
    subst h
    intro c hc
    unfold detect_crossovers at hc
    rw [(List.perm_insertionSort _ _).mem_iff] at hc
    refine walk_bracket_width _ _ ?_ c hc
    refine List.Pairwise.filter _ ?_
    rw [List.pairwise_map]
    refine (sample_velocities_spacing init.V_lower init.V_upper init.n_divisions hV).imp ?_
    intro x y hxy
    have hx : ∀ v : ℚ, (match ph.roots_at v with
        | some rs => (⟨v, true, rs⟩ : VelocitySample)
        | none => ⟨v, false, []⟩).velocity = v := by
      intro v
      split <;> rfl
    rw [hx x, hx y]
    exact hxy

/-- The selected crossover is one of the list and none has a lower `V_lo`. -/
theorem lowest_crossover_spec (cs : List CrossoverPoint) (c : CrossoverPoint)
    (h : lowest_crossover cs = some c) : c ∈ cs ∧ ∀ d ∈ cs, c.V_lo ≤ d.V_lo := by
  induction cs generalizing c with
  | nil => cases h
  | cons a cs ih =>
    unfold lowest_crossover at h
    split at h
    · rename_i hnone
      injection h with h
      subst h
      cases cs with
      | nil => simp
      | cons b cs =>
        unfold lowest_crossover at hnone
        split at hnone
        · cases hnone
        · split at hnone <;> cases hnone
    · rename_i d hd
      obtain ⟨hmem, hmin⟩ := ih d hd
      split at h
      · rename_i hle
        injection h with h
        subst h
        refine ⟨List.mem_cons_self _ _, ?_⟩
        intro e he
        rcases List.mem_cons.mp he with he | he
        · rw [he]
        · exact le_trans hle (hmin e he)
      · rename_i hle
        injection h with h
        subst h
        refine ⟨List.mem_cons_of_mem _ hmem, ?_⟩
        intro e he
        rcases List.mem_cons.mp he with he | he
        · rw [he]
          exact le_of_lt (not_le.mp hle)
        · exact hmin e he

/-- A crossover is selected whenever there is one. -/
theorem lowest_crossover_of_ne_nil (cs : List CrossoverPoint) (h : cs ≠ []) :
    ∃ c, lowest_crossover cs = some c := by
  cases cs with
  | nil => exact absurd rfl h
  | cons a cs =>
    unfold lowest_crossover
    split
    · exact ⟨a, rfl⟩
    · split
      · exact ⟨a, rfl⟩
      · exact ⟨_, rfl⟩

/-- A bisection does not use more than its budget. -/
theorem bisect_iterations_le (g : ℚ → ℚ) (tol d : ℚ) (fuel : Nat) :
    ∀ (lo hi : ℚ) (k : Nat), (bisect g tol d fuel lo hi k).iterations ≤ k + fuel := by
  induction fuel with
  | zero =>
    intro lo hi k
    unfold bisect
    split <;> exact le_refl _
  | succ fuel ih =>
    intro lo hi k
    unfold bisect
    split
    · exact Nat.le_add_right _ _
    · simp only []
      split
      · have := ih lo ((lo + hi) / 2) (k + 1)
        omega
      · have := ih ((lo + hi) / 2) hi (k + 1)
        omega

/-- A bisection whose budget covers `fuel` halvings, where `fuel` halvings
bring the bracket to the tolerance or below, ends with a bracket no wider than
the tolerance, whether it is flagged as converged or not. -/
theorem bisect_width_le (g : ℚ → ℚ) (tol d : ℚ) (fuel : Nat) :
    ∀ (lo hi : ℚ) (k : Nat), hi - lo ≤ tol * 2 ^ fuel →
      (bisect g tol d fuel lo hi k).V_hi - (bisect g tol d fuel lo hi k).V_lo ≤ tol := by
  induction fuel with
  | zero =>
    intro lo hi k h
    simp only [pow_zero, mul_one] at h
    unfold bisect
    split <;> exact h
  | succ fuel ih =>
    intro lo hi k h
    unfold bisect
    split
    · rename_i hle
      exact hle
    · simp only []
      have hhalf : ∀ a b : ℚ, b - a = (hi - lo) / 2 → b - a ≤ tol * 2 ^ fuel := by
        intro a b hab
        rw [pow_succ] at h
        linarith
      split
      · exact ih lo ((lo + hi) / 2) (k + 1) (hhalf _ _ (by ring))
      · exact ih ((lo + hi) / 2) hi (k + 1) (hhalf _ _ (by ring))

/-- C7, as stated, fails: in the end-to-end scenario (three modes, the damping
of mode `2` changing sign between the sixth and the seventh sample) the scan
detects the one crossover from `1100` to `1120`, and the search with the
arguments of the driver stops at the iteration limit: ten iterations, final
bracket width `5 / 256`, which is not below the tolerance `1 / 1000`. -/
theorem scenario_critical_root_counterexample :
    (scan_for_roots scenario_physics scenario_init).map detect_crossovers =
      Except.ok [⟨1100, 1120, 2, -1 / 10, 1 / 10⟩] ∧
    refine scenario_physics ⟨1100, 1120, 2, -1 / 10, 1 / 10⟩ BeamPistonTheoryFlutterAnalysis.critical_root_tolerance
      BeamPistonTheoryFlutterAnalysis.critical_root_max_iterations =
      ⟨1110, 1110 + 5 / 256, 10, false⟩ ∧
    ¬ ((1110 + 5 / 256 : ℚ) - 1110 < BeamPistonTheoryFlutterAnalysis.critical_root_tolerance) ∧
    critical_root scenario_physics scenario_init
        BeamPistonTheoryFlutterAnalysis.critical_root_tolerance
        BeamPistonTheoryFlutterAnalysis.critical_root_max_iterations =
      Except.ok (true, some ⟨scenario_root 2 (1110 + 5 / 512), 1 / 1000, 10, false, 0⟩) := by
  decide!

/-- C7, amended: whatever the physics, when the search started by the driver
(range `1000` to `1200`, `10` divisions, tolerance `1 / 1000`, at most `10`
iterations) finds a critical root, the refined crossover was at least `20` wide,
all ten iterations were used, the final bracket is `1 / 1024` of the crossover
bracket and so wider than the tolerance, and the root is flagged as not
converged. -/
theorem critical_root_reaches_iteration_limit (ph : Physics)
    (s : BeamPistonTheoryFlutterAnalysis) (cr : CriticalRoot)
    (h : critical_root ph (BeamPistonTheoryFlutterAnalysis.flutter_init s)
      BeamPistonTheoryFlutterAnalysis.critical_root_tolerance
      BeamPistonTheoryFlutterAnalysis.critical_root_max_iterations =
        Except.ok (true, some cr)) :
    cr.converged = false ∧ cr.iterations = 10 ∧
    ∃ history c,
      scan_for_roots ph (BeamPistonTheoryFlutterAnalysis.flutter_init s) = Except.ok history ∧
      lowest_crossover (detect_crossovers history) = some c ∧
      20 ≤ c.V_hi - c.V_lo ∧
      (refine ph c (1 / 1000) 10).V_hi - (refine ph c (1 / 1000) 10).V_lo =
        (c.V_hi - c.V_lo) / 1024 ∧
      1 / 1000 < (refine ph c (1 / 1000) 10).V_hi - (refine ph c (1 / 1000) 10).V_lo := by
  unfold critical_root at h
  split at h
  · cases h
  · rename_i history hscan
    injection h with h
    unfold find_critical_root at h
    split at h
    · cases h
    · rename_i c hc
      have hmem := (lowest_crossover_spec _ c hc).1
      have hw := detect_crossovers_bracket_width ph
        (BeamPistonTheoryFlutterAnalysis.flutter_init s) history
        (by norm_num [BeamPistonTheoryFlutterAnalysis.flutter_init]) hscan c hmem
      have hw20 : 20 ≤ c.V_hi - c.V_lo := by
        simp only [BeamPistonTheoryFlutterAnalysis.flutter_init] at hw
        norm_num at hw
        linarith
      obtain ⟨b1, b2, b3⟩ := bisect_budget_exhausted
        (fun v => (ph.continuation c.root_id v).eigenvalue.re) (1 / 1000) c.damping_lo
        (by norm_num) 10 c.V_lo c.V_hi 0 (by norm_num; linarith)
      have hcr := (Option.some.inj (congrArg Prod.snd h)).symm
      simp only [BeamPistonTheoryFlutterAnalysis.critical_root_tolerance,
        BeamPistonTheoryFlutterAnalysis.critical_root_max_iterations] at hcr
      refine ⟨?_, ?_, history, c, hscan, hc, hw20, ?_, ?_⟩
      · rw [hcr]
        exact b1
      · rw [hcr]
        simp only [refine]
        rw [b2]
      · simp only [refine]
        rw [b3]
        norm_num
      · simp only [refine]
        rw [b3]
        norm_num
        linarith

/-- Witness of the amended C7: the end-to-end scenario, on the arguments the
driver passes after a first `solve_modal` with three converged eigenpairs. -/
theorem critical_root_reaches_iteration_limit_witness :
    critical_root scenario_physics scenario_init
        BeamPistonTheoryFlutterAnalysis.critical_root_tolerance
        BeamPistonTheoryFlutterAnalysis.critical_root_max_iterations =
      Except.ok (true, some ⟨scenario_root 2 (1110 + 5 / 512), 1 / 1000, 10, false, 0⟩) ∧
    (⟨scenario_root 2 (1110 + 5 / 512), 1 / 1000, 10, false, 0⟩ : CriticalRoot).converged =
      false ∧
    (⟨scenario_root 2 (1110 + 5 / 512), 1 / 1000, 10, false, 0⟩ : CriticalRoot).iterations =
      10 :=
  ⟨by decide!,
    (critical_root_reaches_iteration_limit scenario_physics
      (BeamPistonTheoryFlutterAnalysis.solve_modal sample_env false
        (BeamPistonTheoryFlutterAnalysis.construct 2)).state
      ⟨scenario_root 2 (1110 + 5 / 512), 1 / 1000, 10, false, 0⟩ (by decide!)).1,
    (critical_root_reaches_iteration_limit scenario_physics
      (BeamPistonTheoryFlutterAnalysis.solve_modal sample_env false
        (BeamPistonTheoryFlutterAnalysis.construct 2)).state
      ⟨scenario_root 2 (1110 + 5 / 512), 1 / 1000, 10, false, 0⟩ (by decide!)).2.1⟩

/-- C10: from every non-empty list of crossovers, each a bracket with
`V_lo ≤ V_hi`, `find_critical_root` refines a crossover of the list than which
none has a smaller `V_lo`: it answers `found = true` with a root of that
crossover's identifier whose velocity lies inside that crossover's bracket. -/
theorem find_critical_root_refines_lowest (ph : Physics) (cs : List CrossoverPoint)
    (tol : ℚ) (n : Nat) (hne : cs ≠ []) (hbr : ∀ c ∈ cs, c.V_lo ≤ c.V_hi) :
    ∃ c cr, lowest_crossover cs = some c ∧ c ∈ cs ∧
      (∀ d ∈ cs, ¬ d.V_lo < c.V_lo) ∧
      find_critical_root ph cs tol n = (true, some cr) ∧
      cr.root.root_id = c.root_id ∧
      c.V_lo ≤ cr.root.velocity ∧ cr.root.velocity ≤ c.V_hi ∧
      c.V_lo ≤ (refine ph c tol n).V_lo ∧ (refine ph c tol n).V_hi ≤ c.V_hi ∧
      (refine ph c tol n).V_lo ≤ cr.root.velocity ∧
      cr.root.velocity ≤ (refine ph c tol n).V_hi := by
  obtain ⟨c, hc⟩ := lowest_crossover_of_ne_nil cs hne
  obtain ⟨hmem, hmin⟩ := lowest_crossover_spec cs c hc
  obtain ⟨b1, b2, b3⟩ := bisect_bracket
    (fun v => (ph.continuation c.root_id v).eigenvalue.re) tol c.damping_lo n
    c.V_lo c.V_hi 0 (hbr c hmem)
  refine ⟨c,
    ⟨{ ph.continuation c.root_id
          (((refine ph c tol n).V_lo + (refine ph c tol n).V_hi) / 2) with
        velocity := ((refine ph c tol n).V_lo + (refine ph c tol n).V_hi) / 2
        root_id := c.root_id },
      tol, (refine ph c tol n).iterations, (refine ph c tol n).converged, 0⟩,
    hc, hmem, fun d hd => not_lt.mpr (hmin d hd), ?_, rfl, ?_⟩
  · unfold find_critical_root
    rw [hc]
  · simp only [refine]
    refine ⟨?_, ?_, b1, b3, ?_, ?_⟩ <;> linarith

/-- Witness of C10 on two crossovers, the second of which has the lower `V_lo`. -/
theorem find_critical_root_refines_lowest_witness :
    ([⟨1100, 1120, 2, -1 / 10, 1 / 10⟩, ⟨1040, 1060, 0, -1, 1⟩] : List CrossoverPoint) ≠ [] ∧
    (∀ c ∈ ([⟨1100, 1120, 2, -1 / 10, 1 / 10⟩, ⟨1040, 1060, 0, -1, 1⟩] : List CrossoverPoint),
      c.V_lo ≤ c.V_hi) ∧
    ∃ c cr, lowest_crossover [⟨1100, 1120, 2, -1 / 10, 1 / 10⟩, ⟨1040, 1060, 0, -1, 1⟩] =
        some c ∧
      c ∈ ([⟨1100, 1120, 2, -1 / 10, 1 / 10⟩, ⟨1040, 1060, 0, -1, 1⟩] : List CrossoverPoint) ∧
      (∀ d ∈ ([⟨1100, 1120, 2, -1 / 10, 1 / 10⟩, ⟨1040, 1060, 0, -1, 1⟩] :
        List CrossoverPoint), ¬ d.V_lo < c.V_lo) ∧
      find_critical_root scenario_physics
        [⟨1100, 1120, 2, -1 / 10, 1 / 10⟩, ⟨1040, 1060, 0, -1, 1⟩] (1 / 1000) 10 =
          (true, some cr) ∧
      cr.root.root_id = c.root_id ∧
      c.V_lo ≤ cr.root.velocity ∧ cr.root.velocity ≤ c.V_hi ∧
      c.V_lo ≤ (refine scenario_physics c (1 / 1000) 10).V_lo ∧
      (refine scenario_physics c (1 / 1000) 10).V_hi ≤ c.V_hi ∧
      (refine scenario_physics c (1 / 1000) 10).V_lo ≤ cr.root.velocity ∧
      cr.root.velocity ≤ (refine scenario_physics c (1 / 1000) 10).V_hi :=
  ⟨by decide, by decide!,
    find_critical_root_refines_lowest scenario_physics
      [⟨1100, 1120, 2, -1 / 10, 1 / 10⟩, ⟨1040, 1060, 0, -1, 1⟩] (1 / 1000) 10
      (by decide) (by decide!)⟩

/-- The walk over a list splits at any sample into the walk up to it and the
walk from it. -/
theorem walk_append (pre : List VelocitySample) (a : VelocitySample)
    (rest : List VelocitySample) :
    walk (pre ++ a :: rest) = walk (pre ++ [a]) ++ walk (a :: rest) := by
  induction pre with
  | nil => simp [walk]
  | cons p pre ih =>
    cases pre with
    | nil => simp [walk]
    | cons q pre =>
      simp only [List.cons_append] at ih ⊢
      rw [show walk (p :: q :: (pre ++ a :: rest)) =
            crossovers_between p q ++ walk (q :: (pre ++ a :: rest)) from rfl,
        show walk (p :: q :: (pre ++ [a])) =
            crossovers_between p q ++ walk (q :: (pre ++ [a])) from rfl,
        ih, List.append_assoc]

/-- Every crossover of a walk starts at the velocity of a sample that is not the
last one. -/
theorem walk_V_lo_init (pre : List VelocitySample) (a : VelocitySample) :
    ∀ c ∈ walk (pre ++ [a]), ∃ x ∈ pre, c.V_lo = x.velocity := by
  induction pre with
  | nil => simp [walk]
  | cons p pre ih =>
    intro c hc
    cases pre with
    | nil =>
      simp only [List.cons_append, List.nil_append, walk, List.append_nil] at hc
      exact ⟨p, List.mem_cons_self _ _, (crossovers_between_mem p a c hc).1⟩
    | cons q pre =>
      simp only [List.cons_append] at hc ih
      rw [show walk (p :: q :: (pre ++ [a])) =
            crossovers_between p q ++ walk (q :: (pre ++ [a])) from rfl,
        List.mem_append] at hc
      rcases hc with hc | hc
      · exact ⟨p, List.mem_cons_self _ _, (crossovers_between_mem p q c hc).1⟩
      · obtain ⟨x, hx, hxv⟩ := ih c hc
        exact ⟨x, List.mem_cons_of_mem _ hx, hxv⟩

/-- Every crossover of a walk starts at the velocity of one of its samples. -/
theorem walk_V_lo_mem (l : List VelocitySample) :
    ∀ c ∈ walk l, ∃ x ∈ l, c.V_lo = x.velocity := by
  induction l with
  | nil => simp [walk]
  | cons a l ih =>
    cases l with
    | nil => simp [walk]
    | cons b rest =>
      intro c hc
      rw [walk, List.mem_append] at hc
      rcases hc with hc | hc
      · exact ⟨a, List.mem_cons_self _ _, (crossovers_between_mem a b c hc).1⟩
      · obtain ⟨x, hx, hxv⟩ := ih c hc
        exact ⟨x, List.mem_cons_of_mem _ hx, hxv⟩

/-- A crossover made from a root carries its identifier and the two velocities. -/
theorem crossover_of_root_some (v : ℚ) (b : VelocitySample) (r : FlutterRoot)
    (c : CrossoverPoint) (h : crossover_of_root v b r = some c) :
    c.root_id = r.root_id ∧ c.V_lo = v ∧ c.V_hi = b.velocity := by
  unfold crossover_of_root at h
  split at h
  · split at h
    · injection h with h
      subst h
      exact ⟨rfl, rfl, rfl⟩
    · cases h
  · cases h

/-- The test of one root, in terms of the damping of that root in the next
sample. -/
theorem crossover_of_root_eq (v : ℚ) (b : VelocitySample) (r : FlutterRoot) :
    crossover_of_root v b r =
      match damping_at b r.root_id with
      | some d2 =>
        if sign_changes r.eigenvalue.re d2 then
          some ⟨v, b.velocity, r.root_id, r.eigenvalue.re, d2⟩
        else none
      | none => none := by
  unfold crossover_of_root damping_at
  cases b.roots.find? (fun r2 => decide (r2.root_id = r.root_id)) <;> rfl

/-- Among the crossovers made from roots with pairwise distinct identifiers,
those of identifier `i` are: the one made from the root `i`, if both samples
have it and its damping changes sign, and none otherwise. -/
theorem filterMap_crossovers_of (b : VelocitySample) (i : Nat) (v : ℚ)
    (rs : List FlutterRoot) (hids : (rs.map (fun r => r.root_id)).Nodup) :
    crossovers_of (rs.filterMap (crossover_of_root v b)) i v b.velocity =
      match (rs.find? (fun r => decide (r.root_id = i))).map (fun r => r.eigenvalue.re),
        damping_at b i with
      | some d1, some d2 =>
        if sign_changes d1 d2 then [⟨v, b.velocity, i, d1, d2⟩] else []
      | _, _ => [] := by
  induction rs with
  | nil => simp [crossovers_of]
  | cons r rs ih =>
    rw [List.map_cons, List.nodup_cons] at hids
    obtain ⟨hnot, hnd⟩ := hids
    have ih := ih hnd
    by_cases hri : r.root_id = i
    · -- the rest contributes nothing
      have hrest : crossovers_of (rs.filterMap (crossover_of_root v b)) i v b.velocity = [] := by
        unfold crossovers_of
        rw [List.filter_eq_nil_iff]
        intro c hc
        obtain ⟨r2, hr2, hf⟩ := List.mem_filterMap.mp hc
        have := (crossover_of_root_some v b r2 c hf).1
        simp only [decide_eq_true_eq, not_and]
        intro hci
        exfalso
        apply hnot
        rw [hri, ← hci, this]
        exact List.mem_map_of_mem _ hr2
      rw [List.find?_cons_of_pos _ (by simpa using hri)]
      simp only [Option.map_some']
      rw [List.filterMap_cons, crossover_of_root_eq, hri]
      cases hb : damping_at b i with
      | none =>
        simp only []
        exact hrest
      | some d2 =>
        simp only []
        by_cases hs : sign_changes r.eigenvalue.re d2 = true
        · simp only [hs, if_true]
          unfold crossovers_of at hrest ⊢
          rw [List.filter_cons_of_pos (by simp), hrest]
        · simp only [hs]
          exact hrest
    · rw [List.find?_cons_of_neg _ (by simpa using hri)]
      rw [← ih, List.filterMap_cons]
      cases hc : crossover_of_root v b r with
      | none => rfl
      | some c =>
        simp only []
        unfold crossovers_of
        rw [List.filter_cons_of_neg]
        have := (crossover_of_root_some v b r c hc).1
        simp only [decide_eq_true_eq, not_and]
        intro hci
        exact absurd (this ▸ hci) hri

/-- In an ascending history, the reported crossovers of a root over the bracket
of two consecutive valid samples are those found between these two samples. -/
theorem detect_crossovers_perm (h : RootHistory) (pre post : List VelocitySample)
    (a b : VelocitySample) (root_id : Nat)
    (hasc : (h.map (fun smp => smp.velocity)).Pairwise (fun x y => x < y))
    (hcons : h.filter (fun smp => smp.valid) = pre ++ a :: b :: post) :
    a.velocity < b.velocity ∧
    (crossovers_of (detect_crossovers h) root_id a.velocity b.velocity).Perm
      (crossovers_of (crossovers_between a b) root_id a.velocity b.velocity) := by
  have hp : (pre ++ a :: b :: post).Pairwise (fun x y => x.velocity < y.velocity) := by
    rw [← hcons]
    exact (List.pairwise_map.mp hasc).filter _
  obtain ⟨-, hp2, hp3⟩ := List.pairwise_append.mp hp
  obtain ⟨ha, hp4⟩ := List.pairwise_cons.mp hp2
  refine ⟨ha b (List.mem_cons_self _ _), ?_⟩
  have hpre : crossovers_of (walk (pre ++ [a])) root_id a.velocity b.velocity = [] := by
    unfold crossovers_of
    rw [List.filter_eq_nil_iff]
    intro c hc
    obtain ⟨x, hx, hxv⟩ := walk_V_lo_init pre a c hc
    have hlt := hp3 x hx a (List.mem_cons_self _ _)
    simp only [decide_eq_true_eq, not_and]
    intro _ hlo
    rw [hxv] at hlo
    exact absurd hlo (ne_of_lt hlt)
  have hpost : crossovers_of (walk (b :: post)) root_id a.velocity b.velocity = [] := by
    unfold crossovers_of
    rw [List.filter_eq_nil_iff]
    intro c hc
    obtain ⟨x, hx, hxv⟩ := walk_V_lo_mem (b :: post) c hc
    have hlt := ha x hx
    simp only [decide_eq_true_eq, not_and]
    intro _ hlo
    rw [hxv] at hlo
    exact absurd hlo (ne_of_gt hlt)
  have hwalk : crossovers_of (walk (pre ++ a :: b :: post)) root_id a.velocity b.velocity =
      crossovers_of (crossovers_between a b) root_id a.velocity b.velocity := by
    rw [walk_append,
      show walk (a :: b :: post) = crossovers_between a b ++ walk (b :: post) from rfl]
    unfold crossovers_of at hpre hpost ⊢
    rw [List.filter_append, List.filter_append, hpre, hpost]
    simp
  rw [← hwalk, ← hcons]
  unfold detect_crossovers crossovers_of
  exact (List.perm_insertionSort _ _).filter _

/-- C9: in a history sampled at ascending velocities, let `a` and `b` be two
consecutive valid samples (invalid samples in between are skipped) and let the
roots of `a` have pairwise distinct identifiers. Then `a.velocity < b.velocity`,
and for every root identifier the detector reports, over the bracket from
`a.velocity` to `b.velocity`: exactly one CrossoverPoint, carrying the two damping
values, when the damping of that root has strictly different sign at the two
samples; none when it does not change sign; none when the root is missing
from one of the samples. -/
theorem crossover_detector_correct (h : RootHistory) (pre post : List VelocitySample)
    (a b : VelocitySample) (root_id : Nat)
    (hasc : (h.map (fun smp => smp.velocity)).Pairwise (fun x y => x < y))
    (hcons : h.filter (fun smp => smp.valid) = pre ++ a :: b :: post)
    (hids : (a.roots.map (fun r => r.root_id)).Nodup) :
    a.velocity < b.velocity ∧
    (∀ d_lo d_hi, damping_at a root_id = some d_lo → damping_at b root_id = some d_hi →
      ((d_lo < 0 ∧ 0 < d_hi) ∨ (0 < d_lo ∧ d_hi < 0)) →
      crossovers_of (detect_crossovers h) root_id a.velocity b.velocity =
        [⟨a.velocity, b.velocity, root_id, d_lo, d_hi⟩]) ∧
    (∀ d_lo d_hi, damping_at a root_id = some d_lo → damping_at b root_id = some d_hi →
      ¬ ((d_lo < 0 ∧ 0 < d_hi) ∨ (0 < d_lo ∧ d_hi < 0)) →
      crossovers_of (detect_crossovers h) root_id a.velocity b.velocity = []) ∧
    (damping_at a root_id = none ∨ damping_at b root_id = none →
      crossovers_of (detect_crossovers h) root_id a.velocity b.velocity = []) := by
  obtain ⟨hlt, hperm⟩ := detect_crossovers_perm h pre post a b root_id hasc hcons
  have hchar := filterMap_crossovers_of b root_id a.velocity a.roots hids
  have hab : crossovers_of (crossovers_between a b) root_id a.velocity b.velocity =
      match damping_at a root_id, damping_at b root_id with
      | some d1, some d2 =>
        if sign_changes d1 d2 then [⟨a.velocity, b.velocity, root_id, d1, d2⟩] else []
      | _, _ => [] := hchar
  refine ⟨hlt, ?_, ?_, ?_⟩
  · intro d_lo d_hi h1 h2 hs
    rw [hab, h1, h2] at hperm
    have : sign_changes d_lo d_hi = true := by
      unfold sign_changes
      exact decide_eq_true hs
    simp only [this, if_true] at hperm
    exact List.perm_singleton.mp hperm
  · intro d_lo d_hi h1 h2 hs
    rw [hab, h1, h2] at hperm
    have : sign_changes d_lo d_hi = false := by
      unfold sign_changes
      exact decide_eq_false hs
    simp only [this] at hperm
    exact List.perm_nil.mp hperm
  · intro hnone
    rw [hab] at hperm
    rcases hnone with h1 | h1
    · rw [h1] at hperm
      exact List.perm_nil.mp hperm
    · rw [h1] at hperm
      cases h2 : damping_at a root_id with
      | none =>
        rw [h2] at hperm
        exact List.perm_nil.mp hperm
      | some d =>
        rw [h2] at hperm
        exact List.perm_nil.mp hperm

/-- Witness of C9 on a history with a failed sample between two valid ones: one
crossover for mode `2`, whose damping goes from `-1 / 10` to `1 / 10`, and none
for mode `0`, whose damping stays at `-1`. -/
theorem crossover_detector_correct_witness :
    (sample_history.map (fun smp => smp.velocity)).Pairwise (fun x y => x < y) ∧
    sample_history.filter (fun smp => smp.valid) = [] ++ sample_lo :: sample_hi :: [] ∧
    (sample_lo.roots.map (fun r => r.root_id)).Nodup ∧
    crossovers_of (detect_crossovers sample_history) 2 sample_lo.velocity sample_hi.velocity =
      [⟨sample_lo.velocity, sample_hi.velocity, 2, -1 / 10, 1 / 10⟩] ∧
    crossovers_of (detect_crossovers sample_history) 0 sample_lo.velocity sample_hi.velocity =
      [] :=
  ⟨by decide!, by decide!, by decide!,
    (crossover_detector_correct sample_history [] [] sample_lo sample_hi 2
      (by decide!) (by decide!) (by decide!)).2.1 (-1 / 10) (1 / 10) (by decide!) (by decide!)
      (Or.inl ⟨by norm_num, by norm_num⟩),
    (crossover_detector_correct sample_history [] [] sample_lo sample_hi 0
      (by decide!) (by decide!) (by decide!)).2.2.1 (-1) (-1) (by decide!) (by decide!)
      (by norm_num)⟩

end TimeDomainFlutterSolver

/-!
## Theorems about the parameter lookup and the flutter mode
-/

/-- The loop of `get_parameter`, when every registered pointer points to a
parameter: it ends with the last registered pointer whose parameter has the
name `nm`, or with what it started from when there is none. -/
theorem get_parameter_loop (deref : Nat → Option Parameter) (nm : String) (params : List Nat)
    (acc : Option Nat × Bool) (h : ∀ p ∈ params, ∃ q, deref p = some q) :
    params.foldlM (get_parameter_step deref nm) acc = Except.ok
      (match (params.filter (fun p => (deref p).any (fun q => decide (nm = q.name)))).getLast? with
       | some p => (some p, true)
       | none => acc) := by
  induction params generalizing acc with
  | nil => rfl
  | cons p ps ih =>
    obtain ⟨q, hq⟩ := h p (List.mem_cons_self p ps)
    have hps : ∀ x ∈ ps, ∃ q, deref x = some q := fun x hx => h x (List.mem_cons_of_mem p hx)
    rw [List.foldlM_cons]
    by_cases hnm : nm = q.name
    · have hstep : get_parameter_step deref nm acc p = Except.ok (some p, true) := by
        simp [get_parameter_step, hq, hnm]
      rw [hstep]
      show ps.foldlM (get_parameter_step deref nm) (some p, true) = _
      rw [ih _ hps, List.filter_cons_of_pos (by simp [hq, hnm])]
      cases hl : (ps.filter (fun p => (deref p).any (fun q => decide (nm = q.name)))) with
      | nil => simp
      | cons a l =>
        rw [List.getLast?_cons_cons]
        cases hg : (a :: l).getLast? with
        | none => simp at hg
        | some x => rfl
    · have hstep : get_parameter_step deref nm acc p = Except.ok acc := by
        simp [get_parameter_step, hq, hnm]
      rw [hstep]
      show ps.foldlM (get_parameter_step deref nm) acc = _
      rw [ih _ hps, List.filter_cons_of_neg (by simp [hq, hnm])]

namespace BeamPistonTheoryFlutterAnalysis

/-- The body of the mode loop leaves the parameter objects and their
registration alone. -/
theorem solve_mode_identities (env : Env) (w : Bool) (s : BeamPistonTheoryFlutterAnalysis)
    (i : Nat) : parameter_identities (solve_mode env w s i) = parameter_identities s := by
  unfold solve_mode
  cases w <;> cases h : s._basis.getD i none <;> simp [record, parameter_identities, parameters]

/-- The mode loop leaves the parameter objects and their registration alone. -/
theorem solve_mode_loop_identities (env : Env) (w : Bool) (l : List Nat)
    (s : BeamPistonTheoryFlutterAnalysis) :
    parameter_identities (l.foldl (solve_mode env w) s) = parameter_identities s := by
  induction l generalizing s with
  | nil => rfl
  | cons i l ih => rw [List.foldl_cons, ih, solve_mode_identities]

/-- The first part of `solve` leaves the parameter objects and their
registration alone. -/
theorem solve_modal_identities (env : Env) (w : Bool) (s : BeamPistonTheoryFlutterAnalysis) :
    parameter_identities (solve_modal env w s).state = parameter_identities s := by
  have h1 : parameter_identities (solve_eigenproblem s) = parameter_identities s := by
    simp [solve_eigenproblem, record, parameter_identities, parameters]
  unfold solve_modal
  simp only []
  split
  · exact h1
  · rw [solve_mode_loop_identities]
    unfold solve_resize
    split
    · exact h1
    · exact h1

/-- The scan part of `solve` leaves the parameter objects and their
registration alone. -/
theorem solve_scan_identities (env : Env) (s : BeamPistonTheoryFlutterAnalysis) :
    parameter_identities (solve_scan env s) = parameter_identities s := by
  simp [solve_scan, record, parameter_identities, parameters]

/-- A call of `solve` leaves the parameter objects and their registration
alone. -/
theorem solve_identities (env : Env) (w : Bool) (s : BeamPistonTheoryFlutterAnalysis) :
    parameter_identities (solve env w s).state = parameter_identities s := by
  have m := solve_modal_identities env w s
  rcases hm : solve_modal env w s with ⟨sm, (f | u)⟩
  · rw [hm] at m
    simp only [solve, hm]
    exact m
  · rw [hm] at m
    simp only [] at m
    have c := (solve_scan_identities env sm).trans m
    simp only [parameter_identities, parameters] at c ⊢
    simp only [solve, hm]
    split
    · exact c
    · split
      · split
        · exact c
        · split
          · exact c
          · rw [return_V_state]
            simpa [record] using c
      · rw [return_V_state]
        exact c

/-- A call of `sensitivity_solve` leaves the parameter objects and their
registration alone. -/
theorem sensitivity_solve_identities (env : Env) (p : Parameter)
    (s : BeamPistonTheoryFlutterAnalysis) :
    parameter_identities (sensitivity_solve env p s).state = parameter_identities s := by
  cases hr : s._flutter_root with
  | none => rw [sensitivity_solve_null_root_state env p s hr]
  | some root =>
    rw [(sensitivity_solve_of_root env p s root hr).2]
    rfl

/-- In every state the object can be in, the parameter objects have the
addresses and names the constructor gave them, and the registered pointers are
those of `E`, `nu`, `thy` and `thz`, in this order. -/
theorem reachable_identities (s : BeamPistonTheoryFlutterAnalysis) (h : Reachable s) :
    parameter_identities s =
      ([3, 4, 0, 1], [(0, "thy"), (1, "thz"), (2, "rho"), (3, "E"), (4, "nu"), (5, "zero"),
        (6, "V"), (7, "mach"), (8, "rho"), (9, "gamma")]) := by
  induction h with
  | construct n => rfl
  | solve env w _ ih => rw [solve_identities, ih]
  | sensitivity_solve env p _ ih => rw [sensitivity_solve_identities, ih]
  | @get_parameter nm s _ ih =>
    rcases get_parameter_state nm s with h | h <;> rw [h] <;> exact ih
  | set_E v _ ih => exact ih
  | set_nu v _ ih => exact ih
  | set_thy v _ ih => exact ih
  | set_thz v _ ih => exact ih

end BeamPistonTheoryFlutterAnalysis

/-!
## Theorems about the plate example
-/

namespace PlateOscillatingLoad

variable {R : Type}

@[simp] theorem record_initialized (e : PlateEvent R) (s : PlateOscillatingLoad R) :
    (record e s)._initialized = s._initialized := rfl

@[simp] theorem record_plate_log (e : PlateEvent R) (s : PlateOscillatingLoad R) :
    (record e s).log = s.log ++ [e] := rfl

@[simp] theorem record_plate_solution (e : PlateEvent R) (s : PlateOscillatingLoad R) :
    (record e s).solution = s.solution := rfl

/-- The loop over the mesh elements appends one output per element, in mesh
order, each on its own element and with the same evaluation points. -/
theorem add_output_loop (pts : List (Point R)) (elems : List Elem) (s : PlateOscillatingLoad R) :
    elems.foldl (add_output pts) s =
      { s with _outputs := s._outputs ++ elems.map (fun e => ⟨[e.id], pts⟩) } := by
  induction elems generalizing s with
  | nil => simp
  | cons e es ih => simp [ih, add_output]

/-- A call of `init` on an initialised object fails at the first assertion and
changes nothing. -/
theorem init_of_initialized [Field R] (env : PlateEnv R) (e_type : ElemType) (if_vk : Bool)
    (s : PlateOscillatingLoad R) (h : s._initialized = true) :
    init env e_type if_vk s = ⟨s, Except.error (Failure.assertion "!_initialized")⟩ := by
  simp [init, h]

/-- A call of `init` that gets a mesh and evaluation points completes: the state
it leaves. -/
theorem init_of_points [Field R] (env : PlateEnv R) (e_type : ElemType) (if_vk : Bool)
    (s : PlateOscillatingLoad R) (elems : List Elem) (pts : List (Point R))
    (h : s._initialized = false) (hb : env.build_square e_type = Except.ok elems)
    (hp : stress_points env.math e_type = some pts) :
    init env e_type if_vk s =
      ⟨{ s with
          _initialized := true
          _length := some (1 / 2)
          _width := some (1 / 4)
          elements := elems
          solution := List.replicate env.n_dofs 0
          sensitivity_solution := none
          _parameter_map := ∅
          _th := some ⟨0, "th", 6 / 1000⟩
          _E := some ⟨1, "E", 72000000000⟩
          _nu := some ⟨2, "nu", 33 / 100⟩
          _rho := some ⟨3, "rho", 2700⟩
          _kappa := some ⟨4, "kappa", 5 / 6⟩
          _zero := some ⟨5, "zero", 0⟩
          _press := some ⟨6, "p", 2000000⟩
          _freq := some ⟨7, "omega", 100⟩
          _params_for_sensitivity := s._params_for_sensitivity ++ [1, 2, 0]
          von_karman_strain := if_vk
          _outputs := s._outputs ++ elems.map (fun e => ⟨[e.id], pts⟩) }, Except.ok ()⟩ := by
  simp [init, h, hb, hp, add_output_loop]

/-- A call of `init` completes only on an object that is not initialised, with
a mesh from the library and evaluation points for the element type. -/
theorem init_ok_iff [Field R] (env : PlateEnv R) (e_type : ElemType) (if_vk : Bool)
    (s : PlateOscillatingLoad R) :
    (init env e_type if_vk s).result = Except.ok () ↔
      s._initialized = false ∧ (∃ elems, env.build_square e_type = Except.ok elems) ∧
        ∃ pts, stress_points env.math e_type = some pts := by
  constructor
  · intro h
    cases hi : s._initialized with
    | true => rw [init_of_initialized env e_type if_vk s hi] at h; cases h
    | false =>
      cases hb : env.build_square e_type with
      | error f => simp [init, hi, hb] at h
      | ok elems =>
        cases hp : stress_points env.math e_type with
        | none => simp [init, hi, hb, hp] at h
        | some pts => exact ⟨rfl, ⟨elems, rfl⟩, ⟨pts, rfl⟩⟩
  · rintro ⟨hi, ⟨elems, hb⟩, ⟨pts, hp⟩⟩
    rw [init_of_points env e_type if_vk s elems pts hi hb hp]

/-- A call of `init` that does not complete leaves `_initialized` as it was. -/
theorem init_failed_initialized [Field R] (env : PlateEnv R) (e_type : ElemType) (if_vk : Bool)
    (s : PlateOscillatingLoad R) (f : Failure)
    (h : (init env e_type if_vk s).result = Except.error f) :
    (init env e_type if_vk s).state._initialized = s._initialized := by
  cases hi : s._initialized with
  | true => rw [init_of_initialized env e_type if_vk s hi]; exact hi
  | false =>
    cases hb : env.build_square e_type with
    | error f => simp [init, hi, hb]
    | ok elems =>
      cases hp : stress_points env.math e_type with
      | none => simp [init, hi, hb, hp]
      | some pts =>
        rw [init_of_points env e_type if_vk s elems pts hi hb hp] at h
        cases h

/-- Without `init`, `get_parameter` fails at its assertion and changes nothing. -/
theorem get_parameter_not_initialized (nm : String) (s : PlateOscillatingLoad R)
    (h : s._initialized = false) :
    get_parameter nm s = ⟨s, Except.error (Failure.assertion "_initialized")⟩ := by
  simp [get_parameter, h]

/-- A `get_parameter` call changes nothing but the log, to which it appends at
most the message that the parameter was not found. -/
theorem plate_get_parameter_state (nm : String) (s : PlateOscillatingLoad R) :
    (get_parameter nm s).state = s ∨
    (get_parameter nm s).state =
      record (PlateEvent.parameter_not_found nm
        (valid_names (deref s) s._params_for_sensitivity)) s := by
  unfold get_parameter
  split
  · exact Or.inl rfl
  · split
    · exact Or.inl rfl
    · split
      · exact Or.inr rfl
      · exact Or.inl rfl

/-- Without `init`, `clear_stresss` fails at its assertion and changes nothing. -/
theorem clear_stresss_not_initialized (s : PlateOscillatingLoad R)
    (h : s._initialized = false) :
    clear_stresss s = ⟨s, Except.error (Failure.assertion "_initialized")⟩ := by
  simp [clear_stresss, h]

/-- After `init`, `clear_stresss` clears every output and changes nothing else. -/
theorem clear_stresss_of_initialized (s : PlateOscillatingLoad R)
    (h : s._initialized = true) :
    clear_stresss s =
      ⟨{ s with log := s.log ++ (List.range s._outputs.length).map PlateEvent.output_clear },
        Except.ok ()⟩ := by
  simp [clear_stresss, h]

/-- One pass of the time loop: the counter goes up by one, the time by `dt`, the
solver is called once and nothing but the solution and the log changes. -/
theorem time_step_eq [Field R] (env : PlateEnv R) (w : Bool) (dt : R) (st : TimeMarch R) :
    time_step env w dt st =
      ⟨st.t_step + 1, st.tval + dt,
        { st.state with
          solution := env.transient_solve st.t_step st.state.solution
          log := st.state.log ++ time_step_events w dt st.t_step st.tval }⟩ := by
  cases w <;> simp [time_step, record, time_step_events]

/-- The time loop with `m` steps to go and more than `m` units of fuel ends
after exactly `m` passes. -/
theorem time_loop_spec [Field R] (env : PlateEnv R) (w : Bool) (n : Nat) (dt : R) (m : Nat) :
    ∀ (fuel : Nat) (st : TimeMarch R), st.t_step + m = n → m < fuel →
      time_loop env w n dt fuel st =
        some ⟨n, st.tval + (m : R) * dt,
          { st.state with
            solution := (List.range m).foldl
              (fun x k => env.transient_solve (st.t_step + k) x) st.state.solution
            log := st.state.log ++ (List.range m).flatMap
              (fun k => time_step_events w dt (st.t_step + k) (st.tval + (k : R) * dt)) }⟩ := by
  induction m with
  | zero =>
    intro fuel st hn hf
    obtain ⟨f, rfl⟩ : ∃ f, fuel = f + 1 := ⟨fuel - 1, by omega⟩
    have hlt : ¬ st.t_step < n := by omega
    have hst : st.t_step = n := by omega
    obtain ⟨k, t, s⟩ := st
    simp only [] at hst hlt
    subst hst
    simp [time_loop]
  | succ m ih =>
    intro fuel st hn hf
    obtain ⟨f, rfl⟩ : ∃ f, fuel = f + 1 := ⟨fuel - 1, by omega⟩
    have hlt : st.t_step < n := by omega
    rw [time_loop, if_pos hlt, ih f (time_step env w dt st)
      (by rw [time_step_eq]; simp only []; omega) (by omega), time_step_eq]
    simp only [Option.some.injEq, TimeMarch.mk.injEq, true_and]
    refine ⟨?_, ?_⟩
    · push_cast
      ring
    · rw [List.range_succ_eq_map, List.flatMap_cons, List.flatMap_map, List.foldl_cons,
        List.foldl_map]
      have hfun : ∀ k : Nat, st.tval + dt + (k : R) * dt = st.tval + ((k : R) + 1) * dt := by
        intro k
        ring
      have hidx : ∀ k : Nat, st.t_step + 1 + k = st.t_step + (k + 1) := by
        intro k
        omega
      simp [hfun, hidx, List.append_assoc, Function.comp]

/-- The time loop with at most as many units of fuel as steps to go does not
reach its end. -/
theorem time_loop_out_of_fuel [Field R] (env : PlateEnv R) (w : Bool) (n : Nat) (dt : R) :
    ∀ (fuel : Nat) (st : TimeMarch R), st.t_step + fuel ≤ n →
      time_loop env w n dt fuel st = none := by
  intro fuel
  induction fuel with
  | zero => intro st _; rfl
  | succ f ih =>
    intro st h
    have hlt : st.t_step < n := by omega
    rw [time_loop, if_pos hlt]
    exact ih _ (by rw [time_step_eq]; simp only []; omega)

/-- Without `init`, `solve` fails at its assertion and changes nothing. -/
theorem plate_solve_not_initialized [Field R] (env : PlateEnv R) (w : Bool) (fuel : Nat)
    (s : PlateOscillatingLoad R) (h : s._initialized = false) :
    solve env w fuel s = some ⟨s, Except.error (Failure.assertion "_initialized")⟩ := by
  simp [solve, h]

/-- After `init`, `solve` with fuel for more than `n_steps` tests of the loop
condition returns: the calls it makes, in order, and the state it leaves. -/
theorem plate_solve_of_initialized [Field R] (env : PlateEnv R) (w : Bool) (fuel : Nat)
    (s : PlateOscillatingLoad R) (freq : Parameter) (h : s._initialized = true)
    (hf : s._freq = some freq) (hfuel : n_steps < fuel) :
    solve env w fuel s =
      some ⟨{ s with
          solution := (List.range n_steps).foldl (fun x k => env.transient_solve k x)
            (List.replicate s.solution.length 0)
          log := s.log ++ [PlateEvent.attach_discipline_and_system] ++
            (List.range s._outputs.length).map PlateEvent.output_clear ++
            [PlateEvent.solve_highest_derivative_and_advance_time_step
              (time_step_size env.math freq.value)] ++
            (if w then [PlateEvent.print_message "Writing output to : output.exo"] else []) ++
            (List.range n_steps).flatMap (fun k => time_step_events w
              (time_step_size env.math freq.value) k
              ((k : R) * time_step_size env.math freq.value)) ++
            [PlateEvent.clear_discipline_and_system] },
        Except.ok ((List.range n_steps).foldl (fun x k => env.transient_solve k x)
            (List.replicate s.solution.length 0))⟩ := by
  cases w <;>
  · simp only [solve, h, clear_stresss, record, hf]
    simp only [Bool.true_eq_false, Bool.false_eq_true, if_false, if_true]
    rw [time_loop_spec env _ n_steps _ n_steps fuel _ (Nat.zero_add _) hfuel]
    simp

/-- After `init`, `solve` with fuel for at most `n_steps` tests of the loop
condition does not reach the end of the time loop. -/
theorem plate_solve_out_of_fuel [Field R] (env : PlateEnv R) (w : Bool) (fuel : Nat)
    (s : PlateOscillatingLoad R) (freq : Parameter) (h : s._initialized = true)
    (hf : s._freq = some freq) (hfuel : fuel ≤ n_steps) :
    solve env w fuel s = none := by
  cases w <;>
  · simp only [solve, h, clear_stresss, record, hf]
    simp only [Bool.true_eq_false, Bool.false_eq_true, if_false, if_true]
    rw [time_loop_out_of_fuel env _ n_steps _ fuel _ (by simpa using hfuel)]

/-- A call of `solve` changes nothing but the solution and the log. -/
theorem plate_solve_frame [Field R] (env : PlateEnv R) (w : Bool) (fuel : Nat)
    (s : PlateOscillatingLoad R) (o : PlateOutcome R (List R))
    (h : solve env w fuel s = some o) :
    ∃ sol lg, o.state = { s with solution := sol, log := lg } := by
  by_cases hi : s._initialized = true
  · rcases Option.eq_none_or_eq_some s._freq with hfq | ⟨freq, hfq⟩
    · cases s
      simp only [] at hi hfq
      subst hi hfq
      simp only [solve, clear_stresss, record] at h
      simp only [Bool.true_eq_false, if_false, Option.some.injEq] at h
      subst h
      exact ⟨_, _, rfl⟩
    · by_cases hfuel : n_steps < fuel
      · rw [plate_solve_of_initialized env w fuel s freq hi hfq hfuel] at h
        injection h with h
        subst h
        exact ⟨_, _, rfl⟩
      · rw [plate_solve_out_of_fuel env w fuel s freq hi hfq (by omega)] at h
        cases h
  · have hi2 : s._initialized = false := by simpa using hi
    rw [plate_solve_not_initialized env w fuel s hi2] at h
    injection h with h
    subst h
    exact ⟨s.solution, s.log, rfl⟩

/-- Without `init`, `sensitivity_solve` fails at its assertion and changes
nothing. -/
theorem plate_sensitivity_solve_not_initialized [Field R] (env : PlateEnv R) (p : Parameter)
    (w : Bool) (s : PlateOscillatingLoad R) (h : s._initialized = false) :
    sensitivity_solve env p w s = ⟨s, Except.error (Failure.assertion "_initialized")⟩ := by
  simp [sensitivity_solve, h]

/-- After `init`, `sensitivity_solve` without output returns the sensitivity
solution: the calls it makes, in order, and the state it leaves. -/
theorem plate_sensitivity_solve_quiet [Field R] (env : PlateEnv R) (p : Parameter)
    (s : PlateOscillatingLoad R) (h : s._initialized = true) :
    sensitivity_solve env p false s =
      ⟨{ s with
          _parameter_map := (insert p.ptr s._parameter_map).erase p.ptr
          sensitivity_solution := some (env.sensitivity_solve [p.ptr] s.solution)
          log := s.log ++ [PlateEvent.add_parameter p.ptr,
              PlateEvent.attach_discipline_and_system] ++
            (List.range s._outputs.length).map PlateEvent.output_clear ++
            [PlateEvent.sensitivity_solve [p.ptr],
             PlateEvent.calculate_output_sensitivity [p.ptr] true,
             PlateEvent.clear_discipline_and_system, PlateEvent.remove_parameter p.ptr] },
        Except.ok (env.sensitivity_solve [p.ptr] s.solution)⟩ := by
  simp [sensitivity_solve, h, clear_stresss, add_parameter, remove_parameter, record]

/-- After `init`, `sensitivity_solve` with output returns the sensitivity
solution: the calls it makes, in order, and the state it leaves. -/
theorem plate_sensitivity_solve_written [Field R] (env : PlateEnv R) (p : Parameter)
    (s : PlateOscillatingLoad R) (h : s._initialized = true) :
    sensitivity_solve env p true s =
      ⟨{ s with
          _parameter_map := (insert p.ptr s._parameter_map).erase p.ptr
          sensitivity_solution := some (env.sensitivity_solve [p.ptr] s.solution)
          log := s.log ++ [PlateEvent.add_parameter p.ptr,
              PlateEvent.attach_discipline_and_system] ++
            (List.range s._outputs.length).map PlateEvent.output_clear ++
            [PlateEvent.sensitivity_solve [p.ptr],
             PlateEvent.calculate_output_sensitivity [p.ptr] true,
             PlateEvent.clear_discipline_and_system, PlateEvent.remove_parameter p.ptr,
             PlateEvent.print_message ("Writing sensitivity output to : " ++
               ("output_" ++ p.name ++ ".exo") ++ "  and stress/strain sensitivity to : " ++
               ("output_" ++ p.name ++ ".exo")),
             PlateEvent.write_equation_systems ("output_" ++ p.name ++ ".exo")
               (env.sensitivity_solve [p.ptr] s.solution),
             PlateEvent.plot_stress_strain_data ("output_" ++ p.name ++ ".exo") p.ptr] },
        Except.ok (env.sensitivity_solve [p.ptr] s.solution)⟩ := by
  simp [sensitivity_solve, h, clear_stresss, add_parameter, remove_parameter, record,
    write_sensitivity]

/-- A call of `sensitivity_solve` changes nothing but the tracked parameters,
the sensitivity solution and the log. -/
theorem plate_sensitivity_solve_frame [Field R] (env : PlateEnv R) (p : Parameter) (w : Bool)
    (s : PlateOscillatingLoad R) :
    ∃ pm sens lg, (sensitivity_solve env p w s).state =
      { s with _parameter_map := pm, sensitivity_solution := sens, log := lg } := by
  by_cases hi : s._initialized = true
  · cases w
    · rw [plate_sensitivity_solve_quiet env p s hi]
      exact ⟨_, _, _, rfl⟩
    · rw [plate_sensitivity_solve_written env p s hi]
      exact ⟨_, _, _, rfl⟩
  · have hi2 : s._initialized = false := by simpa using hi
    rw [plate_sensitivity_solve_not_initialized env p w s hi2]
    exact ⟨s._parameter_map, s.sensitivity_solution, s.log, rfl⟩

@[simp] theorem assign_ptr (ptr : Nat) (v : ℚ) (q : Parameter) : (assign ptr v q).ptr = q.ptr := by
  unfold assign
  split <;> rfl

@[simp] theorem assign_name (ptr : Nat) (v : ℚ) (q : Parameter) :
    (assign ptr v q).name = q.name := by
  unfold assign
  split <;> rfl

/-- In every state the object can be in, it is either as constructed or
initialised, with the eight parameter objects at the addresses and with the
names `init` gave them, the registered pointers those of `E`, `nu` and `th` in
this order, and one stress output per mesh element. -/
theorem plate_reachable_invariant [Field R] (s : PlateOscillatingLoad R) (h : Reachable s) :
    s = construct ∨
    (s._initialized = true ∧
      parameter_identities s = ([1, 2, 0], [some (0, "th"), some (1, "E"), some (2, "nu"),
        some (3, "rho"), some (4, "kappa"), some (5, "zero"), some (6, "p"), some (7, "omega")]) ∧
      s._outputs.length = s.elements.length) := by
  induction h with
  | construct => exact Or.inl rfl
  | @init env e_type if_vk s _ hok ih =>
    obtain ⟨hi, ⟨elems, hb⟩, ⟨pts, hp⟩⟩ := (init_ok_iff env e_type if_vk s).mp hok
    rcases ih with rfl | ⟨hi2, -⟩
    · rw [init_of_points env e_type if_vk construct elems pts hi hb hp]
      refine Or.inr ⟨rfl, ?_, ?_⟩
      · simp [parameter_identities, construct]
      · simp [construct]
    · rw [hi2] at hi
      cases hi
  | @get_parameter nm s rval _ hok ih =>
    rcases ih with rfl | ⟨hi, hid, hout⟩
    · rw [get_parameter_not_initialized nm construct rfl]
      exact Or.inl rfl
    · rcases plate_get_parameter_state nm s with h | h <;> rw [h]
      · exact Or.inr ⟨hi, hid, hout⟩
      · exact Or.inr ⟨hi, hid, hout⟩
  | @clear_stresss s _ hok ih =>
    rcases ih with rfl | ⟨hi, hid, hout⟩
    · rw [clear_stresss_not_initialized construct rfl]
      exact Or.inl rfl
    · rw [clear_stresss_of_initialized s hi]
      exact Or.inr ⟨hi, hid, hout⟩
  | @solve env w fuel s o x _ hsome hok ih =>
    obtain ⟨sol, lg, hst⟩ := plate_solve_frame env w fuel s o hsome
    rcases ih with rfl | ⟨hi, hid, hout⟩
    · rw [plate_solve_not_initialized env w fuel construct rfl] at hsome
      injection hsome with hsome
      subst hsome
      exact Or.inl rfl
    · rw [hst]
      exact Or.inr ⟨hi, hid, hout⟩
  | @sensitivity_solve env p w s x _ hok ih =>
    obtain ⟨pm, sens, lg, hst⟩ := plate_sensitivity_solve_frame env p w s
    rcases ih with rfl | ⟨hi, hid, hout⟩
    · rw [plate_sensitivity_solve_not_initialized env p w construct rfl]
      exact Or.inl rfl
    · rw [hst]
      exact Or.inr ⟨hi, hid, hout⟩
  | @set_value ptr v s _ ih =>
    rcases ih with rfl | ⟨hi, hid, hout⟩
    · exact Or.inl rfl
    · refine Or.inr ⟨hi, ?_, hout⟩
      have hc : (fun q : Parameter => (q.ptr, q.name)) ∘ assign ptr v =
          fun q => (q.ptr, q.name) := by
        funext q
        simp
      rw [← hid]
      simp [parameter_identities, set_value, Option.map_map, hc]

end PlateOscillatingLoad

/-!
## The parameter lookup of both examples
-/

/-- The last registered pointer whose parameter has the name `nm` is a
registered pointer to a parameter of that name, and there is one exactly when
some registered pointer points to a parameter of that name. -/
theorem last_match_spec (deref : Nat → Option Parameter) (nm : String) (params : List Nat) :
    (∀ p, (params.filter (fun p => (deref p).any (fun q => decide (nm = q.name)))).getLast? =
        some p → p ∈ params ∧ ∃ q, deref p = some q ∧ q.name = nm) ∧
    ((∃ p, (params.filter (fun p => (deref p).any (fun q => decide (nm = q.name)))).getLast? =
        some p) ↔ ∃ p ∈ params, ∃ q, deref p = some q ∧ q.name = nm) := by
  have hmem : ∀ p, p ∈ params.filter (fun p => (deref p).any (fun q => decide (nm = q.name))) ↔
      p ∈ params ∧ ∃ q, deref p = some q ∧ q.name = nm := by
    intro p
    rw [List.mem_filter]
    cases hd : deref p with
    | none => simp
    | some q => simp [eq_comm]
  constructor
  · intro p hp
    exact (hmem p).mp (List.mem_of_getLast?_eq_some hp)
  · constructor
    · rintro ⟨p, hp⟩
      exact ⟨p, (hmem p).mp (List.mem_of_getLast?_eq_some hp)⟩
    · rintro ⟨p, hp⟩
      have hne : params.filter (fun p => (deref p).any (fun q => decide (nm = q.name))) ≠ [] :=
        List.ne_nil_of_mem ((hmem p).mpr hp)
      exact ⟨_, List.getLast?_eq_getLast _ hne⟩

/-- The beam lookup, when every registered pointer points to a parameter: the
last match is returned, and a missing name is reported in the log. -/
theorem beam_get_parameter_eq (nm : String) (s : BeamPistonTheoryFlutterAnalysis)
    (h : ∀ p ∈ s._params_for_sensitivity, ∃ q, s.deref p = some q) :
    BeamPistonTheoryFlutterAnalysis.get_parameter nm s =
      match (s._params_for_sensitivity.filter
        (fun p => (s.deref p).any (fun q => decide (nm = q.name)))).getLast? with
      | some p => ⟨s, Except.ok (some p)⟩
      | none => ⟨BeamPistonTheoryFlutterAnalysis.record (Event.parameter_not_found nm
          (valid_names s.deref s._params_for_sensitivity)) s, Except.ok none⟩ := by
  unfold BeamPistonTheoryFlutterAnalysis.get_parameter
  rw [get_parameter_loop _ _ _ _ h]
  cases (s._params_for_sensitivity.filter
    (fun p => (s.deref p).any (fun q => decide (nm = q.name)))).getLast? <;> simp

/-- The plate lookup after `init`, when every registered pointer points to a
parameter: the last match is returned, and a missing name is reported in the
log. -/
theorem plate_get_parameter_eq {R : Type} (nm : String) (s : PlateOscillatingLoad R)
    (hi : s._initialized = true)
    (h : ∀ p ∈ s._params_for_sensitivity, ∃ q, s.deref p = some q) :
    PlateOscillatingLoad.get_parameter nm s =
      match (s._params_for_sensitivity.filter
        (fun p => (s.deref p).any (fun q => decide (nm = q.name)))).getLast? with
      | some p => ⟨s, Except.ok (some p)⟩
      | none => ⟨PlateOscillatingLoad.record (PlateEvent.parameter_not_found nm
          (valid_names s.deref s._params_for_sensitivity)) s, Except.ok none⟩ := by
  unfold PlateOscillatingLoad.get_parameter
  rw [if_neg (by simp [hi]), get_parameter_loop _ _ _ _ h]
  cases (s._params_for_sensitivity.filter
    (fun p => (s.deref p).any (fun q => decide (nm = q.name)))).getLast? <;> simp

/-- In every state of the beam analysis the registered pointers are those of
`E`, `nu`, `thy` and `thz`, and they point to the parameters of these names. -/
theorem beam_registered (s : BeamPistonTheoryFlutterAnalysis)
    (h : BeamPistonTheoryFlutterAnalysis.Reachable s) :
    s._params_for_sensitivity = [3, 4, 0, 1] ∧
    s.deref 3 = some s._E ∧ s.deref 4 = some s._nu ∧ s.deref 0 = some s._thy ∧
    s.deref 1 = some s._thz ∧
    s._E.name = "E" ∧ s._nu.name = "nu" ∧ s._thy.name = "thy" ∧ s._thz.name = "thz" := by
  have hid := BeamPistonTheoryFlutterAnalysis.reachable_identities s h
  simp only [BeamPistonTheoryFlutterAnalysis.parameter_identities,
    BeamPistonTheoryFlutterAnalysis.parameters, List.map_cons, List.map_nil, Prod.mk.injEq,
    List.cons.injEq, and_true] at hid
  obtain ⟨hp, ⟨h0, n0⟩, ⟨h1, n1⟩, ⟨h2, n2⟩, ⟨h3, n3⟩, ⟨h4, n4⟩, -⟩ := hid
  refine ⟨hp, ?_, ?_, ?_, ?_, n3, n4, n0, n1⟩ <;>
    simp [BeamPistonTheoryFlutterAnalysis.deref, BeamPistonTheoryFlutterAnalysis.parameters,
      List.find?_cons, h0, h1, h2, h3, h4]

/-- In every initialised state of the plate example the registered pointers are
those of `E`, `nu` and `th`, and they point to the parameters of these names. -/
theorem plate_registered {R : Type} [Field R] (s : PlateOscillatingLoad R)
    (h : PlateOscillatingLoad.Reachable s) (hi : s._initialized = true) :
    s._params_for_sensitivity = [1, 2, 0] ∧
    ∃ qE qnu qth : Parameter, s.deref 1 = some qE ∧ s.deref 2 = some qnu ∧
      s.deref 0 = some qth ∧ qE.name = "E" ∧ qnu.name = "nu" ∧ qth.name = "th" := by
  rcases PlateOscillatingLoad.plate_reachable_invariant s h with rfl | ⟨-, hid, -⟩
  · cases hi
  · simp only [PlateOscillatingLoad.parameter_identities, List.map_cons, List.map_nil,
      Prod.mk.injEq, List.cons.injEq, and_true, Option.map_eq_some'] at hid
    obtain ⟨hp, ⟨qth, e0, p0, n0⟩, ⟨qE, e1, p1, n1⟩, ⟨qnu, e2, p2, n2⟩, -⟩ := hid
    refine ⟨hp, qE, qnu, qth, ?_, ?_, ?_, n1, n2, n0⟩ <;>
      simp [PlateOscillatingLoad.deref, PlateOscillatingLoad.parameters, List.find?_cons,
        e0, e1, e2, p0, p1, p2]

/-- The names the beam lookup resolves, and the pointers it resolves them to. -/
theorem beam_last_match (nm : String) (s : BeamPistonTheoryFlutterAnalysis)
    (h : BeamPistonTheoryFlutterAnalysis.Reachable s) :
    (s._params_for_sensitivity.filter
        (fun p => (s.deref p).any (fun q => decide (nm = q.name)))).getLast? =
      if nm = "thz" then some 1 else if nm = "thy" then some 0
      else if nm = "nu" then some 4 else if nm = "E" then some 3 else none := by
  obtain ⟨hp, d3, d4, d0, d1, n3, n4, n0, n1⟩ := beam_registered s h
  rw [hp]
  simp only [List.filter_cons, List.filter_nil, d3, d4, d0, d1, Option.any_some, n3, n4, n0, n1]
  by_cases h1 : nm = "thz"
  · subst h1
    simp
  · by_cases h2 : nm = "thy"
    · subst h2
      simp
    · by_cases h3 : nm = "nu"
      · subst h3
        simp
      · by_cases h4 : nm = "E"
        · subst h4
          simp
        · simp [h1, h2, h3, h4]

/-- The names the plate lookup resolves, and the pointers it resolves them to. -/
theorem plate_last_match {R : Type} [Field R] (nm : String) (s : PlateOscillatingLoad R)
    (h : PlateOscillatingLoad.Reachable s) (hi : s._initialized = true) :
    (s._params_for_sensitivity.filter
        (fun p => (s.deref p).any (fun q => decide (nm = q.name)))).getLast? =
      if nm = "th" then some 0 else if nm = "nu" then some 2
      else if nm = "E" then some 1 else none := by
  obtain ⟨hp, qE, qnu, qth, d1, d2, d0, n1, n2, n0⟩ := plate_registered s h hi
  rw [hp]
  simp only [List.filter_cons, List.filter_nil, d1, d2, d0, Option.any_some, n1, n2, n0]
  by_cases h1 : nm = "th"
  · subst h1
    simp
  · by_cases h2 : nm = "nu"
    · subst h2
      simp
    · by_cases h3 : nm = "E"
      · subst h3
        simp
      · simp [h1, h2, h3]

/-- Every registered pointer of a state of the beam analysis points to a
parameter. -/
theorem beam_registered_deref (s : BeamPistonTheoryFlutterAnalysis)
    (h : BeamPistonTheoryFlutterAnalysis.Reachable s) :
    ∀ p ∈ s._params_for_sensitivity, ∃ q, s.deref p = some q := by
  obtain ⟨hp, d3, d4, d0, d1, -⟩ := beam_registered s h
  rw [hp]
  intro p hmem
  simp only [List.mem_cons, List.mem_singleton, List.not_mem_nil, or_false] at hmem
  rcases hmem with rfl | rfl | rfl | rfl
  · exact ⟨_, d3⟩
  · exact ⟨_, d4⟩
  · exact ⟨_, d0⟩
  · exact ⟨_, d1⟩

/-- Every registered pointer of an initialised state of the plate example
points to a parameter. -/
theorem plate_registered_deref {R : Type} [Field R] (s : PlateOscillatingLoad R)
    (h : PlateOscillatingLoad.Reachable s) (hi : s._initialized = true) :
    ∀ p ∈ s._params_for_sensitivity, ∃ q, s.deref p = some q := by
  obtain ⟨hp, qE, qnu, qth, d1, d2, d0, -⟩ := plate_registered s h hi
  rw [hp]
  intro p hmem
  simp only [List.mem_cons, List.mem_singleton, List.not_mem_nil, or_false] at hmem
  rcases hmem with rfl | rfl | rfl
  · exact ⟨_, d1⟩
  · exact ⟨_, d2⟩
  · exact ⟨_, d0⟩

/-- The names the beam lookup prints as valid. -/
theorem beam_valid_names (s : BeamPistonTheoryFlutterAnalysis)
    (h : BeamPistonTheoryFlutterAnalysis.Reachable s) :
    valid_names s.deref s._params_for_sensitivity = ["E", "nu", "thy", "thz"] := by
  obtain ⟨hp, d3, d4, d0, d1, n3, n4, n0, n1⟩ := beam_registered s h
  simp [valid_names, hp, d3, d4, d0, d1, n3, n4, n0, n1]

/-- The names the plate lookup prints as valid. -/
theorem plate_valid_names {R : Type} [Field R] (s : PlateOscillatingLoad R)
    (h : PlateOscillatingLoad.Reachable s) (hi : s._initialized = true) :
    valid_names s.deref s._params_for_sensitivity = ["E", "nu", "th"] := by
  obtain ⟨hp, qE, qnu, qth, d1, d2, d0, n1, n2, n0⟩ := plate_registered s h hi
  simp [valid_names, hp, d1, d2, d0, n1, n2, n0]

/-- The sample plate is a state the plate example can be in. -/
theorem sample_plate_reachable : PlateOscillatingLoad.Reachable sample_plate :=
  PlateOscillatingLoad.Reachable.init (sample_plate_env rational_math) ElemType.QUAD4 false
    PlateOscillatingLoad.Reachable.construct rfl

/-- C12, as stated, fails: asked for `"V"`, the name of the velocity parameter,
which exists but is not registered for sensitivity, the beam lookup returns a
null pointer after printing its message; asked for `"omega"`, the initialised
plate lookup does the same. Neither call aborts. -/
theorem get_parameter_unregistered_counterexample :
    BeamPistonTheoryFlutterAnalysis.get_parameter "V"
        (BeamPistonTheoryFlutterAnalysis.construct 2) =
      ⟨BeamPistonTheoryFlutterAnalysis.record
        (Event.parameter_not_found "V" ["E", "nu", "thy", "thz"])
        (BeamPistonTheoryFlutterAnalysis.construct 2), Except.ok none⟩ ∧
    PlateOscillatingLoad.get_parameter "omega" sample_plate =
      ⟨PlateOscillatingLoad.record (PlateEvent.parameter_not_found "omega" ["E", "nu", "th"])
        sample_plate, Except.ok none⟩ := by
  constructor
  · rw [beam_get_parameter_eq _ _ (beam_registered_deref _
      (BeamPistonTheoryFlutterAnalysis.Reachable.construct 2)),
      beam_last_match _ _ (BeamPistonTheoryFlutterAnalysis.Reachable.construct 2),
      beam_valid_names _ (BeamPistonTheoryFlutterAnalysis.Reachable.construct 2)]
    simp
  · rw [plate_get_parameter_eq _ _ rfl (plate_registered_deref _ sample_plate_reachable rfl),
      plate_last_match _ _ sample_plate_reachable rfl,
      plate_valid_names _ sample_plate_reachable rfl]
    simp

/-- C12, amended: in every state of the beam analysis, and in every initialised
state of the plate example, `get_parameter(nm)` with a name that no parameter
registered for sensitivity has does not abort: it prints that the parameter was
not found, together with the valid names, changes nothing else and returns a
null pointer. -/
theorem get_parameter_unregistered_returns_null {R : Type} [Field R] (nm : String)
    (b : BeamPistonTheoryFlutterAnalysis) (hb : BeamPistonTheoryFlutterAnalysis.Reachable b)
    (pl : PlateOscillatingLoad R) (hpl : PlateOscillatingLoad.Reachable pl)
    (hi : pl._initialized = true) :
    (nm ∉ ["E", "nu", "thy", "thz"] →
      BeamPistonTheoryFlutterAnalysis.get_parameter nm b =
        ⟨BeamPistonTheoryFlutterAnalysis.record
          (Event.parameter_not_found nm ["E", "nu", "thy", "thz"]) b, Except.ok none⟩) ∧
    (nm ∉ ["E", "nu", "th"] →
      PlateOscillatingLoad.get_parameter nm pl =
        ⟨PlateOscillatingLoad.record (PlateEvent.parameter_not_found nm ["E", "nu", "th"]) pl,
          Except.ok none⟩) := by
  constructor
  · intro hnm
    simp only [List.mem_cons, List.mem_singleton, List.not_mem_nil, or_false, not_or] at hnm
    obtain ⟨h1, h2, h3, h4⟩ := hnm
    rw [beam_get_parameter_eq _ _ (beam_registered_deref _ hb), beam_last_match _ _ hb,
      beam_valid_names _ hb]
    simp [h1, h2, h3, h4]
  · intro hnm
    simp only [List.mem_cons, List.mem_singleton, List.not_mem_nil, or_false, not_or] at hnm
    obtain ⟨h1, h2, h3⟩ := hnm
    rw [plate_get_parameter_eq _ _ hi (plate_registered_deref _ hpl hi),
      plate_last_match _ _ hpl hi, plate_valid_names _ hpl hi]
    simp [h1, h2, h3]

/-- The amended C12 at work: the name `"rho"`, which two parameters of the beam
analysis and one of the plate example have, is registered in neither. -/
theorem get_parameter_unregistered_returns_null_witness :
    BeamPistonTheoryFlutterAnalysis.Reachable (BeamPistonTheoryFlutterAnalysis.construct 2) ∧
    PlateOscillatingLoad.Reachable sample_plate ∧
    sample_plate._initialized = true ∧
    "rho" ∉ ["E", "nu", "thy", "thz"] ∧ "rho" ∉ ["E", "nu", "th"] ∧
    BeamPistonTheoryFlutterAnalysis.get_parameter "rho"
        (BeamPistonTheoryFlutterAnalysis.construct 2) =
      ⟨BeamPistonTheoryFlutterAnalysis.record
        (Event.parameter_not_found "rho" ["E", "nu", "thy", "thz"])
        (BeamPistonTheoryFlutterAnalysis.construct 2), Except.ok none⟩ ∧
    PlateOscillatingLoad.get_parameter "rho" sample_plate =
      ⟨PlateOscillatingLoad.record (PlateEvent.parameter_not_found "rho" ["E", "nu", "th"])
        sample_plate, Except.ok none⟩ :=
  ⟨BeamPistonTheoryFlutterAnalysis.Reachable.construct 2, sample_plate_reachable, rfl,
    by decide, by decide,
    (get_parameter_unregistered_returns_null "rho" _
      (BeamPistonTheoryFlutterAnalysis.Reachable.construct 2) sample_plate
      sample_plate_reachable rfl).1 (by decide),
    (get_parameter_unregistered_returns_null "rho" _
      (BeamPistonTheoryFlutterAnalysis.Reachable.construct 2) sample_plate
      sample_plate_reachable rfl).2 (by decide)⟩

/-- The value the beam lookup returns and the state it leaves. -/
theorem beam_lookup_result (nm : String) (b : BeamPistonTheoryFlutterAnalysis)
    (hb : BeamPistonTheoryFlutterAnalysis.Reachable b) :
    (BeamPistonTheoryFlutterAnalysis.get_parameter nm b).result =
      Except.ok (b._params_for_sensitivity.filter
        (fun p => (b.deref p).any (fun q => decide (nm = q.name)))).getLast? ∧
    (BeamPistonTheoryFlutterAnalysis.get_parameter nm b).state._params_for_sensitivity =
      b._params_for_sensitivity ∧
    (BeamPistonTheoryFlutterAnalysis.get_parameter nm b).state.parameters = b.parameters := by
  rw [beam_get_parameter_eq _ _ (beam_registered_deref _ hb)]
  cases (b._params_for_sensitivity.filter
    (fun p => (b.deref p).any (fun q => decide (nm = q.name)))).getLast? <;>
    exact ⟨rfl, rfl, rfl⟩

/-- The value the plate lookup returns and the state it leaves. -/
theorem plate_lookup_result {R : Type} [Field R] (nm : String) (pl : PlateOscillatingLoad R)
    (hpl : PlateOscillatingLoad.Reachable pl) (hi : pl._initialized = true) :
    (PlateOscillatingLoad.get_parameter nm pl).result =
      Except.ok (pl._params_for_sensitivity.filter
        (fun p => (pl.deref p).any (fun q => decide (nm = q.name)))).getLast? ∧
    (PlateOscillatingLoad.get_parameter nm pl).state._params_for_sensitivity =
      pl._params_for_sensitivity ∧
    (PlateOscillatingLoad.get_parameter nm pl).state.parameters = pl.parameters := by
  rw [plate_get_parameter_eq _ _ hi (plate_registered_deref _ hpl hi)]
  cases (pl._params_for_sensitivity.filter
    (fun p => (pl.deref p).any (fun q => decide (nm = q.name)))).getLast? <;>
    exact ⟨rfl, rfl, rfl⟩

/-- C13: in every state of the beam analysis and in every initialised state of
the plate example, `get_parameter(nm)` returns the last pointer of
`_params_for_sensitivity` whose parameter has the name `nm`, and a null pointer
when there is none: the returned pointer is non-null exactly when some
registered parameter has the name `nm`, it is then a member of the list
pointing to a parameter of that name, and the list and the parameter objects
are as before. The names that resolve are exactly `E`, `nu`, `thy`, `thz` for
the beam and exactly `E`, `nu`, `th` for the plate. -/
theorem get_parameter_returns_last_match {R : Type} [Field R] (nm : String)
    (b : BeamPistonTheoryFlutterAnalysis) (hb : BeamPistonTheoryFlutterAnalysis.Reachable b)
    (pl : PlateOscillatingLoad R) (hpl : PlateOscillatingLoad.Reachable pl)
    (hi : pl._initialized = true) :
    ((BeamPistonTheoryFlutterAnalysis.get_parameter nm b).result =
        Except.ok (b._params_for_sensitivity.filter
          (fun p => (b.deref p).any (fun q => decide (nm = q.name)))).getLast? ∧
      ((∃ p, (BeamPistonTheoryFlutterAnalysis.get_parameter nm b).result = Except.ok (some p)) ↔
        ∃ p ∈ b._params_for_sensitivity, ∃ q, b.deref p = some q ∧ q.name = nm) ∧
      (∀ p, (BeamPistonTheoryFlutterAnalysis.get_parameter nm b).result = Except.ok (some p) →
        p ∈ b._params_for_sensitivity ∧ ∃ q, b.deref p = some q ∧ q.name = nm) ∧
      (BeamPistonTheoryFlutterAnalysis.get_parameter nm b).state._params_for_sensitivity =
        b._params_for_sensitivity ∧
      (BeamPistonTheoryFlutterAnalysis.get_parameter nm b).state.parameters = b.parameters ∧
      ((∃ p, (BeamPistonTheoryFlutterAnalysis.get_parameter nm b).result = Except.ok (some p)) ↔
        nm ∈ ["E", "nu", "thy", "thz"])) ∧
    ((PlateOscillatingLoad.get_parameter nm pl).result =
        Except.ok (pl._params_for_sensitivity.filter
          (fun p => (pl.deref p).any (fun q => decide (nm = q.name)))).getLast? ∧
      ((∃ p, (PlateOscillatingLoad.get_parameter nm pl).result = Except.ok (some p)) ↔
        ∃ p ∈ pl._params_for_sensitivity, ∃ q, pl.deref p = some q ∧ q.name = nm) ∧
      (∀ p, (PlateOscillatingLoad.get_parameter nm pl).result = Except.ok (some p) →
        p ∈ pl._params_for_sensitivity ∧ ∃ q, pl.deref p = some q ∧ q.name = nm) ∧
      (PlateOscillatingLoad.get_parameter nm pl).state._params_for_sensitivity =
        pl._params_for_sensitivity ∧
      (PlateOscillatingLoad.get_parameter nm pl).state.parameters = pl.parameters ∧
      ((∃ p, (PlateOscillatingLoad.get_parameter nm pl).result = Except.ok (some p)) ↔
        nm ∈ ["E", "nu", "th"])) := by
  obtain ⟨b1, b2, b3⟩ := beam_lookup_result nm b hb
  obtain ⟨p1, p2, p3⟩ := plate_lookup_result nm pl hpl hi
  obtain ⟨bs1, bs2⟩ := last_match_spec b.deref nm b._params_for_sensitivity
  obtain ⟨ps1, ps2⟩ := last_match_spec pl.deref nm pl._params_for_sensitivity
  refine ⟨⟨b1, ?_, ?_, b2, b3, ?_⟩, ⟨p1, ?_, ?_, p2, p3, ?_⟩⟩
  · rw [b1, ← bs2]
    simp only [Except.ok.injEq]
  · intro p hp
    rw [b1] at hp
    exact bs1 p (Except.ok.inj hp)
  · rw [b1, beam_last_match nm b hb]
    simp only [Except.ok.injEq, List.mem_cons, List.mem_singleton, List.not_mem_nil, or_false]
    by_cases h1 : nm = "thz"
    · simp [h1]
    · by_cases h2 : nm = "thy"
      · simp [h2]
      · by_cases h3 : nm = "nu"
        · simp [h3]
        · by_cases h4 : nm = "E"
          · simp [h4]
          · simp [h1, h2, h3, h4]
  · rw [p1, ← ps2]
    simp only [Except.ok.injEq]
  · intro p hp
    rw [p1] at hp
    exact ps1 p (Except.ok.inj hp)
  · rw [p1, plate_last_match nm pl hpl hi]
    simp only [Except.ok.injEq, List.mem_cons, List.mem_singleton, List.not_mem_nil, or_false]
    by_cases h1 : nm = "th"
    · simp [h1]
    · by_cases h2 : nm = "nu"
      · simp [h2]
      · by_cases h3 : nm = "E"
        · simp [h3]
        · simp [h1, h2, h3]

/-- C13 at work: `"nu"` resolves to the parameter at address `4` of the beam
analysis and to the one at address `2` of the plate example. -/
theorem get_parameter_returns_last_match_witness :
    BeamPistonTheoryFlutterAnalysis.Reachable (BeamPistonTheoryFlutterAnalysis.construct 2) ∧
    PlateOscillatingLoad.Reachable sample_plate ∧
    sample_plate._initialized = true ∧
    (BeamPistonTheoryFlutterAnalysis.get_parameter "nu"
      (BeamPistonTheoryFlutterAnalysis.construct 2)).result = Except.ok (some 4) ∧
    (PlateOscillatingLoad.get_parameter "nu" sample_plate).result = Except.ok (some 2) :=
  ⟨BeamPistonTheoryFlutterAnalysis.Reachable.construct 2, sample_plate_reachable, rfl,
    (get_parameter_returns_last_match "nu" _
      (BeamPistonTheoryFlutterAnalysis.Reachable.construct 2) sample_plate
      sample_plate_reachable rfl).1.1.trans (by decide),
    (get_parameter_returns_last_match "nu" _
      (BeamPistonTheoryFlutterAnalysis.Reachable.construct 2) sample_plate
      sample_plate_reachable rfl).2.1.trans (by decide)⟩

/-!
## The solid element and the oscillating load
-/

/-- C14: `StructuralElement3D::if_incompatible_modes()` returns `true`, not
`false` as its own documentation comment has it, and the incompatible mode
vector of the element has dimension `30`, not `0`. -/
theorem if_incompatible_modes_returns_true :
    StructuralElement3D.if_incompatible_modes = true ∧
    StructuralElement3D.if_incompatible_modes ≠ false ∧
    StructuralElement3D.incompatible_mode_size = 30 := by
  decide

/-- C15: over the reals, the oscillating load evaluates to `p * sin(f * t)` at
every point and time, with `p` and `f` the current values of its two
parameters: the value is the same at any two points, it is `0` at `t = 0`, and
its absolute value is at most that of `p`. -/
theorem oscillating_load_value (load : OscillatingDistributedLoad) (pt pt2 : Point ℝ) (t : ℝ) :
    OscillatingDistributedLoad.operator_call ⟨Real.arccos, Real.sin, Real.cos, Real.sqrt⟩
        load pt t = (load._p.value : ℝ) * Real.sin ((load._f.value : ℝ) * t) ∧
    OscillatingDistributedLoad.operator_call ⟨Real.arccos, Real.sin, Real.cos, Real.sqrt⟩
        load pt t =
      OscillatingDistributedLoad.operator_call ⟨Real.arccos, Real.sin, Real.cos, Real.sqrt⟩
        load pt2 t ∧
    OscillatingDistributedLoad.operator_call ⟨Real.arccos, Real.sin, Real.cos, Real.sqrt⟩
        load pt 0 = 0 ∧
    |OscillatingDistributedLoad.operator_call ⟨Real.arccos, Real.sin, Real.cos, Real.sqrt⟩
        load pt t| ≤ |(load._p.value : ℝ)| := by
  refine ⟨rfl, rfl, ?_, ?_⟩
  · simp [OscillatingDistributedLoad.operator_call]
  · simp only [OscillatingDistributedLoad.operator_call, abs_mul]
    exact mul_le_of_le_one_right (abs_nonneg _) (Real.abs_sin_le_one _)

/-- C16: what `derivative` computes, over the reals. With respect to the load
parameter it is `sin(omega * t)` and with respect to a parameter that is
neither of the two it is `0`, as the partial derivative is. With respect to the
frequency parameter it is `p * omega * cos(omega * t)`, while the partial
derivative of `p * sin(omega * t)` is `p * t * cos(omega * t)`: for the load of
the plate example (`p = 2e6`, `omega = 100`) at `t = 0` the code returns `2e8`
where the derivative is `0`. -/
theorem derivative_wrt_frequency_is_not_the_partial_derivative :
    (∀ (load : OscillatingDistributedLoad) (f : Nat) (pt : Point ℝ) (t : ℝ),
      OscillatingDistributedLoad.derivative ⟨Real.arccos, Real.sin, Real.cos, Real.sqrt⟩
          load f pt t =
        (if load._p.ptr = f then Real.sin ((load._f.value : ℝ) * t) else 0) +
        (if load._f.ptr = f then
          (load._p.value : ℝ) * (load._f.value : ℝ) * Real.cos ((load._f.value : ℝ) * t)
         else 0)) ∧
    (∀ (p omega t : ℝ),
      HasDerivAt (fun w : ℝ => p * Real.sin (w * t)) (p * t * Real.cos (omega * t)) omega) ∧
    OscillatingDistributedLoad.derivative ⟨Real.arccos, Real.sin, Real.cos, Real.sqrt⟩
        ⟨⟨6, "p", 2000000⟩, ⟨7, "omega", 100⟩⟩ 7 ⟨0, 0, 0⟩ 0 = 200000000 ∧
    (2000000 : ℝ) * 0 * Real.cos (100 * 0) = 0 := by
  refine ⟨?_, ?_, ?_, ?_⟩
  · intro load f pt t
    simp only [OscillatingDistributedLoad.derivative, Parameter.depends_on, decide_eq_true_eq]
    by_cases h1 : load._p.ptr = f <;> by_cases h2 : load._f.ptr = f <;> simp [h1, h2]
  · intro p omega t
    have h1 : HasDerivAt (fun w : ℝ => w * t) t omega := by
      simpa using (hasDerivAt_id omega).mul_const t
    have h2 := (Real.hasDerivAt_sin (omega * t)).comp omega h1
    have h3 := h2.const_mul p
    convert h3 using 1
    ring
  · simp [OscillatingDistributedLoad.derivative, Parameter.depends_on]
    norm_num
  · simp

/-!
## The modal eigenproblem and the flutter mode of the beam analysis
-/

namespace BeamPistonTheoryFlutterAnalysis

/-- C17: whatever the state in which `solve` is called, and so whatever value the
velocity parameter holds then, the velocity is `0` when the modal eigenproblem
is solved: the eigenproblem solve is the second call `solve` makes, it is made
at velocity `0`, and `solve` makes no other. -/
theorem solve_modal_eigenproblem_at_zero_velocity (env : Env) (w : Bool)
    (s : BeamPistonTheoryFlutterAnalysis) :
    (solve_eigenproblem s)._velocity.value = 0 ∧
    ∃ rest, new_events s (solve env w s).state =
        Event.flutter_clear :: Event.eigenproblem_solve 0 :: rest ∧
      ∀ v, Event.eigenproblem_solve v ∉ rest := by
  refine ⟨by simp [(solve_eigenproblem_frame s).2.1], ?_⟩
  obtain ⟨es, ws, hes, hws, herr, hok⟩ := solve_new_events env w s
  have hes2 : ∀ v, Event.eigenproblem_solve v ∉ es := by
    intro v hv
    rcases hes _ hv with ⟨re, h⟩ | ⟨f, x, h⟩ | ⟨j, h⟩ <;> cases h
  have hws2 : ∀ v, Event.eigenproblem_solve v ∉ ws := by
    intro v hv
    obtain ⟨f, x, h⟩ := hws _ hv
    cases h
  cases hr : (solve_modal env w s).result with
  | error f => exact ⟨es, herr f hr, hes2⟩
  | ok u =>
    refine ⟨es ++ [Event.attach_assembly,
      Event.flutter_initialize (flutter_init (solve_modal env w s).state),
      Event.scan_for_roots, Event.print_sorted_roots, Event.print_crossover_points,
      Event.find_critical_root critical_root_tolerance critical_root_max_iterations,
      Event.print_sorted_roots, Event.clear_assembly_object] ++ ws, by rw [hok hr]; simp, ?_⟩
    intro v hv
    simp only [List.append_assoc, List.mem_append, List.mem_cons, List.mem_singleton,
      List.not_mem_nil, or_false] at hv
    rcases hv with h | h | h
    · exact hes2 v h
    · simp at h
    · exact hws2 v h

/-- Adding a multiple of a vector of the same size keeps the size. -/
theorem vec_add_length (a : ℚ) (v x : RealVectorX) (h : v.length = x.length) :
    (vec_add a v x).length = x.length := by
  simp [vec_add, h]

/-- Component `j` after `x.add(a, v)`, for vectors of the same size. -/
theorem vec_add_getD (a : ℚ) (v x : RealVectorX) (h : v.length = x.length) (j : Nat) :
    (vec_add a v x).getD j 0 = x.getD j 0 + a * v.getD j 0 := by
  simp only [vec_add, List.getD_eq_getElem?_getD, List.getElem?_zipWith]
  by_cases hj : j < x.length
  · have hv : j < v.length := by omega
    simp [List.getElem?_eq_getElem hj, List.getElem?_eq_getElem hv]
  · have hx : x[j]? = none := List.getElem?_eq_none (by omega)
    have hv : v[j]? = none := List.getElem?_eq_none (by omega)
    simp [hx, hv]

/-- The accumulation loop over the modes `l`, started from `x`: when it ends
without an invalid read, every mode of `l` has a basis vector and an
eigenvector component, and component `j` of the result is that of `x` plus the
sum of the contributions of the modes. -/
theorem flutter_mode_fold (part : ComplexQ → ℚ) (r : TimeDomainFlutterRootBase)
    (basis : List (Option RealVectorX)) (n : Nat) :
    ∀ (l : List Nat) (x y : RealVectorX),
      l.foldlM
        (fun x i =>
          match some r, basis.getD i none with
          | some r, some b =>
            match r.eig_vec_right.get? i with
            | some xi => Except.ok (vec_add (part xi) b x)
            | none => (Except.error Failure.index_out_of_range : Except Failure RealVectorX)
          | _, _ => Except.error Failure.null_dereference) x = Except.ok y →
      x.length = n → (∀ i ∈ l, ∀ b, basis.getD i none = some b → b.length = n) →
      y.length = n ∧ (∀ i ∈ l, i < r.eig_vec_right.length) ∧
      ∀ j, y.getD j 0 = x.getD j 0 +
        (l.map (fun i => part (r.eig_vec_right.getD i ⟨0, 0⟩) *
          ((basis.getD i none).getD []).getD j 0)).sum := by
  intro l
  induction l with
  | nil =>
    intro x y h hx _
    cases h
    exact ⟨hx, by simp, by simp⟩
  | cons i l ih =>
    intro x y h hx hb
    rw [List.foldlM_cons] at h
    cases hbi : basis.getD i none with
    | none =>
      simp only [hbi] at h
      cases h
    | some b =>
      cases hxi : r.eig_vec_right.get? i with
      | none =>
        simp only [hbi, hxi] at h
        cases h
      | some xi =>
        simp only [hbi, hxi] at h
        have hbn : b.length = n := hb i (List.mem_cons_self i l) b hbi
        have hlen : (vec_add (part xi) b x).length = n := by
          rw [vec_add_length _ _ _ (by omega), hx]
        obtain ⟨h1, h2, h3⟩ := ih (vec_add (part xi) b x) y h hlen
          (fun k hk => hb k (List.mem_cons_of_mem i hk))
        have hi : i < r.eig_vec_right.length := by
          rw [List.get?_eq_getElem?] at hxi
          exact (List.getElem?_eq_some_iff.mp hxi).1
        have hget : r.eig_vec_right.getD i ⟨0, 0⟩ = xi := by
          rw [List.get?_eq_getElem?] at hxi
          simp [List.getD_eq_getElem?_getD, hxi]
        refine ⟨h1, ?_, ?_⟩
        · intro k hk
          rcases List.mem_cons.mp hk with rfl | hk
          · exact hi
          · exact h2 k hk
        · intro j
          rw [h3 j, vec_add_getD _ _ _ (by omega), List.map_cons, List.sum_cons, hbi, hget]
          simp only [Option.getD_some]
          ring

/-- The first part of `solve` keeps the size of the solution vector when
reading an eigenpair does. -/
theorem solve_modal_solution_length (env : Env) (w : Bool) (s : BeamPistonTheoryFlutterAnalysis)
    (hsol : ∀ i x, x.length = s.solution.length →
      (env.solution_after_eigenpair i x).length = s.solution.length) :
    (solve_modal env w s).state.solution.length = s.solution.length := by
  have hmode : ∀ (t : BeamPistonTheoryFlutterAnalysis) (i : Nat),
      t.solution.length = s.solution.length →
      (solve_mode env w t i).solution.length = s.solution.length := by
    intro t i ht
    unfold solve_mode
    cases w <;> cases h : t._basis.getD i none <;> simp [record, hsol _ _ ht]
  have hloop : ∀ (l : List Nat) (t : BeamPistonTheoryFlutterAnalysis),
      t.solution.length = s.solution.length →
      (l.foldl (solve_mode env w) t).solution.length = s.solution.length := by
    intro l
    induction l with
    | nil => intro t ht; exact ht
    | cons i l ih => intro t ht; exact ih _ (hmode t i ht)
  obtain ⟨-, -, -, -, e5, -, -⟩ := solve_eigenproblem_frame s
  unfold solve_modal
  simp only []
  split
  · rw [e5]
  · apply hloop
    rw [(solve_resize_frame _ _).2.2.2.2.1, e5]

/-- A `solve(true)` that returns has found a root, has run both accumulation
loops without an invalid read and has written the two results last. -/
theorem solve_written (env : Env) (s : BeamPistonTheoryFlutterAnalysis) (v : ℚ)
    (hok : (solve env true s).result = Except.ok v) :
    ∃ root y_re y_im,
      (solve_modal env true s).result = Except.ok () ∧
      (solve env true s).state._flutter_root = some root ∧
      flutter_mode ComplexQ.re (some root) (solve_modal env true s).state._basis
        (solve_modal env true s).state.solution = Except.ok y_re ∧
      flutter_mode ComplexQ.im (some root) (solve_modal env true s).state._basis y_re =
        Except.ok y_im ∧
      (solve env true s).state.log = (solve_scan env (solve_modal env true s).state).log ++
        [Event.write_equation_systems "flutter_mode_real.exo" y_re,
         Event.write_equation_systems "flutter_mode_imag.exo" y_im] ∧
      (solve env true s).state.solution = y_im ∧
      (solve env true s).state._basis = (solve_modal env true s).state._basis := by
  obtain ⟨hm1, root, hfind, -, -⟩ := (solve_flutter_root env true s).1 v hok
  obtain ⟨-, -, -, -, c5, c6, -⟩ := solve_scan_frame env (solve_modal env true s).state
  rcases hm : solve_modal env true s with ⟨sm, (f | u)⟩
  · rw [hm] at hm1
    cases hm1
  · rw [hm] at hfind c5 c6
    simp only [] at hfind c5 c6
    simp only [solve, hm, hfind] at hok ⊢
    simp only [Bool.true_eq_false, if_false, if_true] at hok ⊢
    rw [c5, c6] at hok ⊢
    obtain ⟨y_re, h1⟩ : ∃ y, flutter_mode ComplexQ.re (some root) sm._basis sm.solution =
        Except.ok y := by
      cases h1 : flutter_mode ComplexQ.re (some root) sm._basis sm.solution with
      | error f =>
        rw [h1] at hok
        cases hok
      | ok y => exact ⟨y, rfl⟩
    rw [h1] at hok ⊢
    simp only [record] at hok ⊢
    obtain ⟨y_im, h2⟩ : ∃ y, flutter_mode ComplexQ.im (some root) sm._basis y_re =
        Except.ok y := by
      cases h2 : flutter_mode ComplexQ.im (some root) sm._basis y_re with
      | error f =>
        rw [h2] at hok
        cases hok
      | ok y => exact ⟨y, rfl⟩
    rw [h2] at hok ⊢
    refine ⟨root, y_re, y_im, trivial, ?_, h1, h2, ?_, ?_, ?_⟩
    · rw [return_V_state]
    · rw [return_V_state]
      simp
    · rw [return_V_state]
    · rw [return_V_state]

/-- An accumulation loop that ends without an invalid read on a basis of `N`
non-null vectors of the size of the solution computes the modal combination of
the specification, whatever the solution vector held before. -/
theorem flutter_mode_eq (part : ComplexQ → ℚ) (root : TimeDomainFlutterRootBase)
    (X : Nat → RealVectorX) (N n : Nat) (x y : RealVectorX)
    (h : flutter_mode part (some root) ((List.range N).map (fun i => some (X i))) x =
      Except.ok y)
    (hx : x.length = n) (hX : ∀ i, (X i).length = n) :
    y = modal_combination part root.eig_vec_right X N n ∧ N ≤ root.eig_vec_right.length := by
  have hget : ∀ i ∈ List.range N,
      ((List.range N).map (fun i => some (X i))).getD i none = some (X i) := by
    intro i hi
    have hi2 : i < N := List.mem_range.mp hi
    simp [List.getD_eq_getElem?_getD, List.getElem?_map, List.getElem?_range hi2]
  unfold flutter_mode at h
  rw [List.length_map, List.length_range] at h
  obtain ⟨h1, h2, h3⟩ := flutter_mode_fold part root
    ((List.range N).map (fun i => some (X i))) n (List.range N) (zero_clone x) y h
    (by simp [zero_clone, hx])
    (by
      intro i hi b hb
      rw [hget i hi] at hb
      injection hb with hb
      rw [← hb]
      exact hX i)
  constructor
  · apply List.ext_getElem
    · simp [modal_combination, h1]
    · intro j hj1 hj2
      have hj : j < n := by omega
      have hy := h3 j
      rw [List.getD_eq_getElem?_getD, List.getElem?_eq_getElem hj1] at hy
      simp only [Option.getD_some] at hy
      rw [hy]
      simp only [modal_combination, List.getElem_map, List.getElem_range]
      have hz : (zero_clone x).getD j 0 = 0 := by
        simp only [zero_clone, List.getD_eq_getElem?_getD, List.getElem?_replicate]
        split <;> rfl
      rw [hz, zero_add]
      congr 1
      apply List.map_congr_left
      intro i hi
      rw [hget i hi]
      rfl
  · rcases Nat.eq_zero_or_pos N with h0 | hpos
    · omega
    · have := h2 (N - 1) (List.mem_range.mpr (by omega))
      omega

/-- C11: a `solve(true)` that returns writes, as its last two outputs, the real
and the imaginary part of `Y = sum_i xi_i * X_i`, where `X_i` are the `N` modal
basis vectors (the first `N` eigenvectors of the modal eigenproblem) and `xi`
is the right eigenvector of the critical root: `flutter_mode_real.exo` holds
`sum_i Re(xi_i) X_i` and `flutter_mode_imag.exo` holds `sum_i Im(xi_i) X_i`,
each over all `i` in `0..N-1`. Only the size of the solution vector enters the
two outputs, none of its previous content. The solution vector and the
eigenvectors the eigensolver hands out have the size of the system. -/
theorem solve_writes_flutter_mode (env : Env) (s : BeamPistonTheoryFlutterAnalysis) (v : ℚ)
    (hsol : ∀ i x, x.length = s.solution.length →
      (env.solution_after_eigenpair i x).length = s.solution.length)
    (hvec : ∀ i, (env.get_eigenpair i).2.2.length = s.solution.length)
    (hok : (solve env true s).result = Except.ok v) :
    ∃ root es,
      (solve env true s).state._flutter_root = some root ∧
      (solve env true s).state._basis =
        (List.range (min env.n_converged_eigenvalues s.n_requested_eigenvalues)).map
          (fun i => some (env.get_eigenpair i).2.2) ∧
      min env.n_converged_eigenvalues s.n_requested_eigenvalues ≤ root.eig_vec_right.length ∧
      new_events s (solve env true s).state = es ++
        [Event.write_equation_systems "flutter_mode_real.exo"
          (modal_combination ComplexQ.re root.eig_vec_right (fun i => (env.get_eigenpair i).2.2)
            (min env.n_converged_eigenvalues s.n_requested_eigenvalues) s.solution.length),
         Event.write_equation_systems "flutter_mode_imag.exo"
          (modal_combination ComplexQ.im root.eig_vec_right (fun i => (env.get_eigenpair i).2.2)
            (min env.n_converged_eigenvalues s.n_requested_eigenvalues) s.solution.length)] ∧
      (solve env true s).state.solution =
        modal_combination ComplexQ.im root.eig_vec_right (fun i => (env.get_eigenpair i).2.2)
          (min env.n_converged_eigenvalues s.n_requested_eigenvalues) s.solution.length := by
  obtain ⟨root, y_re, y_im, hm, hroot, h1, h2, hlog, hsolu, hbasis⟩ := solve_written env s v hok
  have hb := solve_modal_basis env true s hm
  have hlen := solve_modal_solution_length env true s hsol
  rw [hb] at h1 h2
  obtain ⟨e1, hN⟩ := flutter_mode_eq ComplexQ.re root (fun i => (env.get_eigenpair i).2.2) _
    s.solution.length _ _ h1 hlen hvec
  have hre : y_re.length = s.solution.length := by
    rw [e1]
    simp [modal_combination]
  obtain ⟨e2, -⟩ := flutter_mode_eq ComplexQ.im root (fun i => (env.get_eigenpair i).2.2) _
    s.solution.length _ _ h2 hre hvec
  obtain ⟨ms, hms, -⟩ := solve_modal_log env true s
  obtain ⟨-, -, -, -, -, -, c7⟩ := solve_scan_frame env (solve_modal env true s).state
  refine ⟨root, Event.flutter_clear :: Event.eigenproblem_solve 0 :: ms ++
    [Event.attach_assembly, Event.flutter_initialize (flutter_init (solve_modal env true s).state),
     Event.scan_for_roots, Event.print_sorted_roots, Event.print_crossover_points,
     Event.find_critical_root critical_root_tolerance critical_root_max_iterations,
     Event.print_sorted_roots, Event.clear_assembly_object], hroot, ?_, hN, ?_, ?_⟩
  · rw [hbasis, hb]
  · rw [← e1, ← e2]
    simp only [new_events]
    rw [hlog, c7, hms]
    simp
  · rw [hsolu, e2]

/-- C11 at work: on the sample collaborators (three modes `X_i = (i, 1)`, right
eigenvector `(1, i, 1/2)`) the real part written is `(1, 3/2)` and the imaginary
part is `(1, 1)`. -/
theorem solve_writes_flutter_mode_witness :
    (∀ i x, x.length = (construct 2).solution.length →
      (sample_env.solution_after_eigenpair i x).length = (construct 2).solution.length) ∧
    (∀ i, (sample_env.get_eigenpair i).2.2.length = (construct 2).solution.length) ∧
    (solve sample_env true (construct 2)).result = Except.ok 1110 ∧
    ∃ root es,
      (solve sample_env true (construct 2)).state._flutter_root = some root ∧
      new_events (construct 2) (solve sample_env true (construct 2)).state = es ++
        [Event.write_equation_systems "flutter_mode_real.exo"
          (modal_combination ComplexQ.re root.eig_vec_right
            (fun i => (sample_env.get_eigenpair i).2.2) 3 2),
         Event.write_equation_systems "flutter_mode_imag.exo"
          (modal_combination ComplexQ.im root.eig_vec_right
            (fun i => (sample_env.get_eigenpair i).2.2) 3 2)] ∧
      modal_combination ComplexQ.re sample_root.eig_vec_right
        (fun i => (sample_env.get_eigenpair i).2.2) 3 2 = [1, 3 / 2] ∧
      modal_combination ComplexQ.im sample_root.eig_vec_right
        (fun i => (sample_env.get_eigenpair i).2.2) 3 2 = [1, 1] := by
  have h1 : ∀ i x, x.length = (construct 2).solution.length →
      (sample_env.solution_after_eigenpair i x).length = (construct 2).solution.length :=
    fun _ _ _ => rfl
  have h2 : ∀ i, (sample_env.get_eigenpair i).2.2.length = (construct 2).solution.length :=
    fun _ => rfl
  have h3 : (solve sample_env true (construct 2)).result = Except.ok 1110 := by decide!
  obtain ⟨root, es, a1, -, -, a4, -⟩ :=
    solve_writes_flutter_mode sample_env (construct 2) 1110 h1 h2 h3
  exact ⟨h1, h2, h3, root, es, a1, a4, by decide!, by decide!⟩

end BeamPistonTheoryFlutterAnalysis

/-!
## The time march and the lifecycle of the plate example
-/

namespace PlateOscillatingLoad

/-- C18: for every non-zero value `omega` of the frequency parameter, over the
reals, `t_period = 1/(omega/2/pi)` equals `2 * pi / omega` and is a period of the
load `p * sin(omega * t)`, and `dt = t_period / 20`. On an initialised object
`solve` returns, given fuel for more than `n_steps = 200` tests of the loop
condition, and with fuel for only `200` tests the loop has not ended: the loop
makes exactly `200` passes, each one `solver.solve()` followed by
`advance_time_step()`; pass `k` starts at the tracked time `k * dt`, and the
loop ends at the time `200 * dt = 10 * t_period`. -/
theorem solve_marches_ten_cycles (env : PlateEnv ℝ) (w : Bool) (fuel : Nat)
    (s : PlateOscillatingLoad ℝ) (press freq : Parameter)
    (hacos : env.math.acos = Real.arccos) (hsin : env.math.sin = Real.sin)
    (hi : s._initialized = true) (hf : s._freq = some freq) (hw : freq.value ≠ 0)
    (hfuel : 200 < fuel) :
    time_period env.math freq.value = 2 * Real.pi / (freq.value : ℝ) ∧
    (∀ (pt : Point ℝ) (t : ℝ),
      OscillatingDistributedLoad.operator_call env.math ⟨press, freq⟩ pt
          (t + time_period env.math freq.value) =
        OscillatingDistributedLoad.operator_call env.math ⟨press, freq⟩ pt t) ∧
    time_step_size env.math freq.value = time_period env.math freq.value / 20 ∧
    n_steps = 20 * 10 ∧
    (∀ s0 : PlateOscillatingLoad ℝ, ∃ st,
      time_loop env w n_steps (time_step_size env.math freq.value) fuel ⟨0, 0, s0⟩ = some st ∧
      st.t_step = 200 ∧
      st.tval = 200 * time_step_size env.math freq.value ∧
      st.tval = 10 * time_period env.math freq.value) ∧
    solve env w 200 s = none ∧
    solve env w fuel s =
      some ⟨{ s with
          solution := (List.range 200).foldl (fun x k => env.transient_solve k x)
            (List.replicate s.solution.length 0)
          log := s.log ++ [PlateEvent.attach_discipline_and_system] ++
            (List.range s._outputs.length).map PlateEvent.output_clear ++
            [PlateEvent.solve_highest_derivative_and_advance_time_step
              (time_step_size env.math freq.value)] ++
            (if w then [PlateEvent.print_message "Writing output to : output.exo"] else []) ++
            (List.range 200).flatMap (fun k =>
              [PlateEvent.print_time_step k ((k : ℝ) * time_step_size env.math freq.value)] ++
              (if w then [PlateEvent.write_timestep "output.exo" (k + 1)] else []) ++
              [PlateEvent.solver_solve (time_step_size env.math freq.value),
               PlateEvent.advance_time_step]) ++
            [PlateEvent.clear_discipline_and_system] },
        Except.ok ((List.range 200).foldl (fun x k => env.transient_solve k x)
            (List.replicate s.solution.length 0))⟩ := by
  have hw2 : (freq.value : ℝ) ≠ 0 := by exact_mod_cast hw
  have hpi : Real.pi ≠ 0 := Real.pi_ne_zero
  have hT : time_period env.math freq.value = 2 * Real.pi / (freq.value : ℝ) := by
    simp only [time_period, hacos, Real.arccos_neg_one]
    field_simp
  have hdt : time_step_size env.math freq.value = time_period env.math freq.value / 20 := by
    simp [time_step_size, n_steps_per_cycle]
  have hn : n_steps = 200 := rfl
  refine ⟨hT, ?_, hdt, rfl, ?_, ?_, ?_⟩
  · intro pt t
    simp only [OscillatingDistributedLoad.operator_call, hsin, hT]
    have harg : (freq.value : ℝ) * (t + 2 * Real.pi / (freq.value : ℝ)) =
        (freq.value : ℝ) * t + 2 * Real.pi := by
      field_simp
      ring
    rw [harg, Real.sin_add_two_pi]
  · intro s0
    refine ⟨_, time_loop_spec env w n_steps _ n_steps fuel ⟨0, 0, s0⟩ (Nat.zero_add _)
      (by rw [hn]; exact hfuel), rfl, ?_, ?_⟩
    · simp [hn]
    · simp only [hn, hdt]
      push_cast
      ring
  · exact plate_solve_out_of_fuel env w 200 s freq hi hf (by rw [hn])
  · rw [plate_solve_of_initialized env w fuel s freq hi hf (by rw [hn]; exact hfuel)]
    rfl

/-- C18 at work: the plate example after `init`, with `omega = 100`, on the real
functions and `201` units of fuel. -/
theorem solve_marches_ten_cycles_witness :
    (sample_plate_env (⟨Real.arccos, Real.sin, Real.cos, Real.sqrt⟩ : RealMath ℝ)).math.acos =
      Real.arccos ∧
    (init (sample_plate_env (⟨Real.arccos, Real.sin, Real.cos, Real.sqrt⟩ : RealMath ℝ))
      ElemType.QUAD4 false construct).state._freq = some ⟨7, "omega", 100⟩ ∧
    ((100 : ℚ) ≠ 0) ∧ 200 < 201 ∧
    time_period (⟨Real.arccos, Real.sin, Real.cos, Real.sqrt⟩ : RealMath ℝ) 100 =
      2 * Real.pi / ((100 : ℚ) : ℝ) ∧
    solve (sample_plate_env (⟨Real.arccos, Real.sin, Real.cos, Real.sqrt⟩ : RealMath ℝ))
      false 200
      (init (sample_plate_env (⟨Real.arccos, Real.sin, Real.cos, Real.sqrt⟩ : RealMath ℝ))
        ElemType.QUAD4 false construct).state = none :=
  ⟨rfl, rfl, by norm_num, by norm_num,
    (solve_marches_ten_cycles
      (sample_plate_env (⟨Real.arccos, Real.sin, Real.cos, Real.sqrt⟩ : RealMath ℝ)) false 201
      (init (sample_plate_env (⟨Real.arccos, Real.sin, Real.cos, Real.sqrt⟩ : RealMath ℝ))
        ElemType.QUAD4 false construct).state ⟨6, "p", 2000000⟩ ⟨7, "omega", 100⟩
      rfl rfl rfl rfl (by norm_num) (by norm_num)).1,
    (solve_marches_ten_cycles
      (sample_plate_env (⟨Real.arccos, Real.sin, Real.cos, Real.sqrt⟩ : RealMath ℝ)) false 201
      (init (sample_plate_env (⟨Real.arccos, Real.sin, Real.cos, Real.sqrt⟩ : RealMath ℝ))
        ElemType.QUAD4 false construct).state ⟨6, "p", 2000000⟩ ⟨7, "omega", 100⟩
      rfl rfl rfl rfl (by norm_num) (by norm_num)).2.2.2.2.2.1⟩

/-- C19: `_initialized` is false after construction. A call of `init` on an
initialised object fails at `libmesh_assert(!_initialized)` and changes
nothing; on an object that is not initialised it leaves `_initialized` true
exactly when it completes. `get_parameter`, `solve`, `sensitivity_solve` and
`clear_stresss` fail at `libmesh_assert(_initialized)` on an object that is not
initialised, changing nothing, and none of them changes `_initialized`,
whichever way it ends: the flag becomes true only at the end of a completed
`init` and is never reset. -/
theorem initialized_lifecycle {R : Type} [Field R] (env : PlateEnv R) :
    (construct : PlateOscillatingLoad R)._initialized = false ∧
    (∀ e_type if_vk (s : PlateOscillatingLoad R), s._initialized = true →
      init env e_type if_vk s = ⟨s, Except.error (Failure.assertion "!_initialized")⟩) ∧
    (∀ e_type if_vk (s : PlateOscillatingLoad R), s._initialized = false →
      ((init env e_type if_vk s).state._initialized = true ↔
        (init env e_type if_vk s).result = Except.ok ())) ∧
    (∀ nm (s : PlateOscillatingLoad R), s._initialized = false →
      get_parameter nm s = ⟨s, Except.error (Failure.assertion "_initialized")⟩) ∧
    (∀ w fuel (s : PlateOscillatingLoad R), s._initialized = false →
      solve env w fuel s = some ⟨s, Except.error (Failure.assertion "_initialized")⟩) ∧
    (∀ p w (s : PlateOscillatingLoad R), s._initialized = false →
      sensitivity_solve env p w s = ⟨s, Except.error (Failure.assertion "_initialized")⟩) ∧
    (∀ s : PlateOscillatingLoad R, s._initialized = false →
      clear_stresss s = ⟨s, Except.error (Failure.assertion "_initialized")⟩) ∧
    (∀ nm (s : PlateOscillatingLoad R),
      (get_parameter nm s).state._initialized = s._initialized) ∧
    (∀ w fuel (s : PlateOscillatingLoad R) o, solve env w fuel s = some o →
      o.state._initialized = s._initialized) ∧
    (∀ p w (s : PlateOscillatingLoad R),
      (sensitivity_solve env p w s).state._initialized = s._initialized) ∧
    (∀ s : PlateOscillatingLoad R, (clear_stresss s).state._initialized = s._initialized) := by
  refine ⟨rfl, init_of_initialized env, ?_, get_parameter_not_initialized,
    plate_solve_not_initialized env, plate_sensitivity_solve_not_initialized env,
    clear_stresss_not_initialized, ?_, ?_, ?_, ?_⟩
  · intro e_type if_vk s hs
    constructor
    · intro h
      cases hr : (init env e_type if_vk s).result with
      | ok u => rfl
      | error f =>
        rw [init_failed_initialized env e_type if_vk s f hr, hs] at h
        cases h
    · intro h
      obtain ⟨hi, ⟨elems, hb⟩, ⟨pts, hp⟩⟩ := (init_ok_iff env e_type if_vk s).mp h
      rw [init_of_points env e_type if_vk s elems pts hi hb hp]
  · intro nm s
    rcases plate_get_parameter_state nm s with h | h <;> rw [h]
    rfl
  · intro w fuel s o h
    obtain ⟨sol, lg, hst⟩ := plate_solve_frame env w fuel s o h
    rw [hst]
  · intro p w s
    obtain ⟨pm, sens, lg, hst⟩ := plate_sensitivity_solve_frame env p w s
    rw [hst]
  · intro s
    by_cases hi : s._initialized = true
    · rw [clear_stresss_of_initialized s hi]
    · rw [clear_stresss_not_initialized s (by simpa using hi)]

/-- C20: on a constructed object and a mesh from the library, `init` completes
exactly for the element types `QUAD4`, `QUAD8`, `QUAD9`, `TRI3` and `TRI6`. For
a quadrilateral type the stress is evaluated at `8` points and for a triangle
type at `6`: consecutive pairs of an upper-skin and a lower-skin point with the
same in-plane coordinates and third coordinate `1` and `-1`. There is one
stress output per mesh element, in mesh order, each on its own element and
with these points. For any other element type `init` fails at
`libmesh_assert(false)` and `_initialized` stays false. -/
theorem init_element_types {R : Type} [Field R] (env : PlateEnv R) (e_type : ElemType)
    (if_vk : Bool) (elems : List Elem) (hb : env.build_square e_type = Except.ok elems) :
    ((init env e_type if_vk construct).result = Except.ok () ↔
      e_type ∈ [ElemType.QUAD4, ElemType.QUAD8, ElemType.QUAD9, ElemType.TRI3,
        ElemType.TRI6]) ∧
    (e_type ∈ [ElemType.QUAD4, ElemType.QUAD8, ElemType.QUAD9] →
      ∃ pts : List (Point R), pts.length = 8 ∧
        pts = [((-1 / env.math.sqrt 3, -1 / env.math.sqrt 3) : R × R),
            (1 / env.math.sqrt 3, -1 / env.math.sqrt 3),
            (1 / env.math.sqrt 3, 1 / env.math.sqrt 3),
            (-1 / env.math.sqrt 3, 1 / env.math.sqrt 3)].flatMap
          (fun q => [⟨q.1, q.2, 1⟩, ⟨q.1, q.2, -1⟩]) ∧
        (init env e_type if_vk construct).state._outputs =
          elems.map (fun e => ⟨[e.id], pts⟩) ∧
        (init env e_type if_vk construct).state._initialized = true) ∧
    (e_type ∈ [ElemType.TRI3, ElemType.TRI6] →
      ∃ pts : List (Point R), pts.length = 6 ∧
        pts = [((1 / 3, 1 / 3) : R × R), (2 / 3, 1 / 3), (1 / 3, 2 / 3)].flatMap
          (fun q => [⟨q.1, q.2, 1⟩, ⟨q.1, q.2, -1⟩]) ∧
        (init env e_type if_vk construct).state._outputs =
          elems.map (fun e => ⟨[e.id], pts⟩) ∧
        (init env e_type if_vk construct).state._initialized = true) ∧
    (e_type ∉ [ElemType.QUAD4, ElemType.QUAD8, ElemType.QUAD9, ElemType.TRI3,
        ElemType.TRI6] →
      (init env e_type if_vk construct).result = Except.error (Failure.assertion "false") ∧
      (init env e_type if_vk construct).state._initialized = false ∧
      (init env e_type if_vk construct).state._outputs = []) := by
  have hq : ∀ e, e ∈ [ElemType.QUAD4, ElemType.QUAD8, ElemType.QUAD9] →
      stress_points env.math e =
        some ([((-1 / env.math.sqrt 3, -1 / env.math.sqrt 3) : R × R),
            (1 / env.math.sqrt 3, -1 / env.math.sqrt 3),
            (1 / env.math.sqrt 3, 1 / env.math.sqrt 3),
            (-1 / env.math.sqrt 3, 1 / env.math.sqrt 3)].flatMap
          (fun q => [⟨q.1, q.2, 1⟩, ⟨q.1, q.2, -1⟩])) := by
    intro e he
    simp only [List.mem_cons, List.mem_singleton, List.not_mem_nil, or_false] at he
    rcases he with rfl | rfl | rfl <;> rfl
  have ht : ∀ e, e ∈ [ElemType.TRI3, ElemType.TRI6] →
      stress_points env.math e =
        some ([((1 / 3, 1 / 3) : R × R), (2 / 3, 1 / 3), (1 / 3, 2 / 3)].flatMap
          (fun q => [⟨q.1, q.2, 1⟩, ⟨q.1, q.2, -1⟩])) := by
    intro e he
    simp only [List.mem_cons, List.mem_singleton, List.not_mem_nil, or_false] at he
    rcases he with rfl | rfl <;> rfl
  refine ⟨?_, ?_, ?_, ?_⟩
  · rw [init_ok_iff]
    cases e_type <;> simp [hb, construct, stress_points]
  · intro he
    refine ⟨_, ?_, rfl, ?_, ?_⟩
    · rfl
    · rw [init_of_points env e_type if_vk construct elems _ rfl hb (hq e_type he)]
      simp [construct]
    · rw [init_of_points env e_type if_vk construct elems _ rfl hb (hq e_type he)]
  · intro he
    refine ⟨_, ?_, rfl, ?_, ?_⟩
    · rfl
    · rw [init_of_points env e_type if_vk construct elems _ rfl hb (ht e_type he)]
      simp [construct]
    · rw [init_of_points env e_type if_vk construct elems _ rfl hb (ht e_type he)]
  · intro he
    cases e_type with
    | other tag => simp [init, construct, hb, stress_points]
    | _ => simp at he

/-- C20 at work: `init(QUAD4, false)` on the sample collaborators, whose mesh has
two elements, completes and leaves two stress outputs; `init` with another
element type fails at the assertion. -/
theorem init_element_types_witness :
    (sample_plate_env rational_math).build_square ElemType.QUAD4 =
      Except.ok [⟨0, 0⟩, ⟨1, 0⟩] ∧
    (init (sample_plate_env rational_math) ElemType.QUAD4 false construct).result =
      Except.ok () ∧
    (init (sample_plate_env rational_math) (ElemType.other 0) false construct).result =
      Except.error (Failure.assertion "false") ∧
    sample_plate._outputs.length = 2 :=
  ⟨rfl,
    (init_element_types (sample_plate_env rational_math) ElemType.QUAD4 false
      [⟨0, 0⟩, ⟨1, 0⟩] rfl).1.mpr (by decide),
    ((init_element_types (sample_plate_env rational_math) (ElemType.other 0) false
      [⟨0, 0⟩, ⟨1, 0⟩] rfl).2.2.2 (by decide)).1,
    rfl⟩

end PlateOscillatingLoad

/-!
## The output of the sensitivity solve of the plate example
-/

namespace PlateOscillatingLoad

/-- C21: the two file names `sensitivity_solve(p, true)` builds and announces
are one and the same string, `"output_" + p.name() + ".exo"`: on every
initialised object the sensitivity solution and the stress/strain sensitivity
are written, in this order, to the same file. For the parameter `E` of the
sample plate both go to `output_E.exo`. -/
theorem sensitivity_solve_writes_one_file {R : Type} [Field R] (env : PlateEnv R)
    (p : Parameter) (s : PlateOscillatingLoad R) :
    (s._initialized = true →
      ∃ es, (sensitivity_solve env p true s).state.log = s.log ++ es ++
        [PlateEvent.print_message ("Writing sensitivity output to : " ++
          ("output_" ++ p.name ++ ".exo") ++ "  and stress/strain sensitivity to : " ++
          ("output_" ++ p.name ++ ".exo")),
         PlateEvent.write_equation_systems ("output_" ++ p.name ++ ".exo")
          (env.sensitivity_solve [p.ptr] s.solution),
         PlateEvent.plot_stress_strain_data ("output_" ++ p.name ++ ".exo") p.ptr]) ∧
    (sensitivity_solve (sample_plate_env rational_math) sample_plate_parameter true
        sample_plate).state.log =
      [PlateEvent.add_parameter 1, PlateEvent.attach_discipline_and_system,
       PlateEvent.output_clear 0, PlateEvent.output_clear 1,
       PlateEvent.sensitivity_solve [1], PlateEvent.calculate_output_sensitivity [1] true,
       PlateEvent.clear_discipline_and_system, PlateEvent.remove_parameter 1,
       PlateEvent.print_message
        "Writing sensitivity output to : output_E.exo  and stress/strain sensitivity to : output_E.exo",
       PlateEvent.write_equation_systems "output_E.exo" [0, 0, 0],
       PlateEvent.plot_stress_strain_data "output_E.exo" 1] := by
  constructor
  · intro hi
    rw [plate_sensitivity_solve_written env p s hi]
    exact ⟨[PlateEvent.add_parameter p.ptr, PlateEvent.attach_discipline_and_system] ++
      (List.range s._outputs.length).map PlateEvent.output_clear ++
      [PlateEvent.sensitivity_solve [p.ptr],
       PlateEvent.calculate_output_sensitivity [p.ptr] true,
       PlateEvent.clear_discipline_and_system, PlateEvent.remove_parameter p.ptr], by simp⟩
  · decide!

/-- C22: on an initialised object, `sensitivity_solve(p, true)` returns what
`sensitivity_solve(p, false)` returns and leaves the state that call leaves,
but for the three lines of output in the log. The file is written while the
system solution holds the sensitivity vector, and on return the system
solution is the one found on entry, sensitivity solution `0` is the computed
sensitivity, and `p` is not among the parameters the discipline tracks. -/
theorem sensitivity_solve_output_restores_state {R : Type} [Field R] (env : PlateEnv R)
    (p : Parameter) (s : PlateOscillatingLoad R) (hi : s._initialized = true) :
    (sensitivity_solve env p true s).result = (sensitivity_solve env p false s).result ∧
    (sensitivity_solve env p true s).result =
      Except.ok (env.sensitivity_solve [p.ptr] s.solution) ∧
    (sensitivity_solve env p true s).state.solution =
      (sensitivity_solve env p false s).state.solution ∧
    (sensitivity_solve env p true s).state.solution = s.solution ∧
    (sensitivity_solve env p true s).state.sensitivity_solution =
      (sensitivity_solve env p false s).state.sensitivity_solution ∧
    (sensitivity_solve env p true s).state.sensitivity_solution =
      some (env.sensitivity_solve [p.ptr] s.solution) ∧
    (sensitivity_solve env p true s).state._parameter_map =
      (sensitivity_solve env p false s).state._parameter_map ∧
    p.ptr ∉ (sensitivity_solve env p true s).state._parameter_map ∧
    PlateEvent.write_equation_systems ("output_" ++ p.name ++ ".exo")
        (env.sensitivity_solve [p.ptr] s.solution) ∈
      (sensitivity_solve env p true s).state.log ∧
    (sensitivity_solve env p true s).state =
      { (sensitivity_solve env p false s).state with
        log := (sensitivity_solve env p false s).state.log ++
          [PlateEvent.print_message ("Writing sensitivity output to : " ++
            ("output_" ++ p.name ++ ".exo") ++ "  and stress/strain sensitivity to : " ++
            ("output_" ++ p.name ++ ".exo")),
           PlateEvent.write_equation_systems ("output_" ++ p.name ++ ".exo")
            (env.sensitivity_solve [p.ptr] s.solution),
           PlateEvent.plot_stress_strain_data ("output_" ++ p.name ++ ".exo") p.ptr] } := by
  rw [plate_sensitivity_solve_written env p s hi, plate_sensitivity_solve_quiet env p s hi]
  refine ⟨rfl, rfl, rfl, rfl, rfl, rfl, rfl, ?_, ?_, ?_⟩
  · simp
  · simp
  · simp

/-- C22 at work: the sample plate and its parameter `E`. -/
theorem sensitivity_solve_output_restores_state_witness :
    sample_plate._initialized = true ∧
    (sensitivity_solve (sample_plate_env rational_math) sample_plate_parameter true
        sample_plate).state.solution = sample_plate.solution ∧
    (sensitivity_solve (sample_plate_env rational_math) sample_plate_parameter true
        sample_plate).result =
      (sensitivity_solve (sample_plate_env rational_math) sample_plate_parameter false
        sample_plate).result :=
  ⟨rfl,
    (sensitivity_solve_output_restores_state (sample_plate_env rational_math)
      sample_plate_parameter sample_plate rfl).2.2.2.1,
    (sensitivity_solve_output_restores_state (sample_plate_env rational_math)
      sample_plate_parameter sample_plate rfl).1⟩

end PlateOscillatingLoad

/-!
## The modal basis and the parameter names of the beam analysis
-/

namespace BeamPistonTheoryFlutterAnalysis

/-- After the first part of `solve`, nothing touches the basis. -/
theorem solve_basis (env : Env) (w : Bool) (s : BeamPistonTheoryFlutterAnalysis) :
    (solve env w s).state._basis = (solve_modal env w s).state._basis := by
  rcases hm : solve_modal env w s with ⟨sm, (f | u)⟩
  · simp only [solve, hm]
  · obtain ⟨-, -, -, -, -, c6, -⟩ := solve_scan_frame env sm
    simp only [solve, hm]
    split
    · exact c6
    · split
      · split
        · exact c6
        · split
          · simp [record, c6]
          · simp [return_V_state, record, c6]
      · simp [return_V_state, c6]

/-- A first part of `solve` that fails at its assertion leaves the basis alone. -/
theorem solve_modal_basis_of_error (env : Env) (w : Bool) (s : BeamPistonTheoryFlutterAnalysis)
    (f : Failure) (h : (solve_modal env w s).result = Except.error f) :
    (solve_modal env w s).state._basis = s._basis ∧
    f = Failure.assertion "_basis.size() == nconv" := by
  obtain ⟨-, -, -, -, -, e6, -⟩ := solve_eigenproblem_frame s
  unfold solve_modal at h ⊢
  simp only [] at h ⊢
  split
  · rename_i hc
    rw [if_pos hc] at h
    injection h with h
    exact ⟨e6, h.symm⟩
  · rename_i hc
    rw [if_neg hc] at h
    cases h

/-- In every state the object can be in, no entry of the basis is null. -/
theorem reachable_basis (s : BeamPistonTheoryFlutterAnalysis) (h : Reachable s) :
    ∀ x ∈ s._basis, x ≠ none := by
  induction h with
  | construct n => intro x hx; cases hx
  | @solve env w s _ ih =>
    rw [solve_basis]
    cases hr : (solve_modal env w s).result with
    | error f =>
      rw [(solve_modal_basis_of_error env w s f hr).1]
      exact ih
    | ok u =>
      rw [solve_modal_basis env w s hr]
      intro x hx
      obtain ⟨j, -, rfl⟩ := List.mem_map.mp hx
      exact Option.some_ne_none _
  | @sensitivity_solve env p s _ ih =>
    cases hr : s._flutter_root with
    | none =>
      rw [sensitivity_solve_null_root_state env p s hr]
      exact ih
    | some root =>
      rw [(sensitivity_solve_of_root env p s root hr).2]
      exact ih
  | @get_parameter nm s _ ih =>
    rcases get_parameter_state nm s with h | h <;> rw [h] <;> exact ih
  | set_E v _ ih => exact ih
  | set_nu v _ ih => exact ih
  | set_thy v _ ih => exact ih
  | set_thz v _ ih => exact ih

/-- A pass of the mode loop over an entry that is not null allocates nothing. -/
theorem solve_mode_log_of_some (env : Env) (w : Bool) (s : BeamPistonTheoryFlutterAnalysis)
    (i : Nat) (h : s._basis.getD i none ≠ none) :
    ∃ l, (solve_mode env w s i).log = s.log ++ l ∧ ∀ j, Event.zero_clone j ∉ l := by
  unfold solve_mode
  cases hb : s._basis.getD i none with
  | none => exact absurd hb h
  | some b => cases w <;> simp [record]

/-- The mode loop allocates nothing when it runs over entries that are all
there and none of which is null. -/
theorem solve_mode_loop_log_of_some (env : Env) (w : Bool) (l : List Nat) :
    ∀ s : BeamPistonTheoryFlutterAnalysis, (∀ x ∈ s._basis, x ≠ none) →
      (∀ i ∈ l, i < s._basis.length) →
      ∃ es, (l.foldl (solve_mode env w) s).log = s.log ++ es ∧
        ∀ j, Event.zero_clone j ∉ es := by
  induction l with
  | nil => intro s _ _; exact ⟨[], by simp, by simp⟩
  | cons i l ih =>
    intro s hs hl
    have hi : i < s._basis.length := hl i (List.mem_cons_self i l)
    have hget : s._basis.getD i none ≠ none := by
      rw [List.getD_eq_getElem?_getD, List.getElem?_eq_getElem hi]
      exact hs _ (List.getElem_mem hi)
    obtain ⟨e1, h1, p1⟩ := solve_mode_log_of_some env w s i hget
    obtain ⟨e2, h2, p2⟩ := ih (solve_mode env w s i)
      (by
        rw [solve_mode_basis]
        intro x hx
        rcases List.mem_or_eq_of_mem_set hx with h | h
        · exact hs x h
        · rw [h]
          exact Option.some_ne_none _)
      (by
        intro k hk
        rw [(solve_mode_frame env w s i).2.2.2.2.1]
        exact hl k (List.mem_cons_of_mem i hk))
    refine ⟨e1 ++ e2, ?_, ?_⟩
    · simp only [List.foldl_cons, h2, h1, List.append_assoc]
    · intro j hj
      rcases List.mem_append.mp hj with h | h
      · exact p1 j h
      · exact p2 j h

/-- The first part of `solve`, on a basis that is not empty and has no null
entry, allocates nothing. -/
theorem solve_modal_log_of_some (env : Env) (w : Bool) (s : BeamPistonTheoryFlutterAnalysis)
    (hpos : 0 < s._basis.length) (hs : ∀ x ∈ s._basis, x ≠ none) :
    ∃ es, (solve_modal env w s).state.log = s.log ++ es ∧ ∀ j, Event.zero_clone j ∉ es := by
  obtain ⟨-, -, -, e4, -, e6, e7⟩ := solve_eigenproblem_frame s
  unfold solve_modal
  simp only []
  split
  · exact ⟨_, e7, by simp⟩
  · rename_i hc
    have hlen : (solve_eigenproblem s)._basis.length =
        min env.n_converged_eigenvalues (solve_eigenproblem s).n_requested_eigenvalues :=
      not_not.mp (not_and.mp hc (by rw [e6]; exact hpos))
    have hres : solve_resize
        (min env.n_converged_eigenvalues (solve_eigenproblem s).n_requested_eigenvalues)
        (solve_eigenproblem s) = solve_eigenproblem s := by
      unfold solve_resize
      rw [if_pos (by rw [e6]; exact hpos)]
    rw [hres]
    obtain ⟨es, h1, p1⟩ := solve_mode_loop_log_of_some env w
      (List.range (min env.n_converged_eigenvalues (solve_eigenproblem s).n_requested_eigenvalues))
      (solve_eigenproblem s) (by rw [e6]; exact hs)
      (by
        intro i hi
        rw [hlen]
        exact List.mem_range.mp hi)
    refine ⟨[Event.flutter_clear, Event.eigenproblem_solve 0] ++ es, ?_, ?_⟩
    · rw [h1, e7, List.append_assoc]
    · intro j hj
      rcases List.mem_append.mp hj with h | h
      · simp at h
      · exact p1 j h

/-- After its first part, `solve` allocates nothing. -/
theorem solve_log_after_modal (env : Env) (w : Bool) (s : BeamPistonTheoryFlutterAnalysis) :
    ∃ rest, (solve env w s).state.log = (solve_modal env w s).state.log ++ rest ∧
      ∀ j, Event.zero_clone j ∉ rest := by
  rcases hm : solve_modal env w s with ⟨sm, (f | u)⟩
  · rw [solve_of_modal_error env w s sm f hm]
    exact ⟨[], by simp, by simp⟩
  · obtain ⟨-, -, -, -, -, -, c7⟩ := solve_scan_frame env sm
    cases hf : (env.find_critical_root (flutter_init sm) critical_root_tolerance
        critical_root_max_iterations).1 with
    | false =>
      rw [solve_of_not_found env w s sm u hm hf]
      exact ⟨_, c7, by simp⟩
    | true =>
      obtain ⟨-, ⟨ws, hws, pws⟩, -, -⟩ := solve_of_found env w s sm u hm hf
      refine ⟨[Event.attach_assembly, Event.flutter_initialize (flutter_init sm),
        Event.scan_for_roots, Event.print_sorted_roots, Event.print_crossover_points,
        Event.find_critical_root critical_root_tolerance critical_root_max_iterations,
        Event.print_sorted_roots, Event.clear_assembly_object] ++ ws, ?_, ?_⟩
      · rw [hws, c7, List.append_assoc]
      · intro j hj
        rcases List.mem_append.mp hj with h | h
        · simp at h
        · obtain ⟨f, x, h2⟩ := pws _ h
          cases h2

/-- C23: in every state the object can be in, after a `solve` that returns
`_basis` has exactly `nconv = min(n_converged, n_requested)` entries, none of
them null: entry `i` is eigenvector `i`. When `_basis` is not empty on entry,
`solve` leaves its size alone and makes no call of `zero_clone`, that is, it
allocates no vector, whichever way the call ends; if the size differs from
`nconv` the call fails at the assertion `_basis.size() == nconv` with the basis
untouched, and otherwise every existing entry is overwritten with the new
eigenvector. -/
theorem solve_modal_basis_invariant (env : Env) (w : Bool)
    (s : BeamPistonTheoryFlutterAnalysis) (hr : Reachable s) :
    (∀ v, (solve env w s).result = Except.ok v →
      (solve env w s).state._basis.length =
        min env.n_converged_eigenvalues s.n_requested_eigenvalues ∧
      (∀ x ∈ (solve env w s).state._basis, x ≠ none) ∧
      (solve env w s).state._basis =
        (List.range (min env.n_converged_eigenvalues s.n_requested_eigenvalues)).map
          (fun i => some (env.get_eigenpair i).2.2)) ∧
    (0 < s._basis.length →
      (solve env w s).state._basis.length = s._basis.length ∧
      (∀ i, Event.zero_clone i ∉ new_events s (solve env w s).state) ∧
      (s._basis.length ≠ min env.n_converged_eigenvalues s.n_requested_eigenvalues →
        (solve env w s).result = Except.error (Failure.assertion "_basis.size() == nconv") ∧
        (solve env w s).state._basis = s._basis) ∧
      (s._basis.length = min env.n_converged_eigenvalues s.n_requested_eigenvalues →
        (solve env w s).state._basis =
          (List.range s._basis.length).map (fun i => some (env.get_eigenpair i).2.2))) := by
  obtain ⟨-, -, -, e4, -, e6, -⟩ := solve_eigenproblem_frame s
  constructor
  · intro v hv
    obtain ⟨hm, -⟩ := (solve_flutter_root env w s).1 v hv
    have hb := solve_modal_basis env w s hm
    rw [solve_basis, hb]
    refine ⟨by simp, ?_, rfl⟩
    intro x hx
    obtain ⟨j, -, rfl⟩ := List.mem_map.mp hx
    exact Option.some_ne_none _
  · intro hpos
    have halloc : ∀ i, Event.zero_clone i ∉ new_events s (solve env w s).state := by
      obtain ⟨es, h1, p1⟩ := solve_modal_log_of_some env w s hpos (reachable_basis s hr)
      obtain ⟨rest, h2, p2⟩ := solve_log_after_modal env w s
      intro i hi
      simp only [new_events] at hi
      rw [h2, h1, List.append_assoc, List.drop_left] at hi
      rcases List.mem_append.mp hi with h | h
      · exact p1 i h
      · exact p2 i h
    by_cases hlen : s._basis.length = min env.n_converged_eigenvalues s.n_requested_eigenvalues
    · have hm : (solve_modal env w s).result = Except.ok () := by
        unfold solve_modal
        simp only []
        rw [if_neg (by rw [e6, e4]; exact fun h => h.2 hlen)]
      have hb := solve_modal_basis env w s hm
      refine ⟨?_, halloc, fun h => absurd hlen h, ?_⟩
      · rw [solve_basis, hb]
        simp [hlen]
      · intro _
        rw [solve_basis, hb, hlen]
    · have hm : solve_modal env w s = ⟨solve_eigenproblem s,
          Except.error (Failure.assertion "_basis.size() == nconv")⟩ := by
        unfold solve_modal
        simp only []
        rw [if_pos (by rw [e6, e4]; exact ⟨hpos, hlen⟩)]
      refine ⟨?_, halloc, fun _ => ⟨?_, ?_⟩, fun h => absurd h hlen⟩
      · rw [solve_basis, hm]
        simp only []
        rw [e6]
      · rw [solve_of_modal_error env w s _ _ hm]
      · rw [solve_basis, hm]
        exact e6

/-- C23 at work: the first `solve` of the sample run allocates the three basis
vectors, in order; a second `solve` on the state it leaves allocates none and
keeps the three entries. -/
theorem solve_modal_basis_invariant_witness :
    Reachable sample_solved ∧ 0 < sample_solved._basis.length ∧
    (new_events (construct 2) (solve sample_env false (construct 2)).state).filter
        (fun e => decide (e ∈ [Event.zero_clone 0, Event.zero_clone 1, Event.zero_clone 2])) =
      [Event.zero_clone 0, Event.zero_clone 1, Event.zero_clone 2] ∧
    (∀ i, Event.zero_clone i ∉
      new_events sample_solved (solve sample_env false sample_solved).state) ∧
    (solve sample_env false sample_solved).state._basis.length = sample_solved._basis.length :=
  ⟨sample_solved_reachable, by decide, by decide!,
    ((solve_modal_basis_invariant sample_env false sample_solved sample_solved_reachable).2
      (by decide)).2.1,
    ((solve_modal_basis_invariant sample_env false sample_solved sample_solved_reachable).2
      (by decide)).1⟩

/-- C24, as stated, fails: the structural density and the air density, two
parameter objects at different addresses, both have the name `rho`, so the
names of the ten parameters are not pairwise distinct. -/
theorem parameter_names_counterexample :
    (construct 2)._rho.name = (construct 2)._rho_air.name ∧
    (construct 2)._rho.ptr ≠ (construct 2)._rho_air.ptr ∧
    ¬ ((parameters (construct 2)).map (fun q => q.name)).Nodup := by
  decide

/-- C24, amended: in every state the object can be in, the ten parameter
objects have pairwise distinct addresses and the names `thy`, `thz`, `rho`, `E`,
`nu`, `zero`, `V`, `mach`, `rho`, `gamma`: nine distinct names, `rho` being the
name of both the structural density and the air density. The four parameters
registered for sensitivity have the pairwise distinct names `E`, `nu`, `thy`,
`thz`, so that for every name at most one registered parameter has it and the
result of `get_parameter` is unambiguous. -/
theorem registered_parameter_names_distinct (s : BeamPistonTheoryFlutterAnalysis)
    (hr : Reachable s) :
    (parameters s).map (fun q => q.name) =
      ["thy", "thz", "rho", "E", "nu", "zero", "V", "mach", "rho", "gamma"] ∧
    ((parameters s).map (fun q => q.ptr)).Nodup ∧
    ((parameters s).map (fun q => q.name)).dedup.length = 9 ∧
    s._rho.name = s._rho_air.name ∧ s._rho.ptr ≠ s._rho_air.ptr ∧
    valid_names (deref s) s._params_for_sensitivity = ["E", "nu", "thy", "thz"] ∧
    (valid_names (deref s) s._params_for_sensitivity).Nodup ∧
    ∀ nm, (s._params_for_sensitivity.filter
      (fun p => (deref s p).any (fun q => decide (nm = q.name)))).length ≤ 1 := by
  have hid := reachable_identities s hr
  have hnames : (parameters s).map (fun q => q.name) =
      ["thy", "thz", "rho", "E", "nu", "zero", "V", "mach", "rho", "gamma"] := by
    have := congrArg (fun x => x.2.map Prod.snd) hid
    simpa [parameter_identities, List.map_map, Function.comp] using this
  have hptrs : (parameters s).map (fun q => q.ptr) = [0, 1, 2, 3, 4, 5, 6, 7, 8, 9] := by
    have := congrArg (fun x => x.2.map Prod.fst) hid
    simpa [parameter_identities, List.map_map, Function.comp] using this
  obtain ⟨hp, d3, d4, d0, d1, n3, n4, n0, n1⟩ := beam_registered s hr
  have hvalid := beam_valid_names s hr
  refine ⟨hnames, ?_, ?_, ?_, ?_, hvalid, ?_, ?_⟩
  · rw [hptrs]
    decide
  · rw [hnames]
    decide
  · have h2 := hnames
    simp only [parameters, List.map_cons, List.map_nil, List.cons.injEq, and_true] at h2
    rw [h2.2.2.1, h2.2.2.2.2.2.2.2.2.1]
  · have h2 := hptrs
    simp only [parameters, List.map_cons, List.map_nil, List.cons.injEq, and_true] at h2
    rw [h2.2.2.1, h2.2.2.2.2.2.2.2.2.1]
    decide
  · rw [hvalid]
    decide
  · intro nm
    rw [hp]
    simp only [List.filter_cons, List.filter_nil, d3, d4, d0, d1, Option.any_some, n3, n4, n0,
      n1]
    by_cases h1 : nm = "thz"
    · subst h1
      simp
    · by_cases h2 : nm = "thy"
      · subst h2
        simp
      · by_cases h3 : nm = "nu"
        · subst h3
          simp
        · by_cases h4 : nm = "E"
          · subst h4
            simp
          · simp [h1, h2, h3, h4]

/-- The amended C24 at work, on the analysis after construction and one solve. -/
theorem registered_parameter_names_distinct_witness :
    Reachable sample_solved ∧
    (parameters sample_solved).map (fun q => q.name) =
      ["thy", "thz", "rho", "E", "nu", "zero", "V", "mach", "rho", "gamma"] ∧
    (valid_names (deref sample_solved) sample_solved._params_for_sensitivity).Nodup :=
  ⟨sample_solved_reachable,
    (registered_parameter_names_distinct sample_solved sample_solved_reachable).1,
    (registered_parameter_names_distinct sample_solved sample_solved_reachable).2.2.2.2.2.2.1⟩

end BeamPistonTheoryFlutterAnalysis

end MAST
